import Mathlib

/-!
# Window-Fabricator: section tables, market rounding and pricing

A shallow embedding of `13EX.cpp`.

Modelling conventions
* `float` is modelled by `ℚ`: every statement below is a statement in exact
  arithmetic (the literal `0.6f` is `3/5`, `12.0f` is `12`).
* `int` is modelled by `ℤ` (no wrap-around); `static_cast<int>` of a float is
  truncation toward zero, `floor` is `Int.floor`.
* `std::map<string, float>` is modelled by an association list kept sorted by
  key; range-for iteration over the map is iteration over the list.
* A class is a structure of its data members; a member function takes the
  structure as its first argument.  Text written to `cout`/`cerr` by
  `calculateTotalPrice` is returned as a list of `Output` records.
* An escaping `std::out_of_range` is the result `none`.
-/

namespace WindowFabricator

/-! ## `std::map<string, float>` -/

/-- A `std::map<string, float>`: entries in increasing key order. -/
abbrev SectionMap := List (String × ℚ)

/-- The statement `m[k] = v;` on a `std::map`: overwrite the entry of `k`, or insert
it at its place in key order. -/
def mapAssign : SectionMap → String → ℚ → SectionMap
  | [], k, v => [(k, v)]
  | (k', v') :: rest, k, v =>
    if k < k' then (k, v) :: (k', v') :: rest
    else if k = k' then (k, v) :: rest
    else (k', v') :: mapAssign rest k v

/-- A run of statements `m[k₁] = v₁; m[k₂] = v₂; ...` executed left to right. -/
def assigns (m : SectionMap) (kvs : List (String × ℚ)) : SectionMap :=
  kvs.foldl (fun acc kv => mapAssign acc kv.1 kv.2) m

/-- The call `m.at(k)`: `none` stands for the thrown `std::out_of_range`. -/
def mapAt : SectionMap → String → Option ℚ
  | [], _ => none
  | (k', v') :: rest, k => if k = k' then some v' else mapAt rest k

/-- The call `m.count(k)`. -/
def mapCount : SectionMap → String → ℕ
  | [], _ => 0
  | (k', _) :: rest, k => if k = k' then 1 else mapCount rest k

/-- The call `m.erase(k)`: the table without the entry of `k`. -/
def mapErase (m : SectionMap) (k : String) : SectionMap :=
  m.filter (fun e => decide (e.1 ≠ k))

/-- The keys of a map, in iteration order. -/
def mapKeys (m : SectionMap) : List String := m.map Prod.fst

/-! ## Conversions between `float` and `int` -/

/-- The conversion `static_cast<int>(x)` of a float: truncation toward zero. -/
def castInt (x : ℚ) : ℤ := if 0 ≤ x then ⌊x⌋ else ⌈x⌉

/-- The expression `static_cast<int>(floor(x))`. -/
def floorInt (x : ℚ) : ℤ := ⌊x⌋

/-! ## Output of `calculateTotalPrice` -/

/-- What `calculateTotalPrice` writes for one entry of the section map: either the
priced line (name, inches, feet, rounded feet, price) or the missing-rate
message for a name. -/
inductive Output where
  | line (name : String) (inches ft rounded price : ℚ)
  | missing (name : String)
  deriving DecidableEq, Repr

/-- The section name an output record is about. -/
def Output.name : Output → String
  | .line n _ _ _ _ => n
  | .missing n => n

/-- The amount of a priced line; a missing-rate message carries no amount. -/
def Output.amount : Output → ℚ
  | .line _ _ _ _ p => p
  | .missing _ => 0

/-- The pricing loop of the classes that call `rates.at` with no handler
(FlexiblePanelWindow, ThreePanel_3glass, DoorWindow, QadialArchWindow,
RoundArchWindow, FixCornerWindow, SlideCornerWindow):
`for (s : sections) { rounded = round(s.second); price = rounded * rates.at(s.first);
total += price; cout << ...; }  return total;`.
The accumulator is `total` together with the text written so far. -/
def priceLoopAt (round : ℚ → ℚ) (rates : SectionMap) :
    List (String × ℚ) → ℚ × List Output → Option (ℚ × List Output)
  | [], acc => some acc
  | s :: rest, (total, out) =>
    let inches := s.2
    let ft := inches / 12
    let rounded := round inches
    match mapAt rates s.1 with
    | none => none
    | some rate =>
      let price := rounded * rate
      priceLoopAt round rates rest (total + price, out ++ [Output.line s.1 inches ft rounded price])

/-- The pricing loop of FixWindow and RandomFixWindow: the lookup `rates.at` is
inside `try`, and the handler of `std::out_of_range` writes the missing-rate
message and `continue`s. -/
def priceLoopTry (round : ℚ → ℚ) (rates : SectionMap) :
    List (String × ℚ) → ℚ × List Output → ℚ × List Output
  | [], acc => acc
  | s :: rest, (total, out) =>
    let inches := s.2
    let feet := inches / 12
    let roundedFeet := round inches
    match mapAt rates s.1 with
    | none => priceLoopTry round rates rest (total, out ++ [Output.missing s.1])
    | some rate =>
      let price := roundedFeet * rate
      priceLoopTry round rates rest
        (total + price, out ++ [Output.line s.1 inches feet roundedFeet price])

/-- The pricing loop of OpenableWindow: `if (!rates.count(s.first))` writes the
error message and `continue`s; otherwise the line is priced with `rates.at`. -/
def priceLoopCount (round : ℚ → ℚ) (rates : SectionMap) :
    List (String × ℚ) → ℚ × List Output → Option (ℚ × List Output)
  | [], acc => some acc
  | s :: rest, (total, out) =>
    if mapCount rates s.1 = 0 then
      priceLoopCount round rates rest (total, out ++ [Output.missing s.1])
    else
      let inches := s.2
      let feet := inches / 12
      let roundedFeet := round inches
      match mapAt rates s.1 with
      | none => none
      | some rate =>
        let price := roundedFeet * rate
        priceLoopCount round rates rest
          (total + price, out ++ [Output.line s.1 inches feet roundedFeet price])

/-! ## FlexiblePanelWindow (selectors 1 and 2) -/

/-- Data members of `class FlexiblePanelWindow`, with their default initialisers. -/
structure FlexiblePanelWindow where
  height : ℚ := 0
  width : ℚ := 0
  collerType : ℤ := 1
  includeD29 : Bool := true
  useMSeriesSections : Bool := false
  deriving DecidableEq, Repr

namespace FlexiblePanelWindow

/-- `FlexiblePanelWindow::getArea`. -/
def getArea (self : FlexiblePanelWindow) : ℚ :=
  (self.height / 12) * (self.width / 12)

/-- The lambda `sec` of `getRequiredSections`: the section name to use for `base`. -/
def sec (self : FlexiblePanelWindow) (base : String) : String :=
  if self.useMSeriesSections then
    if base = "DC30F" then "M30F"
    else if base = "DC26F" then "M26F"
    else if base = "DC30C" then "M30"
    else if base = "DC26C" then "M26"
    else base
  else base

/-- `FlexiblePanelWindow::getRequiredSections`. -/
def getRequiredSections (self : FlexiblePanelWindow) : SectionMap :=
  let h := self.height
  let w := self.width
  let sec := self.sec
  let c := self.collerType
  let sections : SectionMap :=
    if c = 1 then assigns [] [(sec "DC30F", h * 2 + w + 9), (sec "DC26F", w + 3)]
    else if c = 2 then assigns [] [(sec "DC30C", h * 2 + w), (sec "DC26C", w)]
    else if c = 3 then
      assigns [] [(sec "DC30C", w), (sec "DC30F", h * 2 + 6), (sec "DC26F", w + 3)]
    else if c = 4 then
      assigns [] [(sec "DC30C", h), (sec "DC30F", (h + w) + 6), (sec "DC26F", w + 3)]
    else if c = 5 then assigns [] [(sec "DC30F", h * 2 + w + 9), (sec "DC26C", w)]
    else if c = 6 then
      assigns [] [(sec "DC30C", h), (sec "DC30F", (h + w) + 6), (sec "DC26F", w + 3)]
    else if c = 7 then
      assigns [] [(sec "DC30C", h + w), (sec "DC30F", h + 3), (sec "DC26F", w + 3)]
    else if c = 8 then
      assigns [] [(sec "DC30C", h), (sec "DC30F", (h + w) + 6), (sec "DC26C", w)]
    else if c = 9 then
      assigns [] [(sec "DC30C", h * 2), (sec "DC30F", w + 3), (sec "DC26F", w + 3)]
    else if c = 10 then
      assigns [] [(sec "DC30C", w), (sec "DC30F", h * 2 + 6), (sec "DC26C", w)]
    else if c = 11 then
      assigns [] [(sec "DC30C", h * 2), (sec "DC30F", w + 3), (sec "DC26C", w)]
    else if c = 12 then
      assigns [] [(sec "DC30C", w + h), (sec "DC30F", h + 3), (sec "DC26C", w)]
    else if c = 13 then assigns [] [(sec "DC30C", h * 2 + w), (sec "DC26F", w + 3)]
    else if c = 14 then
      assigns [] [(sec "DC30C", h + w), (sec "DC30F", h + 3), (sec "DC26F", w)]
    else []
  let sections := assigns sections [("M23", h * 2), ("M28", h * 2), ("M24", w * 2)]
  if self.includeD29 then mapAssign sections "D29" (h * 2 + w) else sections

/-- `FlexiblePanelWindow::roundToMarketFeet`: the variant with the exact-foot case. -/
def roundToMarketFeet (inches : ℚ) : ℚ :=
  let ft := inches / 12
  let decimalPart := ft - (castInt ft : ℚ)
  if decimalPart = 0 then ft
  else
    let inch := decimalPart * 12
    if inch ≤ 6 then (castInt ft : ℚ) + 3 / 5
    else (castInt ft : ℚ) + 1

/-- `FlexiblePanelWindow::calculateTotalPrice`. -/
def calculateTotalPrice (self : FlexiblePanelWindow) (rates : SectionMap) :
    Option (ℚ × List Output) :=
  priceLoopAt roundToMarketFeet rates self.getRequiredSections (0, [])

end FlexiblePanelWindow

/-! ## ThreePanel_3glass (selectors 3 and 4) -/

/-- Data members of `class ThreePanel_3glass`, with their default initialisers. -/
structure ThreePanel_3glass where
  height : ℚ := 0
  width : ℚ := 0
  netwidth : ℚ := 0
  collerType : ℤ := 1
  net : ℤ := 2
  includeD29 : Bool := true
  prefix30 : String := "DC30"
  prefix26 : String := "DC26"
  deriving DecidableEq, Repr

namespace ThreePanel_3glass

/-- `ThreePanel_3glass::getArea`. -/
def getArea (self : ThreePanel_3glass) : ℚ :=
  (self.height / 12) * (self.width / 12)

/-- The lambda `sec` of `getRequiredSections` (declared there, never called). -/
def sec (self : ThreePanel_3glass) (_base : String) : String :=
  let c := self.collerType
  if c = 2 ∨ c = 5 ∨ c = 8 ∨ c = 10 ∨ c = 11 ∨ c = 12 then self.prefix30 ++ "C"
  else self.prefix30 ++ "F"

/-- `ThreePanel_3glass::getRequiredSections`. -/
def getRequiredSections (self : ThreePanel_3glass) : SectionMap :=
  let h := self.height
  let w := self.width
  let n := self.netwidth
  let p30 := self.prefix30
  let p26 := self.prefix26
  let c := self.collerType
  let sections : SectionMap :=
    if c = 1 then assigns [] [(p30 ++ "F", h * 2 + w + 9), (p26 ++ "F", w + 3)]
    else if c = 2 then assigns [] [(p30 ++ "C", h * 2 + w), (p26 ++ "C", w)]
    else if c = 3 then
      assigns [] [(p30 ++ "C", w), (p30 ++ "F", h * 2 + 6), (p26 ++ "F", w + 3)]
    else if c = 4 then
      assigns [] [(p30 ++ "C", h), (p30 ++ "F", (h + w) + 6), (p26 ++ "F", w + 3)]
    else if c = 5 then assigns [] [(p30 ++ "F", h * 2 + w + 9), (p26 ++ "C", w)]
    else if c = 6 then
      assigns [] [(p30 ++ "C", h), (p30 ++ "F", (h + w) + 6), (p26 ++ "F", w + 3)]
    else if c = 7 then
      assigns [] [(p30 ++ "C", h + w), (p30 ++ "F", h + 3), (p26 ++ "F", w + 3)]
    else if c = 8 then
      assigns [] [(p30 ++ "C", h), (p30 ++ "F", (h + w) + 6), (p26 ++ "C", w)]
    else if c = 9 then
      assigns [] [(p30 ++ "C", h * 2), (p30 ++ "F", w + 3), (p26 ++ "F", w + 3)]
    else if c = 10 then
      assigns [] [(p30 ++ "C", w), (p30 ++ "F", h * 2 + 6), (p26 ++ "C", w)]
    else if c = 11 then
      assigns [] [(p30 ++ "C", h * 2), (p30 ++ "F", w + 3), (p26 ++ "C", w)]
    else if c = 12 then
      assigns [] [(p30 ++ "C", w + h), (p30 ++ "F", h + 3), (p26 ++ "C", w)]
    else if c = 13 then assigns [] [(p30 ++ "C", h * 2 + w), (p26 ++ "F", w + 3)]
    else if c = 14 then
      assigns [] [(p30 ++ "C", h + w), (p30 ++ "F", h + 3), (p26 ++ "F", w)]
    else []
  let sections := assigns sections [("M23", h * 2), ("M28", h * 4), ("M24", w * 2)]
  if self.includeD29 then
    if self.net = 1 then mapAssign sections "D29" ((h + w / 3) * 2)
    else if self.net = 2 then mapAssign sections "D29" (h * 4 + w)
    else if self.net = 3 then mapAssign sections "D29" (h * 2 + n * 2)
    else if self.net = 4 then mapAssign sections "D29" (h * 4 + n * 4)
    else sections
  else sections

/-- `ThreePanel_3glass::roundToMarketFeet`: the floor-based variant. -/
def roundToMarketFeet (inches : ℚ) : ℚ :=
  let ft := inches / 12
  let whole := floorInt ft
  let inch := (ft - (whole : ℚ)) * 12
  if inch ≤ 6 then (whole : ℚ) + 3 / 5
  else (whole : ℚ) + 1

/-- `ThreePanel_3glass::calculateTotalPrice`. -/
def calculateTotalPrice (self : ThreePanel_3glass) (rates : SectionMap) :
    Option (ℚ × List Output) :=
  priceLoopAt roundToMarketFeet rates self.getRequiredSections (0, [])

end ThreePanel_3glass

/-! ## FixWindow (selector 5) -/

/-- Data members of `class FixWindow`, with their default initialisers. -/
structure FixWindow where
  height : ℚ := 0
  width : ℚ := 0
  tee : ℚ := 0
  collerType : ℤ := 1
  includeTee : Bool := false
  deriving DecidableEq, Repr

namespace FixWindow

/-- `FixWindow::getArea`. -/
def getArea (self : FixWindow) : ℚ :=
  (self.height / 12) * (self.width / 12)

/-- `FixWindow::getRequiredSections`. -/
def getRequiredSections (self : FixWindow) : SectionMap :=
  let h := self.height
  let w := self.width
  let t := self.tee
  let c := self.collerType
  let sections : SectionMap :=
    if c = 1 then assigns [] [("D54F", (h + w) * 2 + 12)]
    else if c = 2 then assigns [] [("D54A", (h + w) * 2)]
    else if c = 3 then assigns [] [("D54F", h * 2 + w + 9), ("D54A", w)]
    else if c = 4 then assigns [] [("D54F", w * 2 + h + 9), ("D54A", h)]
    else if c = 5 then assigns [] [("D54F", h * 2 + w + 9), ("D54A", w)]
    else if c = 6 then assigns [] [("D54F", w * 2 + h + 9), ("D54A", h)]
    else if c = 7 then assigns [] [("D54F", h + w + 6), ("D54A", h + w)]
    else if c = 8 then assigns [] [("D54F", h + w + 6), ("D54A", h + w)]
    else if c = 9 then assigns [] [("D54F", h * 2 + 6), ("D54A", w * 2)]
    else if c = 10 then assigns [] [("D54F", w * 2 + 6), ("D54A", h * 2)]
    else if c = 11 then assigns [] [("D54F", w + 3), ("D54A", h * 2 + w)]
    else if c = 12 then assigns [] [("D54F", h * 3), ("D54A", w * 2 + h)]
    else if c = 13 then assigns [] [("D54F", w + 3), ("D54A", h * 2 + w)]
    else if c = 14 then assigns [] [("D54F", h + 3), ("D54A", w * 2 + h)]
    else []
  if self.includeTee then
    assigns sections [("D52", t), ("D41", (h + w) * 2 + t * 2)]
  else
    mapAssign sections "D41" ((h + w) * 2)

/-- `FixWindow::roundToMarketFeet`: the floor-based variant. -/
def roundToMarketFeet (inches : ℚ) : ℚ :=
  let ft := inches / 12
  let whole := floorInt ft
  let inch := (ft - (whole : ℚ)) * 12
  if inch ≤ 6 then (whole : ℚ) + 3 / 5 else (whole : ℚ) + 1

/-- `FixWindow::calculateTotalPrice`: a missing rate is caught and the line skipped. -/
def calculateTotalPrice (self : FixWindow) (rates : SectionMap) : ℚ × List Output :=
  priceLoopTry roundToMarketFeet rates self.getRequiredSections (0, [])

end FixWindow

/-! ## RandomFixWindow (selector 6) -/

/-- Data members of `class RandomFixWindow`, with their default initialisers. -/
structure RandomFixWindow where
  length : ℚ := 0
  tee : ℚ := 0
  includeTee : Bool := false
  deriving DecidableEq, Repr

namespace RandomFixWindow

/-- `RandomFixWindow::getArea`. -/
def getArea (_self : RandomFixWindow) : ℚ := 0

/-- `RandomFixWindow::getRequiredSections`. -/
def getRequiredSections (self : RandomFixWindow) : SectionMap :=
  let l := self.length
  let t := self.tee
  let sections : SectionMap := mapAssign [] "D54" l
  if self.includeTee then
    assigns sections [("D52", t), ("D41", l + t * 2)]
  else
    mapAssign sections "D41" l

/-- `RandomFixWindow::roundToMarketFeet`: the floor-based variant. -/
def roundToMarketFeet (inches : ℚ) : ℚ :=
  let ft := inches / 12
  let whole := floorInt ft
  let inch := (ft - (whole : ℚ)) * 12
  if inch ≤ 6 then (whole : ℚ) + 3 / 5 else (whole : ℚ) + 1

/-- `RandomFixWindow::calculateTotalPrice`: a missing rate is caught and the line
skipped. -/
def calculateTotalPrice (self : RandomFixWindow) (rates : SectionMap) : ℚ × List Output :=
  priceLoopTry roundToMarketFeet rates self.getRequiredSections (0, [])

end RandomFixWindow

/-! ## OpenableWindow (selector 7) -/

/-- Data members of `class OpenableWindow`, with their default initialisers. -/
structure OpenableWindow where
  height : ℚ := 0
  width : ℚ := 0
  collerType : ℤ := 1
  hasNet : Bool := false
  deriving DecidableEq, Repr

namespace OpenableWindow

/-- `OpenableWindow::getArea`. -/
def getArea (self : OpenableWindow) : ℚ :=
  (self.height / 12) * (self.width / 12)

/-- `OpenableWindow::getRequiredSections`. -/
def getRequiredSections (self : OpenableWindow) : SectionMap :=
  let h := self.height
  let w := self.width
  let c := self.collerType
  let sections : SectionMap :=
    if c = 1 then assigns [] [("D54F", (h + w) * 2 + 12)]
    else if c = 2 then assigns [] [("D54A", (h + w) * 2)]
    else if c = 3 then assigns [] [("D54F", h * 2 + w + 9), ("D54A", w)]
    else if c = 4 then assigns [] [("D54F", w * 2 + h + 9), ("D54A", h)]
    else if c = 5 then assigns [] [("D54F", h * 2 + w + 9), ("D54A", w)]
    else if c = 6 then assigns [] [("D54F", w * 2 + h + 9), ("D54A", h)]
    else if c = 7 then assigns [] [("D54F", h + w + 6), ("D54A", h + w)]
    else if c = 8 then assigns [] [("D54F", h + w + 6), ("D54A", h + w)]
    else if c = 9 then assigns [] [("D54F", h * 2 + 6), ("D54A", w * 2)]
    else if c = 10 then assigns [] [("D54F", w * 2 + 6), ("D54A", h * 2)]
    else if c = 11 then assigns [] [("D54F", w + 3), ("D54A", h * 2 + w)]
    else if c = 12 then assigns [] [("D54F", h * 3), ("D54A", w * 2 + h)]
    else if c = 13 then assigns [] [("D54F", w + 3), ("D54A", h * 2 + w)]
    else if c = 14 then assigns [] [("D54F", h + 3), ("D54A", w * 2 + h)]
    else []
  let sections := mapAssign sections "D50" ((h + w) * 2)
  if self.hasNet then mapAssign sections "D29" ((h + w) * 2) else sections

/-- `OpenableWindow::roundToMarketFeet`: the floor-based variant. -/
def roundToMarketFeet (inches : ℚ) : ℚ :=
  let ft := inches / 12
  let whole := floorInt ft
  let inch := (ft - (whole : ℚ)) * 12
  if inch ≤ 6 then (whole : ℚ) + 3 / 5 else (whole : ℚ) + 1

/-- `OpenableWindow::calculateTotalPrice`: a name with no rate is reported and skipped. -/
def calculateTotalPrice (self : OpenableWindow) (rates : SectionMap) :
    Option (ℚ × List Output) :=
  priceLoopCount roundToMarketFeet rates self.getRequiredSections (0, [])

end OpenableWindow

/-! ## DoorWindow (selectors 8 and 9) -/

/-- Data members of `class DoorWindow`, with their default initialisers. -/
structure DoorWindow where
  height : ℚ := 0
  width : ℚ := 0
  tee : ℚ := 0
  collerType : ℤ := 1
  includeD46 : Bool := false
  includeTee : Bool := false
  isDouble : Bool := false
  deriving DecidableEq, Repr

namespace DoorWindow

/-- `DoorWindow::getArea`. -/
def getArea (self : DoorWindow) : ℚ :=
  (self.height / 12) * (self.width / 12)

/-- `DoorWindow::getRequiredSections`. -/
def getRequiredSections (self : DoorWindow) : SectionMap :=
  let h := self.height
  let w := self.width
  let t := self.tee
  let c := self.collerType
  let sections : SectionMap :=
    if c = 1 then assigns [] [("D54F", h * 2 + w + 9)]
    else if c = 2 then assigns [] [("D54A", h * 2 + w)]
    else if c = 3 then assigns [] [("D54F", h + w + 6), ("D54A", h)]
    else if c = 4 then assigns [] [("D54F", h * 2 + 6), ("D54A", w)]
    else if c = 5 then assigns [] [("D54F", h + w + 6), ("D54A", h)]
    else if c = 6 then assigns [] [("D54F", h + 3), ("D54A", h + w)]
    else if c = 7 then assigns [] [("D54F", h + 3), ("D54A", h + w)]
    else if c = 8 then assigns [] [("D54F", w + 3), ("D54A", h * 2)]
    else []
  let sections :=
    if self.includeD46 then
      assigns sections [("D46", w), ("D50", if self.isDouble then h * 4 + w else h * 2 + w)]
    else
      mapAssign sections "D50" (if self.isDouble then h * 4 + w * 2 else (h + w) * 2)
  if self.includeTee then mapAssign sections "D52" t else sections

/-- `DoorWindow::roundToMarketFeet`: the floor-based variant. -/
def roundToMarketFeet (inches : ℚ) : ℚ :=
  let ft := inches / 12
  let whole := floorInt ft
  let inch := (ft - (whole : ℚ)) * 12
  if inch ≤ 6 then (whole : ℚ) + 3 / 5 else (whole : ℚ) + 1

/-- `DoorWindow::calculateTotalPrice`. -/
def calculateTotalPrice (self : DoorWindow) (rates : SectionMap) :
    Option (ℚ × List Output) :=
  priceLoopAt roundToMarketFeet rates self.getRequiredSections (0, [])

end DoorWindow

/-! ## QadialArchWindow (selector 10) -/

/-- Data members of `class QadialArchWindow`, with their default initialisers. -/
structure QadialArchWindow where
  height : ℚ := 0
  width : ℚ := 0
  T : ℚ := 0
  collerType : ℤ := 1
  includeTee : Bool := false
  deriving DecidableEq, Repr

namespace QadialArchWindow

/-- `QadialArchWindow::getArea`. -/
def getArea (self : QadialArchWindow) : ℚ :=
  (self.height / 12) * (self.width / 12)

/-- `QadialArchWindow::getRequiredSections`. -/
def getRequiredSections (self : QadialArchWindow) : SectionMap :=
  let h := self.height
  let w := self.width
  let c := self.collerType
  let sections : SectionMap :=
    if c = 1 then assigns [] [("D50F", h * 2 + w + 9), ("D50A", w)]
    else if c = 2 then assigns [] [("D50A", (h + w) * 2)]
    else if c = 3 then assigns [] [("D50F", w + h + 6), ("D50A", w + h)]
    else if c = 4 then assigns [] [("D50F", h * 2 + 6), ("D50A", w * 2)]
    else if c = 5 then assigns [] [("D50F", w + h + 6), ("D50A", w)]
    else if c = 6 then assigns [] [("D50F", w + 3), ("D50A", h * 3 + w)]
    else if c = 7 then assigns [] [("D50F", h + 3), ("D50A", w * 2 + h)]
    else if c = 8 then assigns [] [("D50F", h + 3), ("D50A", w * 2 + h)]
    else []
  if self.includeTee then
    assigns sections [("D40", self.T), ("D41", (h + w) * 2 + self.T * 2)]
  else
    mapAssign sections "D41" ((h + w) * 2)

/-- `QadialArchWindow::roundToMarketFeet`: the floor-based variant. -/
def roundToMarketFeet (inches : ℚ) : ℚ :=
  let ft := inches / 12
  let whole := floorInt ft
  let inchPart := (ft - (whole : ℚ)) * 12
  if inchPart ≤ 6 then (whole : ℚ) + 3 / 5 else (whole : ℚ) + 1

/-- `QadialArchWindow::calculateTotalPrice`. -/
def calculateTotalPrice (self : QadialArchWindow) (rates : SectionMap) :
    Option (ℚ × List Output) :=
  priceLoopAt roundToMarketFeet rates self.getRequiredSections (0, [])

end QadialArchWindow

/-! ## RoundArchWindow (selector 11) -/

/-- Data members of `class RoundArchWindow`, with their default initialisers. -/
structure RoundArchWindow where
  width : ℚ := 0
  arch : ℚ := 0
  T : ℚ := 0
  height : ℚ := 0
  hasColler : Bool := false
  includeTee : Bool := false
  deriving DecidableEq, Repr

namespace RoundArchWindow

/-- `RoundArchWindow::getArea`. -/
def getArea (self : RoundArchWindow) : ℚ :=
  (self.height / 12) * (self.width / 12)

/-- `RoundArchWindow::getRequiredSections`. -/
def getRequiredSections (self : RoundArchWindow) : SectionMap :=
  let w := self.width
  let arch := self.arch
  let sections : SectionMap :=
    if self.hasColler then assigns [] [("D50F", arch + 12), ("D50A", w)]
    else mapAssign [] "D50A" (arch + w + 12)
  if self.includeTee then
    assigns sections [("D40", self.T), ("D41", arch + w + 12 + self.T * 2)]
  else
    mapAssign sections "D41" (arch + w + 12)

/-- `RoundArchWindow::roundToMarketFeet`: the floor-based variant. -/
def roundToMarketFeet (inches : ℚ) : ℚ :=
  let ft := inches / 12
  let whole := floorInt ft
  let inchPart := (ft - (whole : ℚ)) * 12
  if inchPart ≤ 6 then (whole : ℚ) + 3 / 5 else (whole : ℚ) + 1

/-- `RoundArchWindow::calculateTotalPrice`. -/
def calculateTotalPrice (self : RoundArchWindow) (rates : SectionMap) :
    Option (ℚ × List Output) :=
  priceLoopAt roundToMarketFeet rates self.getRequiredSections (0, [])

end RoundArchWindow

/-! ## FixCornerWindow (selector 12) -/

/-- Data members of `class FixCornerWindow`, with their default initialisers. -/
structure FixCornerWindow where
  h : ℚ := 0
  wl : ℚ := 0
  wr : ℚ := 0
  T : ℚ := 0
  coller : Bool := false
  includeTee : Bool := false
  deriving DecidableEq, Repr

namespace FixCornerWindow

/-- `FixCornerWindow::getArea`. -/
def getArea (self : FixCornerWindow) : ℚ :=
  let totalWidth := self.wl + self.wr
  (self.h / 12) * (totalWidth / 12)

/-- `FixCornerWindow::getRequiredSections`. -/
def getRequiredSections (self : FixCornerWindow) : SectionMap :=
  let h := self.h
  let wl := self.wl
  let wr := self.wr
  let sections : SectionMap :=
    if self.coller then mapAssign [] "D54F" (h * 2 + (wl + wr) * 2 + 18)
    else mapAssign [] "D54A" (h * 2 + (wl + wr) * 2)
  if self.includeTee then
    assigns sections [("D40", self.T), ("D41", h * 2 + (wl + wr) * 2 + self.T * 2)]
  else
    mapAssign sections "D41" (h * 2 + (wl + wr) * 2)

/-- `FixCornerWindow::roundToMarketFeet`: the floor-based variant. -/
def roundToMarketFeet (inches : ℚ) : ℚ :=
  let ft := inches / 12
  let whole := floorInt ft
  let inchPart := (ft - (whole : ℚ)) * 12
  if inchPart ≤ 6 then (whole : ℚ) + 3 / 5 else (whole : ℚ) + 1

/-- `FixCornerWindow::calculateTotalPrice`. -/
def calculateTotalPrice (self : FixCornerWindow) (rates : SectionMap) :
    Option (ℚ × List Output) :=
  priceLoopAt roundToMarketFeet rates self.getRequiredSections (0, [])

end FixCornerWindow

/-! ## SlideCornerWindow (selectors 13 and 14) -/

/-- Data members of `class SlideCornerWindow`, with their default initialisers
(`sec30` and `sec26` are set by the constructor). -/
structure SlideCornerWindow where
  height : ℚ := 0
  wl : ℚ := 0
  wr : ℚ := 0
  d29Width : ℚ := 0
  subtype : ℤ := 1
  includeD29 : Bool := true
  useColler : Bool := true
  sec30 : String
  sec26 : String
  deriving DecidableEq, Repr

namespace SlideCornerWindow

/-- `SlideCornerWindow::getArea`. -/
def getArea (self : SlideCornerWindow) : ℚ :=
  (self.height / 12) * ((self.wl + self.wr) / 12)

/-- `SlideCornerWindow::getRequiredSections`. -/
def getRequiredSections (self : SlideCornerWindow) : SectionMap :=
  let height := self.height
  let wl := self.wl
  let wr := self.wr
  let subtype := self.subtype
  let suffix30 := if self.useColler then "F" else "A"
  let suffix26 := if self.useColler then "F" else "A"
  let sec30Full := self.sec30 ++ suffix30
  let sec26Full := self.sec26 ++ suffix26
  let c30Add : ℚ := if self.useColler then 12 else 0
  let c26Add : ℚ := if self.useColler then 6 else 0
  let sections : SectionMap :=
    if subtype = 1 then
      let s := assigns [] [(sec30Full, (height + wl + wr) * 2 + c30Add),
        (sec26Full, wl + wr + c26Add)]
      if self.includeD29 then mapAssign s "D29" (height * 2 + wr) else s
    else if subtype = 2 then
      let s := assigns [] [(sec30Full, (height + wl + wr) * 2 + c30Add),
        (sec26Full, wl + wr + c26Add)]
      if self.includeD29 then mapAssign s "D29" (height * 2 + wl) else s
    else if subtype = 3 then
      let s := assigns [] [(sec30Full, height * 2 + wl + wr + c30Add),
        (sec26Full, wl + wr + c26Add)]
      if self.includeD29 then mapAssign s "D29" (height * 4 + wl + wr) else s
    else if subtype = 4 then
      let s := assigns [] [(sec30Full, height * 2 + wl + wr + c30Add),
        (sec26Full, wl + wr + c26Add)]
      if self.includeD29 then mapAssign s "D29" (height * 4 + self.d29Width * 4) else s
    else if subtype = 5 then
      let s := assigns [] [(sec30Full, height * 2 + wl + wr + c30Add),
        (sec26Full, wl + wr + c26Add)]
      if self.includeD29 then mapAssign s "D29" (height * 4 + wl + wr) else s
    else []
  assigns sections [("M23", height * (if subtype = 5 then 4 else 2)),
    ("M28", height * (if subtype = 1 ∨ subtype = 2 then 2 else 4)),
    ("M24", (wl + wr) * 2)]

/-- `SlideCornerWindow::roundToMarketFeet`: the floor-based variant. -/
def roundToMarketFeet (inches : ℚ) : ℚ :=
  let ft := inches / 12
  let whole := floorInt ft
  let inch := (ft - (whole : ℚ)) * 12
  if inch ≤ 6 then (whole : ℚ) + 3 / 5 else (whole : ℚ) + 1

/-- `SlideCornerWindow::calculateTotalPrice`. -/
def calculateTotalPrice (self : SlideCornerWindow) (rates : SectionMap) :
    Option (ℚ × List Output) :=
  priceLoopAt roundToMarketFeet rates self.getRequiredSections (0, [])

/-- `SlideCornerWindow::inputDimensions`, with the values read from `cin` as arguments
(for each dimension the value that ends its `do ... while` loop).  The custom D29
width is read only for subtype 4 with D29 included. -/
def inputDimensions (self : SlideCornerWindow) (subtype : ℤ) (useColler : Bool)
    (height wl wr d29Width : ℚ) : SlideCornerWindow :=
  { self with
    subtype := subtype
    useColler := useColler
    height := height
    wl := wl
    wr := wr
    d29Width := if subtype = 4 ∧ self.includeD29 = true then d29Width else self.d29Width }

end SlideCornerWindow

/-! ## The abstract base class and the factory -/

/-- A `FrameComponent` object: one of the ten concrete classes. -/
inductive FrameComponent where
  | flexiblePanel (s : FlexiblePanelWindow)
  | threePanel3glass (s : ThreePanel_3glass)
  | fixWindow (s : FixWindow)
  | randomFix (s : RandomFixWindow)
  | openable (s : OpenableWindow)
  | door (s : DoorWindow)
  | qadialArch (s : QadialArchWindow)
  | roundArch (s : RoundArchWindow)
  | fixCorner (s : FixCornerWindow)
  | slideCorner (s : SlideCornerWindow)
  deriving DecidableEq, Repr

namespace FrameComponent

/-- Virtual call `getRequiredSections()`. -/
def getRequiredSections : FrameComponent → SectionMap
  | flexiblePanel s => s.getRequiredSections
  | threePanel3glass s => s.getRequiredSections
  | fixWindow s => s.getRequiredSections
  | randomFix s => s.getRequiredSections
  | openable s => s.getRequiredSections
  | door s => s.getRequiredSections
  | qadialArch s => s.getRequiredSections
  | roundArch s => s.getRequiredSections
  | fixCorner s => s.getRequiredSections
  | slideCorner s => s.getRequiredSections

/-- Virtual call `calculateTotalPrice(rates)`; `none` is an escaping
`std::out_of_range`. -/
def calculateTotalPrice : FrameComponent → SectionMap → Option (ℚ × List Output)
  | flexiblePanel s, rates => s.calculateTotalPrice rates
  | threePanel3glass s, rates => s.calculateTotalPrice rates
  | fixWindow s, rates => some (s.calculateTotalPrice rates)
  | randomFix s, rates => some (s.calculateTotalPrice rates)
  | openable s, rates => s.calculateTotalPrice rates
  | door s, rates => s.calculateTotalPrice rates
  | qadialArch s, rates => s.calculateTotalPrice rates
  | roundArch s, rates => s.calculateTotalPrice rates
  | fixCorner s, rates => s.calculateTotalPrice rates
  | slideCorner s, rates => s.calculateTotalPrice rates

/-- Virtual call `getArea()`. -/
def getArea : FrameComponent → ℚ
  | flexiblePanel s => s.getArea
  | threePanel3glass s => s.getArea
  | fixWindow s => s.getArea
  | randomFix s => s.getArea
  | openable s => s.getArea
  | door s => s.getArea
  | qadialArch s => s.getArea
  | roundArch s => s.getArea
  | fixCorner s => s.getArea
  | slideCorner s => s.getArea

/-- The private `roundToMarketFeet` of the object's class (the one its
`calculateTotalPrice` calls). -/
def roundToMarketFeet : FrameComponent → ℚ → ℚ
  | flexiblePanel _ => FlexiblePanelWindow.roundToMarketFeet
  | threePanel3glass _ => ThreePanel_3glass.roundToMarketFeet
  | fixWindow _ => FixWindow.roundToMarketFeet
  | randomFix _ => RandomFixWindow.roundToMarketFeet
  | openable _ => OpenableWindow.roundToMarketFeet
  | door _ => DoorWindow.roundToMarketFeet
  | qadialArch _ => QadialArchWindow.roundToMarketFeet
  | roundArch _ => RoundArchWindow.roundToMarketFeet
  | fixCorner _ => FixCornerWindow.roundToMarketFeet
  | slideCorner _ => SlideCornerWindow.roundToMarketFeet

end FrameComponent

/-- The factory `createComponent(type)`; `none` is `nullptr`. -/
def createComponent (type : ℤ) : Option FrameComponent :=
  if type = 1 then
    some (.flexiblePanel { includeD29 := true, useMSeriesSections := false })
  else if type = 2 then
    some (.flexiblePanel { includeD29 := false, useMSeriesSections := true })
  else if type = 3 then
    some (.threePanel3glass { includeD29 := true, prefix30 := "DC30", prefix26 := "DC26" })
  else if type = 4 then
    some (.threePanel3glass { includeD29 := false, prefix30 := "M30", prefix26 := "M26" })
  else if type = 5 then some (.fixWindow {})
  else if type = 6 then some (.randomFix {})
  else if type = 7 then some (.openable {})
  else if type = 8 then some (.door { isDouble := false })
  else if type = 9 then some (.door { isDouble := true })
  else if type = 10 then some (.qadialArch {})
  else if type = 11 then some (.roundArch {})
  else if type = 12 then some (.fixCorner {})
  else if type = 13 then
    some (.slideCorner { includeD29 := true, sec30 := "DC30", sec26 := "DC26" })
  else if type = 14 then
    some (.slideCorner { includeD29 := false, sec30 := "M30", sec26 := "M26" })
  else none

/-! ## The batch protocol of `main` -/

/-- The call `s.insert(k)` on a `std::set<string>`, a list of names in increasing
order without repetition. -/
def setInsert : List String → String → List String
  | [], k => [k]
  | k' :: rest, k =>
    if k < k' then k :: k' :: rest
    else if k = k' then k' :: rest
    else k' :: setInsert rest k

/-- The first loop of a batch in `main`, over the windows after `inputDimensions`:
`for (auto& s : win->getRequiredSections()) neededSections.insert(s.first);`. -/
def neededSections (batch : List FrameComponent) : List String :=
  batch.foldl
    (fun needed win => win.getRequiredSections.foldl (fun acc s => setInsert acc s.1) needed) []

/-- The second loop of a batch in `main`: for each name of `neededSections`, in set
order, one accepted rate is read and stored with `rates[secName] = rate`.
`input i` is the `i`-th accepted rate of the input stream. -/
def readRates : List String → (ℕ → ℚ) → SectionMap → SectionMap
  | [], _, rates => rates
  | secName :: rest, input, rates =>
    readRates rest (fun i => input (i + 1)) (mapAssign rates secName (input 0))

/-- The rate table `main` hands to `calculateTotalPrice` for a batch. -/
def batchRates (batch : List FrameComponent) (input : ℕ → ℚ) : SectionMap :=
  readRates (neededSections batch) input []

/-- The third loop of a batch in `main`: every window is priced against the one
rate table. -/
def batchPrices (batch : List FrameComponent) (input : ℕ → ℚ) :
    List (Option (ℚ × List Output)) :=
  batch.map (fun win => win.calculateTotalPrice (batchRates batch input))

/-! ## Reading a section map -/

/-- Whether the characters of `p` start the string `s`. -/
def startsWith (p s : String) : Bool := p.toList.isPrefixOf s.toList

/-- The entries of a section map whose name starts with `DC30` or `DC26`, in map order. -/
def dcEntries (m : SectionMap) : SectionMap :=
  m.filter (fun e => startsWith "DC30" e.1 || startsWith "DC26" e.1)

/-- Keys strictly increasing in iteration order (lexicographic name order): the
representation invariant of a `std::map<string, float>`. -/
def KeysSorted (m : SectionMap) : Prop := (mapKeys m).Pairwise (· < ·)

/-- The rate of a name in a rate table, `0` when the table has no entry for it. -/
def rateOf (rates : SectionMap) (name : String) : ℚ := (mapAt rates name).getD 0

/-- The itemized amount of the section-map entry `s`: rounded feet times rate. -/
def lineAmount (round : ℚ → ℚ) (rates : SectionMap) (s : String × ℚ) : ℚ :=
  round s.2 * rateOf rates s.1

/-- The record the pricing loops write for the entry `s`: the priced line when the
table has a rate for the name, the missing-rate message otherwise. -/
def outputOf (round : ℚ → ℚ) (rates : SectionMap) (s : String × ℚ) : Output :=
  match mapAt rates s.1 with
  | none => Output.missing s.1
  | some rate => Output.line s.1 s.2 (s.2 / 12) (round s.2) (round s.2 * rate)

/-- A rate table is complete for a section map when every name of the map has a rate. -/
def RatesComplete (rates sections : SectionMap) : Prop :=
  ∀ e ∈ sections, ∃ r, mapAt rates e.1 = some r

/-- The remainder in inches above the last whole foot: `inches - 12 * floor(inches / 12)`. -/
def remainderInches (inches : ℚ) : ℚ := inches - 12 * (⌊inches / 12⌋ : ℚ)

/-- The principal dimensions of an instance, as `inputDimensions` reads them for every
instance of the shape, are all positive. -/
def DimensionsPositive : FrameComponent → Prop
  | .flexiblePanel s => 0 < s.height ∧ 0 < s.width
  | .threePanel3glass s => 0 < s.height ∧ 0 < s.width
  | .fixWindow s => 0 < s.height ∧ 0 < s.width
  | .randomFix s => 0 < s.length
  | .openable s => 0 < s.height ∧ 0 < s.width
  | .door s => 0 < s.height ∧ 0 < s.width
  | .qadialArch s => 0 < s.height ∧ 0 < s.width
  | .roundArch s => 0 < s.arch ∧ 0 < s.width ∧ 0 < s.height
  | .fixCorner s => 0 < s.h ∧ 0 < s.wl ∧ 0 < s.wr
  | .slideCorner s => 0 < s.height ∧ 0 < s.wl ∧ 0 < s.wr

/-- The name `s` with a leading `old` replaced by `new`; `s` itself when it does not
start with `old`. -/
def withLeading (old new s : String) : String :=
  if old.toList.isPrefixOf s.toList then String.mk (new.toList ++ s.toList.drop old.toList.length)
  else s

/-- The M-series name of a section: `DC30...` becomes `M30...`, `DC26...` becomes
`M26...`, every other name is kept. -/
def mSeriesName (s : String) : String :=
  withLeading "DC26" "M26" (withLeading "DC30" "M30" s)

/-- The map whose entries are those of `m` with every key `k` renamed to `f k`. -/
def mapRename (f : String → String) (m : SectionMap) : SectionMap :=
  assigns [] (m.map (fun e => (f e.1, e.2)))

/-- The key renaming of the M-series style of FlexiblePanelWindow: DC30F to M30F,
DC26F to M26F, DC30C to M30, DC26C to M26, every other key fixed. -/
def mSeriesAlias (k : String) : String :=
  if k = "DC30F" then "M30F"
  else if k = "DC26F" then "M26F"
  else if k = "DC30C" then "M30"
  else if k = "DC26C" then "M26"
  else k

/-- The length of the section `k` in a section map, an absent entry counted as 0. -/
def lengthOf (m : SectionMap) (k : String) : ℚ := (mapAt m k).getD 0

/-- The four collar-specific lookups of a FlexiblePanelWindow section map, under the
names the instance uses for DC30F, DC30C, DC26F and DC26C. -/
def collarLookups (s : FlexiblePanelWindow) :
    Option ℚ × Option ℚ × Option ℚ × Option ℚ :=
  (mapAt s.getRequiredSections (s.sec "DC30F"), mapAt s.getRequiredSections (s.sec "DC30C"),
    mapAt s.getRequiredSections (s.sec "DC26F"), mapAt s.getRequiredSections (s.sec "DC26C"))

/-- The collar table of FlexiblePanelWindow read row by row: for a collar type, the
lengths of DC30F, DC30C, DC26F and DC26C (`none` where the row has no such section). -/
def collarRow (c : ℤ) (h w : ℚ) : Option ℚ × Option ℚ × Option ℚ × Option ℚ :=
  if c = 1 then (some (h * 2 + w + 9), none, some (w + 3), none)
  else if c = 2 then (none, some (h * 2 + w), none, some w)
  else if c = 3 then (some (h * 2 + 6), some w, some (w + 3), none)
  else if c = 4 then (some (h + w + 6), some h, some (w + 3), none)
  else if c = 5 then (some (h * 2 + w + 9), none, none, some w)
  else if c = 6 then (some (h + w + 6), some h, some (w + 3), none)
  else if c = 7 then (some (h + 3), some (h + w), some (w + 3), none)
  else if c = 8 then (some (h + w + 6), some h, none, some w)
  else if c = 9 then (some (w + 3), some (h * 2), some (w + 3), none)
  else if c = 10 then (some (h * 2 + 6), some w, none, some w)
  else if c = 11 then (some (w + 3), some (h * 2), none, some w)
  else if c = 12 then (some (h + 3), some (w + h), none, some w)
  else if c = 13 then (none, some (h * 2 + w), some (w + 3), none)
  else if c = 14 then (some (h + 3), some (h + w), some w, none)
  else (none, none, none, none)

/-- The fixed allowance of the DC30 sections of FlexiblePanelWindow, by collar type. -/
def flexAllowance (c : ℤ) : ℚ :=
  if c = 1 ∨ c = 5 then 9
  else if c = 3 ∨ c = 4 ∨ c = 6 ∨ c = 8 ∨ c = 10 then 6
  else if c = 7 ∨ c = 9 ∨ c = 11 ∨ c = 12 ∨ c = 14 then 3
  else 0

/-- The fixed allowance of the D54 sections of DoorWindow, by collar type. -/
def doorAllowance (c : ℤ) : ℚ :=
  if c = 1 then 9
  else if c = 3 ∨ c = 4 ∨ c = 5 then 6
  else if c = 6 ∨ c = 7 ∨ c = 8 then 3
  else 0

/-- The fixed allowance of the D54 sections of FixWindow and OpenableWindow, by collar
type, for the rows whose two sections add up to the perimeter plus a constant (every
row of 1..14 other than 12). -/
def fixAllowance (c : ℤ) : ℚ :=
  if c = 1 then 12
  else if c = 3 ∨ c = 4 ∨ c = 5 ∨ c = 6 then 9
  else if c = 7 ∨ c = 8 ∨ c = 9 ∨ c = 10 then 6
  else if c = 11 ∨ c = 13 ∨ c = 14 then 3
  else 0

/-- The fixed allowance of the D50F and D50A sections of QadialArchWindow, by collar
type, for the rows whose two sections add up to the perimeter plus a constant (every
row of 1..8 other than 5 and 6). -/
def qadialAllowance (c : ℤ) : ℚ :=
  if c = 1 then 9
  else if c = 3 ∨ c = 4 then 6
  else if c = 7 ∨ c = 8 then 3
  else 0

/-- Every length of a section map is strictly positive. -/
def AllPositive (m : SectionMap) : Prop := ∀ e ∈ m, 0 < e.2

/-- Two section maps have the same names in the same order, and each length of the
first is positive and no greater than the corresponding length of the second. -/
def MapLe (m₁ m₂ : SectionMap) : Prop :=
  List.Forall₂ (fun a b => a.1 = b.1 ∧ 0 < a.2 ∧ a.2 ≤ b.2) m₁ m₂

/-- The values of an instance pass the guards of its class's `inputDimensions`: the
`do ... while` loops on the dimensions and on the collar type, the tee loop entered
when a tee is included, the net-width loop entered for net styles 3 and 4 (with D29),
the custom D29 width loop entered for slide-corner subtype 4 with D29. -/
def InputAccepted : FrameComponent → Prop
  | .flexiblePanel s =>
    1 ≤ s.collerType ∧ s.collerType ≤ 14 ∧ 0 < s.height ∧ 0 < s.width
  | .threePanel3glass s =>
    (s.includeD29 = true → (s.net = 3 ∨ s.net = 4) → 0 < s.netwidth)
    ∧ 1 ≤ s.collerType ∧ s.collerType ≤ 14 ∧ 0 < s.height ∧ 0 < s.width
  | .fixWindow s =>
    1 ≤ s.collerType ∧ s.collerType ≤ 14 ∧ 0 < s.height ∧ 0 < s.width
    ∧ (s.includeTee = true → 0 < s.tee)
  | .randomFix s => 0 < s.length ∧ (s.includeTee = true → 0 < s.tee)
  | .openable s =>
    1 ≤ s.collerType ∧ s.collerType ≤ 14 ∧ 0 < s.height ∧ 0 < s.width
  | .door s =>
    (s.includeTee = true → 0 < s.tee)
    ∧ 1 ≤ s.collerType ∧ s.collerType ≤ 8 ∧ 0 < s.height ∧ 0 < s.width
  | .qadialArch s =>
    1 ≤ s.collerType ∧ s.collerType ≤ 8 ∧ 0 < s.height ∧ 0 < s.width
    ∧ (s.includeTee = true → 0 < s.T)
  | .roundArch s =>
    0 < s.arch ∧ 0 < s.width ∧ 0 < s.height ∧ (s.includeTee = true → 0 < s.T)
  | .fixCorner s =>
    0 < s.h ∧ 0 < s.wl ∧ 0 < s.wr ∧ (s.includeTee = true → 0 < s.T)
  | .slideCorner s =>
    0 < s.height ∧ 0 < s.wl ∧ 0 < s.wr
    ∧ (s.subtype = 4 ∧ s.includeD29 = true → 0 < s.d29Width)

/-- Instance `a` is of the same class as `b` with the same flags, collar type, subtype,
net style and section prefixes, and every dimension that `a` reads is positive and no
greater than the corresponding dimension of `b`: the dimensions `inputDimensions` reads
for every instance always, the tee when a tee is included, the net width for net
styles 3 and 4 with D29, the custom D29 width for slide-corner subtype 4 with D29.
A field that the instance does not read is under no condition. -/
def NoLargerThan : FrameComponent → FrameComponent → Prop
  | .flexiblePanel a, .flexiblePanel b =>
    a.collerType = b.collerType ∧ a.includeD29 = b.includeD29
    ∧ a.useMSeriesSections = b.useMSeriesSections
    ∧ 0 < a.height ∧ a.height ≤ b.height ∧ 0 < a.width ∧ a.width ≤ b.width
  | .threePanel3glass a, .threePanel3glass b =>
    a.collerType = b.collerType ∧ a.net = b.net ∧ a.includeD29 = b.includeD29
    ∧ a.prefix30 = b.prefix30 ∧ a.prefix26 = b.prefix26
    ∧ 0 < a.height ∧ a.height ≤ b.height ∧ 0 < a.width ∧ a.width ≤ b.width
    ∧ (a.includeD29 = true → (a.net = 3 ∨ a.net = 4) →
        0 < a.netwidth ∧ a.netwidth ≤ b.netwidth)
  | .fixWindow a, .fixWindow b =>
    a.collerType = b.collerType ∧ a.includeTee = b.includeTee
    ∧ 0 < a.height ∧ a.height ≤ b.height ∧ 0 < a.width ∧ a.width ≤ b.width
    ∧ (a.includeTee = true → 0 < a.tee ∧ a.tee ≤ b.tee)
  | .randomFix a, .randomFix b =>
    a.includeTee = b.includeTee
    ∧ 0 < a.length ∧ a.length ≤ b.length
    ∧ (a.includeTee = true → 0 < a.tee ∧ a.tee ≤ b.tee)
  | .openable a, .openable b =>
    a.collerType = b.collerType ∧ a.hasNet = b.hasNet
    ∧ 0 < a.height ∧ a.height ≤ b.height ∧ 0 < a.width ∧ a.width ≤ b.width
  | .door a, .door b =>
    a.collerType = b.collerType ∧ a.includeD46 = b.includeD46
    ∧ a.includeTee = b.includeTee ∧ a.isDouble = b.isDouble
    ∧ 0 < a.height ∧ a.height ≤ b.height ∧ 0 < a.width ∧ a.width ≤ b.width
    ∧ (a.includeTee = true → 0 < a.tee ∧ a.tee ≤ b.tee)
  | .qadialArch a, .qadialArch b =>
    a.collerType = b.collerType ∧ a.includeTee = b.includeTee
    ∧ 0 < a.height ∧ a.height ≤ b.height ∧ 0 < a.width ∧ a.width ≤ b.width
    ∧ (a.includeTee = true → 0 < a.T ∧ a.T ≤ b.T)
  | .roundArch a, .roundArch b =>
    a.hasColler = b.hasColler ∧ a.includeTee = b.includeTee
    ∧ 0 < a.height ∧ a.height ≤ b.height ∧ 0 < a.width ∧ a.width ≤ b.width
    ∧ 0 < a.arch ∧ a.arch ≤ b.arch
    ∧ (a.includeTee = true → 0 < a.T ∧ a.T ≤ b.T)
  | .fixCorner a, .fixCorner b =>
    a.coller = b.coller ∧ a.includeTee = b.includeTee
    ∧ 0 < a.h ∧ a.h ≤ b.h ∧ 0 < a.wl ∧ a.wl ≤ b.wl ∧ 0 < a.wr ∧ a.wr ≤ b.wr
    ∧ (a.includeTee = true → 0 < a.T ∧ a.T ≤ b.T)
  | .slideCorner a, .slideCorner b =>
    a.subtype = b.subtype ∧ a.includeD29 = b.includeD29 ∧ a.useColler = b.useColler
    ∧ a.sec30 = b.sec30 ∧ a.sec26 = b.sec26
    ∧ 0 < a.height ∧ a.height ≤ b.height ∧ 0 < a.wl ∧ a.wl ≤ b.wl ∧ 0 < a.wr ∧ a.wr ≤ b.wr
    ∧ (a.subtype = 4 ∧ a.includeD29 = true → 0 < a.d29Width ∧ a.d29Width ≤ b.d29Width)
  | _, _ => False

/-! ## The scenarios of the specification -/

/-- FlexiblePanelWindow, collar type 1, height 48, width 36, `includeD29 = true`,
`useMSeries = false`. -/
def scenarioWindow : FlexiblePanelWindow :=
  { height := 48, width := 36, collerType := 1, includeD29 := true,
    useMSeriesSections := false }

/-- The rate table `DC30F=100, DC26F=100, M23=50, M28=50, M24=50, D29=80`. -/
def scenarioRates : SectionMap :=
  assigns [] [("DC30F", 100), ("DC26F", 100), ("M23", 50), ("M28", 50), ("M24", 50),
    ("D29", 80)]

/-- The rate table of the MissingRate scenario: as `scenarioRates`, without `D29`. -/
def missingD29Rates : SectionMap :=
  assigns [] [("DC30F", 100), ("DC26F", 100), ("M23", 50), ("M28", 50), ("M24", 50)]

/-! ## Lemmas on maps -/

theorem mapAt_mapAssign (m : SectionMap) (k : String) (v : ℚ) (q : String) :
    mapAt (mapAssign m k v) q = if q = k then some v else mapAt m q := by
  induction m with
  | nil => simp [mapAssign, mapAt]
  | cons e rest ih =>
    obtain ⟨k', v'⟩ := e
    unfold mapAssign
    by_cases h1 : k < k'
    · simp only [h1, if_true, mapAt]
    · by_cases h2 : k = k'
      · subst h2
        simp only [h1, if_false, if_true, mapAt]
        by_cases hq : q = k <;> simp [hq]
      · simp only [h1, h2, if_false, mapAt, ih]
        by_cases hq : q = k
        · subst hq; simp [h2]
        · simp [hq]

theorem mem_mapKeys_mapAssign (m : SectionMap) (k : String) (v : ℚ) (x : String) :
    x ∈ mapKeys (mapAssign m k v) ↔ x = k ∨ x ∈ mapKeys m := by
  induction m with
  | nil => simp [mapAssign, mapKeys]
  | cons e rest ih =>
    obtain ⟨k', v'⟩ := e
    unfold mapAssign
    by_cases h1 : k < k'
    · simp [h1, mapKeys]
    · by_cases h2 : k = k'
      · subst h2; simp [h1, mapKeys]
      · simp only [mapKeys] at ih
        simp [h1, h2, mapKeys, ih]
        tauto

theorem keysSorted_nil : KeysSorted [] := by simp [KeysSorted, mapKeys]

theorem keysSorted_mapAssign (m : SectionMap) (k : String) (v : ℚ) (hm : KeysSorted m) :
    KeysSorted (mapAssign m k v) := by
  induction m with
  | nil => simp [mapAssign, KeysSorted, mapKeys]
  | cons e rest ih =>
    obtain ⟨k', v'⟩ := e
    have hm' : (∀ x ∈ mapKeys rest, k' < x) ∧ KeysSorted rest := by
      simpa [KeysSorted, mapKeys] using hm
    unfold mapAssign
    by_cases h1 : k < k'
    · simp only [h1, if_true]
      have : KeysSorted ((k, v) :: (k', v') :: rest) := by
        unfold KeysSorted mapKeys
        simp only [List.map_cons, List.pairwise_cons]
        refine ⟨?_, ?_, ?_⟩
        · intro x hx
          rcases List.mem_cons.1 hx with rfl | hx
          · exact h1
          · exact lt_trans h1 (hm'.1 x hx)
        · exact hm'.1
        · exact hm'.2
      exact this
    · by_cases h2 : k = k'
      · subst h2
        simp only [h1, if_false, if_true]
        simpa [KeysSorted, mapKeys] using hm
      · simp only [h1, h2, if_false]
        have h3 : k' < k := lt_of_le_of_ne (not_lt.1 h1) (Ne.symm h2)
        have ih' := ih hm'.2
        unfold KeysSorted mapKeys
        simp only [List.map_cons, List.pairwise_cons]
        refine ⟨?_, ih'⟩
        intro x hx
        rcases (mem_mapKeys_mapAssign rest k v x).1 hx with rfl | hx
        · exact h3
        · exact hm'.1 x hx

theorem keysSorted_assigns (kvs : List (String × ℚ)) (m : SectionMap) (hm : KeysSorted m) :
    KeysSorted (assigns m kvs) := by
  induction kvs generalizing m with
  | nil => simpa [assigns] using hm
  | cons kv rest ih =>
    simp only [assigns, List.foldl_cons]
    exact ih _ (keysSorted_mapAssign m kv.1 kv.2 hm)

theorem keysSorted_ite (c : Prop) [Decidable c] (a b : SectionMap) (ha : KeysSorted a)
    (hb : KeysSorted b) : KeysSorted (if c then a else b) := by
  split <;> assumption

theorem mapCount_eq_zero_iff (m : SectionMap) (k : String) :
    mapCount m k = 0 ↔ mapAt m k = none := by
  induction m with
  | nil => simp [mapCount, mapAt]
  | cons e rest ih =>
    obtain ⟨k', v'⟩ := e
    by_cases h : k = k' <;> simp [mapCount, mapAt, h, ih]

theorem mapAt_mapErase (m : SectionMap) (k q : String) :
    mapAt (mapErase m k) q = if q = k then none else mapAt m q := by
  induction m with
  | nil => simp [mapErase, mapAt]
  | cons e rest ih =>
    obtain ⟨k', v'⟩ := e
    unfold mapErase at ih ⊢
    by_cases h : k' = k
    · subst h
      simp only [List.filter, ne_eq, not_true_eq_false, decide_False, ih, mapAt]
      by_cases hq : q = k' <;> simp [hq]
    · simp only [List.filter, ne_eq, h, not_false_eq_true, decide_True, mapAt, ih]
      by_cases hq : q = k
      · subst hq; simp [Ne.symm h]
      · simp [hq]

/-! ## C1: the FlexiblePanelWindow collar table -/

/-- C1. FlexiblePanelWindow with includeD29 = true and useMSeries = false: for collar
type 1 the section map is exactly DC30F = 2h+w+9, DC26F = w+3, M23 = 2h, M28 = 2h,
M24 = 2w, D29 = 2h+w (141, 39, 96, 96, 72, 132 at h = 48, w = 36), and for collar
types 2, 3, 4, 5, 7, 9 and 13 the DC30/DC26 entries are exactly the rows of the
table. -/
theorem C1_flexible_collar_table (h w : ℚ) :
    FlexiblePanelWindow.getRequiredSections
        { height := h, width := w, collerType := 1, includeD29 := true,
          useMSeriesSections := false }
      = [("D29", h * 2 + w), ("DC26F", w + 3), ("DC30F", h * 2 + w + 9),
         ("M23", h * 2), ("M24", w * 2), ("M28", h * 2)]
    ∧ FlexiblePanelWindow.getRequiredSections
        { height := 48, width := 36, collerType := 1, includeD29 := true,
          useMSeriesSections := false }
      = [("D29", 132), ("DC26F", 39), ("DC30F", 141), ("M23", 96), ("M24", 72), ("M28", 96)]
    ∧ dcEntries (FlexiblePanelWindow.getRequiredSections
        { height := h, width := w, collerType := 2, includeD29 := true,
          useMSeriesSections := false })
      = [("DC26C", w), ("DC30C", h * 2 + w)]
    ∧ dcEntries (FlexiblePanelWindow.getRequiredSections
        { height := h, width := w, collerType := 3, includeD29 := true,
          useMSeriesSections := false })
      = [("DC26F", w + 3), ("DC30C", w), ("DC30F", h * 2 + 6)]
    ∧ dcEntries (FlexiblePanelWindow.getRequiredSections
        { height := h, width := w, collerType := 4, includeD29 := true,
          useMSeriesSections := false })
      = [("DC26F", w + 3), ("DC30C", h), ("DC30F", h + w + 6)]
    ∧ dcEntries (FlexiblePanelWindow.getRequiredSections
        { height := h, width := w, collerType := 5, includeD29 := true,
          useMSeriesSections := false })
      = [("DC26C", w), ("DC30F", h * 2 + w + 9)]
    ∧ dcEntries (FlexiblePanelWindow.getRequiredSections
        { height := h, width := w, collerType := 7, includeD29 := true,
          useMSeriesSections := false })
      = [("DC26F", w + 3), ("DC30C", h + w), ("DC30F", h + 3)]
    ∧ dcEntries (FlexiblePanelWindow.getRequiredSections
        { height := h, width := w, collerType := 9, includeD29 := true,
          useMSeriesSections := false })
      = [("DC26F", w + 3), ("DC30C", h * 2), ("DC30F", w + 3)]
    ∧ dcEntries (FlexiblePanelWindow.getRequiredSections
        { height := h, width := w, collerType := 13, includeD29 := true,
          useMSeriesSections := false })
      = [("DC26F", w + 3), ("DC30C", h * 2 + w)] := by
  refine ⟨?_, ?_, ?_, ?_, ?_, ?_, ?_, ?_, ?_⟩
  · simp +decide [FlexiblePanelWindow.getRequiredSections, FlexiblePanelWindow.sec, assigns,
      mapAssign]
  · simp +decide [FlexiblePanelWindow.getRequiredSections, FlexiblePanelWindow.sec, assigns,
      mapAssign]
    norm_num
  all_goals
    simp +decide [FlexiblePanelWindow.getRequiredSections, FlexiblePanelWindow.sec, assigns,
      mapAssign, dcEntries, startsWith, List.filter, List.isPrefixOf]

/-! ## C2: the secondary section of collar type 14 -/

set_option maxHeartbeats 2000000 in
/-- For collar types 1 to 13 the secondary section of both panel shapes follows the
family: `DC26F`, when present, is `w + 3` and `DC26C`, when present, is `w`. -/
theorem secondary_family_types_1_to_13 (h w n : ℚ) (c net : ℤ) (d29 : Bool)
    (hc : 1 ≤ c ∧ c ≤ 13) :
    (∀ v, mapAt (FlexiblePanelWindow.getRequiredSections
        { height := h, width := w, collerType := c, includeD29 := d29,
          useMSeriesSections := false }) "DC26F" = some v → v = w + 3)
    ∧ (∀ v, mapAt (FlexiblePanelWindow.getRequiredSections
        { height := h, width := w, collerType := c, includeD29 := d29,
          useMSeriesSections := false }) "DC26C" = some v → v = w)
    ∧ (∀ v, mapAt (ThreePanel_3glass.getRequiredSections
        { height := h, width := w, netwidth := n, collerType := c, net := net,
          includeD29 := d29, prefix30 := "DC30", prefix26 := "DC26" }) "DC26F" = some v →
        v = w + 3)
    ∧ (∀ v, mapAt (ThreePanel_3glass.getRequiredSections
        { height := h, width := w, netwidth := n, collerType := c, net := net,
          includeD29 := d29, prefix30 := "DC30", prefix26 := "DC26" }) "DC26C" = some v →
        v = w) := by
  obtain ⟨h1, h2⟩ := hc
  refine ⟨?_, ?_, ?_, ?_⟩ <;> intro v <;> interval_cases c <;> cases d29 <;>
    simp [FlexiblePanelWindow.getRequiredSections, FlexiblePanelWindow.sec,
      ThreePanel_3glass.getRequiredSections, assigns, mapAt_mapAssign, mapAt] <;>
    (try split_ifs) <;>
    (try simp [mapAt_mapAssign, mapAt]) <;>
    (try (intro e; exact e.symm))

/-- C2 (evaluation at the failing input). For collar type 14 both FlexiblePanelWindow
and ThreePanel_3glass (prefixes DC30/DC26) produce the F-suffixed secondary section
`DC26F` with length `w`, not `w + 3`; at h = 48, w = 36 it is 36, not 39. -/
theorem C2_collar14_secondary_is_w (h w : ℚ) :
    mapAt (FlexiblePanelWindow.getRequiredSections
        { height := h, width := w, collerType := 14, includeD29 := true,
          useMSeriesSections := false }) "DC26F" = some w
    ∧ mapAt (ThreePanel_3glass.getRequiredSections
        { height := h, width := w, collerType := 14, net := 2, includeD29 := true,
          prefix30 := "DC30", prefix26 := "DC26" }) "DC26F" = some w
    ∧ w ≠ w + 3
    ∧ mapAt (FlexiblePanelWindow.getRequiredSections
        { height := 48, width := 36, collerType := 14, includeD29 := true,
          useMSeriesSections := false }) "DC26F" = some 36
    ∧ mapAt (ThreePanel_3glass.getRequiredSections
        { height := 48, width := 36, collerType := 14, net := 2, includeD29 := true,
          prefix30 := "DC30", prefix26 := "DC26" }) "DC26F" = some 36 := by
  refine ⟨?_, ?_, ?_, ?_, ?_⟩
  · simp +decide [FlexiblePanelWindow.getRequiredSections, FlexiblePanelWindow.sec, assigns,
      mapAt_mapAssign, mapAt]
  · simp +decide [ThreePanel_3glass.getRequiredSections, assigns, mapAt_mapAssign, mapAt]
  · intro hw
    linarith
  · simp +decide [FlexiblePanelWindow.getRequiredSections, FlexiblePanelWindow.sec, assigns,
      mapAt_mapAssign, mapAt]
  · simp +decide [ThreePanel_3glass.getRequiredSections, assigns, mapAt_mapAssign, mapAt]

/-! ## Lemmas on rounding -/

theorem castInt_of_nonneg (x : ℚ) (hx : 0 ≤ x) : castInt x = ⌊x⌋ := by
  simp [castInt, hx]

/-- The floor-based variant in terms of the remainder. -/
theorem floorRound_eq (x : ℚ) :
    ThreePanel_3glass.roundToMarketFeet x
      = if remainderInches x ≤ 6 then (⌊x / 12⌋ : ℚ) + 3 / 5 else (⌊x / 12⌋ : ℚ) + 1 := by
  have e : (x / 12 - (⌊x / 12⌋ : ℚ)) * 12 = remainderInches x := by
    unfold remainderInches; ring
  simp only [ThreePanel_3glass.roundToMarketFeet, floorInt, e]

/-- The FlexiblePanelWindow variant in terms of the remainder, for a non-negative length. -/
theorem flexRound_eq (x : ℚ) (hx : 0 ≤ x) :
    FlexiblePanelWindow.roundToMarketFeet x
      = if remainderInches x = 0 then x / 12
        else if remainderInches x ≤ 6 then (⌊x / 12⌋ : ℚ) + 3 / 5 else (⌊x / 12⌋ : ℚ) + 1 := by
  have hft : 0 ≤ x / 12 := by positivity
  have e : (x / 12 - (⌊x / 12⌋ : ℚ)) * 12 = remainderInches x := by
    unfold remainderInches; ring
  have e0 : x / 12 - (⌊x / 12⌋ : ℚ) = 0 ↔ remainderInches x = 0 := by
    rw [← e]; constructor
    · intro h; rw [h]; ring
    · intro h; linarith
  simp only [FlexiblePanelWindow.roundToMarketFeet, castInt_of_nonneg _ hft, e, e0]

theorem remainderInches_nonneg (x : ℚ) : 0 ≤ remainderInches x := by
  unfold remainderInches
  have := Int.floor_le (x / 12)
  linarith

theorem remainderInches_lt (x : ℚ) : remainderInches x < 12 := by
  unfold remainderInches
  have := Int.lt_floor_add_one (x / 12)
  linarith

theorem floor_int_add_frac (f : ℤ) (d : ℚ) (h0 : 0 ≤ d) (h1 : d < 1) : ⌊(f : ℚ) + d⌋ = f := by
  rw [Int.floor_eq_iff]; constructor <;> linarith

/-- Remainder of a whole number of feet plus `d` feet, `0 ≤ d < 1`. -/
theorem remainderInches_feet (f : ℤ) (d : ℚ) (h0 : 0 ≤ d) (h1 : d < 1) :
    remainderInches (12 * ((f : ℚ) + d)) = 12 * d := by
  unfold remainderInches
  have : 12 * ((f : ℚ) + d) / 12 = (f : ℚ) + d := by ring
  rw [this, floor_int_add_frac f d h0 h1]; ring

theorem floorRound_all :
    FixWindow.roundToMarketFeet = ThreePanel_3glass.roundToMarketFeet
    ∧ RandomFixWindow.roundToMarketFeet = ThreePanel_3glass.roundToMarketFeet
    ∧ OpenableWindow.roundToMarketFeet = ThreePanel_3glass.roundToMarketFeet
    ∧ DoorWindow.roundToMarketFeet = ThreePanel_3glass.roundToMarketFeet
    ∧ QadialArchWindow.roundToMarketFeet = ThreePanel_3glass.roundToMarketFeet
    ∧ RoundArchWindow.roundToMarketFeet = ThreePanel_3glass.roundToMarketFeet
    ∧ FixCornerWindow.roundToMarketFeet = ThreePanel_3glass.roundToMarketFeet
    ∧ SlideCornerWindow.roundToMarketFeet = ThreePanel_3glass.roundToMarketFeet :=
  ⟨rfl, rfl, rfl, rfl, rfl, rfl, rfl, rfl⟩

/-- Every shape other than FlexiblePanelWindow rounds with the floor-based variant. -/
theorem round_of_not_flexible (c : FrameComponent) (hc : ∀ s, c ≠ .flexiblePanel s) :
    c.roundToMarketFeet = ThreePanel_3glass.roundToMarketFeet := by
  cases c with
  | flexiblePanel s => exact absurd rfl (hc s)
  | _ => rfl

theorem round_flexible (s : FlexiblePanelWindow) :
    (FrameComponent.flexiblePanel s).roundToMarketFeet = FlexiblePanelWindow.roundToMarketFeet :=
  rfl

/-- Both variants agree on a positive length with a non-zero remainder. -/
theorem round_tiers (c : FrameComponent) (x : ℚ) (hx : 0 < x) (hr : remainderInches x ≠ 0) :
    c.roundToMarketFeet x
      = if remainderInches x ≤ 6 then (⌊x / 12⌋ : ℚ) + 3 / 5 else (⌊x / 12⌋ : ℚ) + 1 := by
  cases c with
  | flexiblePanel s =>
    rw [round_flexible, flexRound_eq x hx.le, if_neg hr]
  | _ => exact floorRound_eq x

/-! ## C3: the two rounding tiers -/

/-- C3. In exact arithmetic, for every shape and every positive length whose
remainder r = inches - 12 * floor(inches / 12) is non-zero, roundToMarketFeet returns
floor(inches / 12) + 0.6 when r <= 6 and floor(inches / 12) + 1 when r > 6; 18 in
(remainder exactly 6) gives 1.6, not 2, and a remainder of 6.01 gives the next whole
foot. -/
theorem C3_round_tiers (c : FrameComponent) :
    (∀ x : ℚ, 0 < x → x - 12 * (⌊x / 12⌋ : ℚ) ≠ 0 →
      c.roundToMarketFeet x
        = if x - 12 * (⌊x / 12⌋ : ℚ) ≤ 6 then (⌊x / 12⌋ : ℚ) + 3 / 5
          else (⌊x / 12⌋ : ℚ) + 1)
    ∧ c.roundToMarketFeet 18 = 1 + 3 / 5
    ∧ c.roundToMarketFeet 18 ≠ 2
    ∧ (∀ n : ℕ, c.roundToMarketFeet (12 * n + 601 / 100) = n + 1) := by
  have key := round_tiers c
  have h18 : c.roundToMarketFeet 18 = 1 + 3 / 5 := by
    have hr : remainderInches 18 = 6 := by
      have := remainderInches_feet 1 (1 / 2) (by norm_num) (by norm_num)
      norm_num at this; exact this
    have hf : ⌊(18 : ℚ) / 12⌋ = 1 := by
      rw [Int.floor_eq_iff]; norm_num
    rw [key 18 (by norm_num) (by rw [hr]; norm_num), hr, hf]; norm_num
  refine ⟨fun x hx hr => key x hx hr, h18, ?_, ?_⟩
  · rw [h18]; norm_num
  · intro n
    have hd0 : (0 : ℚ) ≤ 601 / 1200 := by norm_num
    have hd1 : (601 : ℚ) / 1200 < 1 := by norm_num
    have hx : (12 : ℚ) * n + 601 / 100 = 12 * (((n : ℤ) : ℚ) + 601 / 1200) := by
      push_cast; ring
    have hr : remainderInches (12 * n + 601 / 100) = 601 / 100 := by
      rw [hx, remainderInches_feet _ _ hd0 hd1]; norm_num
    have hf : ⌊((12 : ℚ) * n + 601 / 100) / 12⌋ = (n : ℤ) := by
      have : ((12 : ℚ) * n + 601 / 100) / 12 = ((n : ℤ) : ℚ) + 601 / 1200 := by
        push_cast; ring
      rw [this, floor_int_add_frac _ _ hd0 hd1]
    have hpos : (0 : ℚ) < 12 * n + 601 / 100 := by positivity
    rw [key _ hpos (by rw [hr]; norm_num), hr, hf]
    norm_num

/-- Witness for C3: FlexiblePanelWindow at 141 in (remainder 9). -/
theorem C3_round_tiers_witness :
    (0 : ℚ) < 141 ∧ (141 : ℚ) - 12 * (⌊(141 : ℚ) / 12⌋ : ℚ) ≠ 0
    ∧ (FrameComponent.flexiblePanel scenarioWindow).roundToMarketFeet 141
        = if (141 : ℚ) - 12 * (⌊(141 : ℚ) / 12⌋ : ℚ) ≤ 6 then (⌊(141 : ℚ) / 12⌋ : ℚ) + 3 / 5
          else (⌊(141 : ℚ) / 12⌋ : ℚ) + 1 := by
  have hf : ⌊(141 : ℚ) / 12⌋ = 11 := by
    rw [Int.floor_eq_iff]; norm_num
  have h0 : (0 : ℚ) < 141 := by norm_num
  have hr : (141 : ℚ) - 12 * (⌊(141 : ℚ) / 12⌋ : ℚ) ≠ 0 := by
    rw [hf]; norm_num
  exact ⟨h0, hr, (C3_round_tiers (FrameComponent.flexiblePanel scenarioWindow)).1 141 h0 hr⟩

/-- Floor of a whole number of feet plus `d` feet, written in inches. -/
theorem floor_feet (f : ℤ) (d : ℚ) (h0 : 0 ≤ d) (h1 : d < 1) :
    ⌊12 * ((f : ℚ) + d) / 12⌋ = f := by
  have : 12 * ((f : ℚ) + d) / 12 = (f : ℚ) + d := by ring
  rw [this, floor_int_add_frac f d h0 h1]

/-- The floor-based variant on `f` feet plus `d` feet. -/
theorem floorRound_feet (f : ℤ) (d : ℚ) (h0 : 0 ≤ d) (h1 : d < 1) :
    ThreePanel_3glass.roundToMarketFeet (12 * ((f : ℚ) + d))
      = if 12 * d ≤ 6 then (f : ℚ) + 3 / 5 else (f : ℚ) + 1 := by
  rw [floorRound_eq, remainderInches_feet f d h0 h1, floor_feet f d h0 h1]

/-- The FlexiblePanelWindow variant on `f ≥ 0` feet plus `d` feet. -/
theorem flexRound_feet (f : ℤ) (hf : 0 ≤ f) (d : ℚ) (h0 : 0 ≤ d) (h1 : d < 1) :
    FlexiblePanelWindow.roundToMarketFeet (12 * ((f : ℚ) + d))
      = if 12 * d = 0 then (f : ℚ) + d
        else if 12 * d ≤ 6 then (f : ℚ) + 3 / 5 else (f : ℚ) + 1 := by
  have hf' : (0 : ℚ) ≤ f := by exact_mod_cast hf
  have hx : (0 : ℚ) ≤ 12 * ((f : ℚ) + d) := by positivity
  rw [flexRound_eq _ hx, remainderInches_feet f d h0 h1, floor_feet f d h0 h1]
  have : 12 * ((f : ℚ) + d) / 12 = (f : ℚ) + d := by ring
  rw [this]

/-- A length written as its whole feet plus the remainder. -/
theorem eq_feet_add_remainder (x : ℚ) :
    x = 12 * (((⌊x / 12⌋ : ℤ) : ℚ) + remainderInches x / 12) := by
  unfold remainderInches; ring

theorem floor_nonneg_of_pos (x : ℚ) (hx : 0 < x) : 0 ≤ ⌊x / 12⌋ := by
  rw [Int.floor_nonneg]; positivity

/-! ## C4: exact multiples of a foot -/

/-- C4. For every positive length that is an exact multiple of 12 inches,
FlexiblePanelWindow's roundToMarketFeet returns inches / 12 unrounded, and the
roundToMarketFeet of each of the nine other shapes returns inches / 12 + 0.6; so
FlexiblePanelWindow is the only shape whose variant returns the unrounded value. -/
theorem C4_exact_foot (x : ℚ) (hx : 0 < x) (k : ℤ) (hk : x = 12 * (k : ℚ)) :
    FlexiblePanelWindow.roundToMarketFeet x = x / 12
    ∧ ThreePanel_3glass.roundToMarketFeet x = x / 12 + 3 / 5
    ∧ FixWindow.roundToMarketFeet x = x / 12 + 3 / 5
    ∧ RandomFixWindow.roundToMarketFeet x = x / 12 + 3 / 5
    ∧ OpenableWindow.roundToMarketFeet x = x / 12 + 3 / 5
    ∧ DoorWindow.roundToMarketFeet x = x / 12 + 3 / 5
    ∧ QadialArchWindow.roundToMarketFeet x = x / 12 + 3 / 5
    ∧ RoundArchWindow.roundToMarketFeet x = x / 12 + 3 / 5
    ∧ FixCornerWindow.roundToMarketFeet x = x / 12 + 3 / 5
    ∧ SlideCornerWindow.roundToMarketFeet x = x / 12 + 3 / 5
    ∧ (∀ c : FrameComponent, c.roundToMarketFeet x = x / 12 ↔ ∃ s, c = .flexiblePanel s) := by
  have hk0 : 0 ≤ k := by
    have : (0 : ℚ) < k := by linarith
    exact_mod_cast this.le
  have hx' : x = 12 * ((k : ℚ) + 0) := by rw [hk]; ring
  have hdiv : x / 12 = (k : ℚ) := by rw [hk]; ring
  have hflex : FlexiblePanelWindow.roundToMarketFeet x = x / 12 := by
    rw [hdiv, hx', flexRound_feet k hk0 0 le_rfl (by norm_num)]; simp
  have hfloor : ThreePanel_3glass.roundToMarketFeet x = x / 12 + 3 / 5 := by
    rw [hdiv, hx', floorRound_feet k 0 le_rfl (by norm_num)]; simp
  refine ⟨hflex, hfloor, hfloor, hfloor, hfloor, hfloor, hfloor, hfloor, hfloor, hfloor, ?_⟩
  intro c
  constructor
  · intro h
    cases c with
    | flexiblePanel s => exact ⟨s, rfl⟩
    | _ =>
      exfalso
      have h2 : ThreePanel_3glass.roundToMarketFeet x = x / 12 := h
      rw [hfloor] at h2
      linarith
  · rintro ⟨s, rfl⟩
    exact hflex

/-- Witness for C4: 24 in is two whole feet; FlexiblePanelWindow returns 2, FixWindow 2.6. -/
theorem C4_exact_foot_witness :
    FlexiblePanelWindow.roundToMarketFeet 24 = 2 ∧ FixWindow.roundToMarketFeet 24 = 2 + 3 / 5 := by
  have h := C4_exact_foot 24 (by norm_num) 2 (by norm_num)
  refine ⟨?_, ?_⟩
  · rw [h.1]; norm_num
  · rw [h.2.2.1]; norm_num

/-! ## C5: re-rounding the rounded length -/

/-- C5 (counterexample). Re-rounding the inch-equivalent of a rounded length changes
it: 18 in rounds to 1.6 ft, and 12 * 1.6 = 19.2 in rounds to 2 ft, under both
variants. -/
theorem C5_not_idempotent_at_18 :
    FlexiblePanelWindow.roundToMarketFeet 18 = 8 / 5
    ∧ FlexiblePanelWindow.roundToMarketFeet (12 * FlexiblePanelWindow.roundToMarketFeet 18) = 2
    ∧ FlexiblePanelWindow.roundToMarketFeet (12 * FlexiblePanelWindow.roundToMarketFeet 18)
        ≠ FlexiblePanelWindow.roundToMarketFeet 18
    ∧ FixWindow.roundToMarketFeet 18 = 8 / 5
    ∧ FixWindow.roundToMarketFeet (12 * FixWindow.roundToMarketFeet 18) = 2
    ∧ FixWindow.roundToMarketFeet (12 * FixWindow.roundToMarketFeet 18)
        ≠ FixWindow.roundToMarketFeet 18 := by
  have a1 : FlexiblePanelWindow.roundToMarketFeet 18 = 8 / 5 := by
    have := flexRound_feet 1 (by norm_num) (1 / 2) (by norm_num) (by norm_num)
    norm_num at this
    exact this
  have a2 : FlexiblePanelWindow.roundToMarketFeet (12 * (8 / 5)) = 2 := by
    have := flexRound_feet 1 (by norm_num) (3 / 5) (by norm_num) (by norm_num)
    norm_num at this ⊢
    exact this
  have b1 : FixWindow.roundToMarketFeet 18 = 8 / 5 := by
    have := floorRound_feet 1 (1 / 2) (by norm_num) (by norm_num)
    norm_num at this
    exact this
  have b2 : FixWindow.roundToMarketFeet (12 * (8 / 5)) = 2 := by
    have := floorRound_feet 1 (3 / 5) (by norm_num) (by norm_num)
    norm_num at this ⊢
    exact this
  refine ⟨a1, ?_, ?_, b1, ?_, ?_⟩
  · rw [a1, a2]
  · rw [a1, a2]; norm_num
  · rw [b1, b2]
  · rw [b1, b2]; norm_num

/-- C5 (amended). For a positive length x with remainder r: under FlexiblePanelWindow's
variant re-rounding the inch-equivalent of the rounded length returns the same value
exactly when r = 0 or r > 6, and returns 0.4 ft more when 0 < r <= 6; under the
floor-based variant of every other shape it returns 0.4 ft more when r <= 6 and
0.6 ft more when r > 6. -/
theorem C5_reround (x : ℚ) (hx : 0 < x) :
    (FlexiblePanelWindow.roundToMarketFeet (12 * FlexiblePanelWindow.roundToMarketFeet x)
        = FlexiblePanelWindow.roundToMarketFeet x
      ↔ (remainderInches x = 0 ∨ 6 < remainderInches x))
    ∧ (0 < remainderInches x → remainderInches x ≤ 6 →
        FlexiblePanelWindow.roundToMarketFeet (12 * FlexiblePanelWindow.roundToMarketFeet x)
          = FlexiblePanelWindow.roundToMarketFeet x + 2 / 5)
    ∧ (∀ c : FrameComponent, (∀ s, c ≠ .flexiblePanel s) →
        c.roundToMarketFeet (12 * c.roundToMarketFeet x)
          = c.roundToMarketFeet x + (if remainderInches x ≤ 6 then 2 / 5 else 3 / 5)) := by
  have hf := floor_nonneg_of_pos x hx
  have hr0 := remainderInches_nonneg x
  have hflex := flexRound_eq x hx.le
  have hfl := floorRound_eq x
  -- re-rounding `f + 3/5` feet and `f + 1` feet
  have flexA : FlexiblePanelWindow.roundToMarketFeet (12 * ((⌊x / 12⌋ : ℚ) + 3 / 5))
      = (⌊x / 12⌋ : ℚ) + 1 := by
    rw [flexRound_feet _ hf (3 / 5) (by norm_num) (by norm_num)]; norm_num
  have flexB : FlexiblePanelWindow.roundToMarketFeet (12 * ((⌊x / 12⌋ : ℚ) + 1))
      = (⌊x / 12⌋ : ℚ) + 1 := by
    have := flexRound_feet (⌊x / 12⌋ + 1) (by linarith) 0 le_rfl (by norm_num)
    simpa using this
  have flexC : remainderInches x = 0 →
      FlexiblePanelWindow.roundToMarketFeet (12 * (x / 12)) = x / 12 := by
    intro h
    have e : x / 12 = (⌊x / 12⌋ : ℚ) := by
      unfold remainderInches at h; linarith
    rw [e]
    have := flexRound_feet (⌊x / 12⌋) hf 0 le_rfl (by norm_num)
    simpa using this
  have floorA : ThreePanel_3glass.roundToMarketFeet (12 * ((⌊x / 12⌋ : ℚ) + 3 / 5))
      = (⌊x / 12⌋ : ℚ) + 1 := by
    rw [floorRound_feet _ (3 / 5) (by norm_num) (by norm_num)]; norm_num
  have floorB : ThreePanel_3glass.roundToMarketFeet (12 * ((⌊x / 12⌋ : ℚ) + 1))
      = (⌊x / 12⌋ : ℚ) + 1 + 3 / 5 := by
    have := floorRound_feet (⌊x / 12⌋ + 1) 0 le_rfl (by norm_num)
    simpa using this
  refine ⟨?_, ?_, ?_⟩
  · by_cases h0 : remainderInches x = 0
    · simp only [h0, true_or, iff_true]
      rw [hflex, if_pos h0]
      exact flexC h0
    · by_cases h6 : remainderInches x ≤ 6
      · rw [hflex, if_neg h0, if_pos h6, flexA]
        constructor
        · intro h; exfalso; linarith
        · rintro (h | h)
          · exact absurd h h0
          · exfalso; linarith
      · rw [hflex, if_neg h0, if_neg h6, flexB]
        simp only [true_iff]
        right; exact not_le.1 h6
  · intro h0 h6
    rw [hflex, if_neg (ne_of_gt h0), if_pos h6, flexA]; ring
  · intro c hc
    rw [round_of_not_flexible c hc, hfl]
    by_cases h6 : remainderInches x ≤ 6
    · rw [if_pos h6, if_pos h6, floorA]; ring
    · rw [if_neg h6, if_neg h6, floorB]

/-- Witness for C5 (amended): at x = 18 the remainder is 6, so both variants re-round
1.6 ft to 0.4 ft more. -/
theorem C5_reround_witness :
    (0 : ℚ) < 18
    ∧ (FrameComponent.fixWindow {}).roundToMarketFeet
          (12 * (FrameComponent.fixWindow {}).roundToMarketFeet 18)
        = (FrameComponent.fixWindow {}).roundToMarketFeet 18
          + (if remainderInches 18 ≤ 6 then 2 / 5 else 3 / 5) :=
  ⟨by norm_num, (C5_reround 18 (by norm_num)).2.2 (FrameComponent.fixWindow {})
    (fun s h => by cases h)⟩

/-! ## Lemmas on the pricing loops -/

theorem amount_outputOf (round : ℚ → ℚ) (rates : SectionMap) (s : String × ℚ) :
    (outputOf round rates s).amount = lineAmount round rates s := by
  unfold outputOf lineAmount rateOf
  cases h : mapAt rates s.1 <;> simp [Output.amount]

theorem name_outputOf (round : ℚ → ℚ) (rates : SectionMap) (s : String × ℚ) :
    (outputOf round rates s).name = s.1 := by
  unfold outputOf
  cases h : mapAt rates s.1 <;> simp [Output.name]

theorem outputOf_of_rate (round : ℚ → ℚ) (rates : SectionMap) (s : String × ℚ) (r : ℚ)
    (h : mapAt rates s.1 = some r) :
    outputOf round rates s
      = Output.line s.1 s.2 (s.2 / 12) (round s.2) (round s.2 * rateOf rates s.1) := by
  simp [outputOf, rateOf, h]

/-- The `try`/`catch` loop prices every entry that has a rate and skips the others. -/
theorem priceLoopTry_eq (round : ℚ → ℚ) (rates : SectionMap) (l : List (String × ℚ))
    (t : ℚ) (o : List Output) :
    priceLoopTry round rates l (t, o)
      = (t + (l.map (lineAmount round rates)).sum, o ++ l.map (outputOf round rates)) := by
  induction l generalizing t o with
  | nil => simp [priceLoopTry]
  | cons s rest ih =>
    unfold priceLoopTry
    cases h : mapAt rates s.1 with
    | none =>
      simp only [ih, List.map_cons, List.sum_cons, List.append_assoc, List.singleton_append]
      simp [lineAmount, rateOf, outputOf, h]
    | some r =>
      simp only [ih, List.map_cons, List.sum_cons, List.append_assoc, List.singleton_append]
      simp [lineAmount, rateOf, outputOf, h, add_assoc]

/-- The `count`-guarded loop never throws and computes the same result. -/
theorem priceLoopCount_eq (round : ℚ → ℚ) (rates : SectionMap) (l : List (String × ℚ))
    (t : ℚ) (o : List Output) :
    priceLoopCount round rates l (t, o)
      = some (t + (l.map (lineAmount round rates)).sum, o ++ l.map (outputOf round rates)) := by
  induction l generalizing t o with
  | nil => simp [priceLoopCount]
  | cons s rest ih =>
    unfold priceLoopCount
    cases h : mapAt rates s.1 with
    | none =>
      have hc : mapCount rates s.1 = 0 := (mapCount_eq_zero_iff rates s.1).2 h
      simp only [hc, if_true, ih, List.map_cons, List.sum_cons, List.append_assoc,
        List.singleton_append]
      simp [lineAmount, rateOf, outputOf, h]
    | some r =>
      have hc : ¬ mapCount rates s.1 = 0 := by
        rw [mapCount_eq_zero_iff, h]; simp
      simp only [hc, if_false, ih, List.map_cons, List.sum_cons, List.append_assoc,
        List.singleton_append]
      simp [lineAmount, rateOf, outputOf, h, add_assoc]

/-- The unguarded loop returns when every entry has a rate. -/
theorem priceLoopAt_eq (round : ℚ → ℚ) (rates : SectionMap) (l : List (String × ℚ))
    (hl : RatesComplete rates l) (t : ℚ) (o : List Output) :
    priceLoopAt round rates l (t, o)
      = some (t + (l.map (lineAmount round rates)).sum, o ++ l.map (outputOf round rates)) := by
  induction l generalizing t o with
  | nil => simp [priceLoopAt]
  | cons s rest ih =>
    obtain ⟨r, h⟩ := hl s (List.mem_cons_self _ _)
    have hrest : RatesComplete rates rest := fun e he => hl e (List.mem_cons_of_mem _ he)
    unfold priceLoopAt
    simp only [h, ih hrest, List.map_cons, List.sum_cons, List.append_assoc,
      List.singleton_append]
    simp [lineAmount, rateOf, outputOf, h, add_assoc]

/-- The unguarded loop throws as soon as it reaches an entry with no rate. -/
theorem priceLoopAt_none (round : ℚ → ℚ) (rates : SectionMap) (l : List (String × ℚ))
    (hl : ∃ e ∈ l, mapAt rates e.1 = none) (acc : ℚ × List Output) :
    priceLoopAt round rates l acc = none := by
  induction l generalizing acc with
  | nil => obtain ⟨e, he, _⟩ := hl; cases he
  | cons s rest ih =>
    obtain ⟨t, o⟩ := acc
    unfold priceLoopAt
    cases h : mapAt rates s.1 with
    | none => rfl
    | some r =>
      simp only
      apply ih
      obtain ⟨e, he, hn⟩ := hl
      rcases List.mem_cons.1 he with rfl | he'
      · rw [h] at hn; cases hn
      · exact ⟨e, he', hn⟩

theorem outputs_of_complete (round : ℚ → ℚ) (rates : SectionMap) (l : List (String × ℚ))
    (hl : RatesComplete rates l) :
    l.map (outputOf round rates)
      = l.map (fun e => Output.line e.1 e.2 (e.2 / 12) (round e.2)
          (round e.2 * rateOf rates e.1)) := by
  apply List.map_congr_left
  intro e he
  obtain ⟨r, h⟩ := hl e he
  exact outputOf_of_rate round rates e r h

theorem sum_amount_outputs (round : ℚ → ℚ) (rates : SectionMap) (l : List (String × ℚ)) :
    ((l.map (outputOf round rates)).map Output.amount).sum
      = (l.map (lineAmount round rates)).sum := by
  rw [List.map_map]
  congr 1
  apply List.map_congr_left
  intro e _
  exact amount_outputOf round rates e

/-! ## Lemmas: the section maps are sorted by name -/

theorem keysSorted_getRequiredSections (c : FrameComponent) :
    KeysSorted c.getRequiredSections := by
  cases c with
  | flexiblePanel s =>
    simp only [FrameComponent.getRequiredSections, FlexiblePanelWindow.getRequiredSections]
    repeat' first
      | exact keysSorted_nil
      | with_reducible apply keysSorted_ite
      | with_reducible apply keysSorted_mapAssign
      | with_reducible apply keysSorted_assigns
  | threePanel3glass s =>
    simp only [FrameComponent.getRequiredSections, ThreePanel_3glass.getRequiredSections]
    repeat' first
      | exact keysSorted_nil
      | with_reducible apply keysSorted_ite
      | with_reducible apply keysSorted_mapAssign
      | with_reducible apply keysSorted_assigns
  | fixWindow s =>
    simp only [FrameComponent.getRequiredSections, FixWindow.getRequiredSections]
    repeat' first
      | exact keysSorted_nil
      | with_reducible apply keysSorted_ite
      | with_reducible apply keysSorted_mapAssign
      | with_reducible apply keysSorted_assigns
  | randomFix s =>
    simp only [FrameComponent.getRequiredSections, RandomFixWindow.getRequiredSections]
    repeat' first
      | exact keysSorted_nil
      | with_reducible apply keysSorted_ite
      | with_reducible apply keysSorted_mapAssign
      | with_reducible apply keysSorted_assigns
  | openable s =>
    simp only [FrameComponent.getRequiredSections, OpenableWindow.getRequiredSections]
    repeat' first
      | exact keysSorted_nil
      | with_reducible apply keysSorted_ite
      | with_reducible apply keysSorted_mapAssign
      | with_reducible apply keysSorted_assigns
  | door s =>
    simp only [FrameComponent.getRequiredSections, DoorWindow.getRequiredSections]
    repeat' first
      | exact keysSorted_nil
      | with_reducible apply keysSorted_ite
      | with_reducible apply keysSorted_mapAssign
      | with_reducible apply keysSorted_assigns
  | qadialArch s =>
    simp only [FrameComponent.getRequiredSections, QadialArchWindow.getRequiredSections]
    repeat' first
      | exact keysSorted_nil
      | with_reducible apply keysSorted_ite
      | with_reducible apply keysSorted_mapAssign
      | with_reducible apply keysSorted_assigns
  | roundArch s =>
    simp only [FrameComponent.getRequiredSections, RoundArchWindow.getRequiredSections]
    repeat' first
      | exact keysSorted_nil
      | with_reducible apply keysSorted_ite
      | with_reducible apply keysSorted_mapAssign
      | with_reducible apply keysSorted_assigns
  | fixCorner s =>
    simp only [FrameComponent.getRequiredSections, FixCornerWindow.getRequiredSections]
    repeat' first
      | exact keysSorted_nil
      | with_reducible apply keysSorted_ite
      | with_reducible apply keysSorted_mapAssign
      | with_reducible apply keysSorted_assigns
  | slideCorner s =>
    simp only [FrameComponent.getRequiredSections, SlideCornerWindow.getRequiredSections]
    repeat' first
      | exact keysSorted_nil
      | with_reducible apply keysSorted_ite
      | with_reducible apply keysSorted_mapAssign
      | with_reducible apply keysSorted_assigns

/-- Every shape's `calculateTotalPrice` under a complete rate table. -/
theorem calculateTotalPrice_complete (c : FrameComponent) (rates : SectionMap)
    (hr : RatesComplete rates c.getRequiredSections) :
    c.calculateTotalPrice rates
      = some ((c.getRequiredSections.map (lineAmount c.roundToMarketFeet rates)).sum,
          c.getRequiredSections.map (outputOf c.roundToMarketFeet rates)) := by
  cases c with
  | fixWindow s =>
    simp [FrameComponent.calculateTotalPrice, FixWindow.calculateTotalPrice, priceLoopTry_eq,
      FrameComponent.getRequiredSections, FrameComponent.roundToMarketFeet]
  | randomFix s =>
    simp [FrameComponent.calculateTotalPrice, RandomFixWindow.calculateTotalPrice,
      priceLoopTry_eq, FrameComponent.getRequiredSections, FrameComponent.roundToMarketFeet]
  | openable s =>
    simp [FrameComponent.calculateTotalPrice, OpenableWindow.calculateTotalPrice,
      priceLoopCount_eq, FrameComponent.getRequiredSections, FrameComponent.roundToMarketFeet]
  | flexiblePanel s =>
    have := priceLoopAt_eq FlexiblePanelWindow.roundToMarketFeet rates _ hr 0 []
    simpa [FrameComponent.calculateTotalPrice, FlexiblePanelWindow.calculateTotalPrice,
      FrameComponent.getRequiredSections, FrameComponent.roundToMarketFeet] using this
  | threePanel3glass s =>
    have := priceLoopAt_eq ThreePanel_3glass.roundToMarketFeet rates _ hr 0 []
    simpa [FrameComponent.calculateTotalPrice, ThreePanel_3glass.calculateTotalPrice,
      FrameComponent.getRequiredSections, FrameComponent.roundToMarketFeet] using this
  | door s =>
    have := priceLoopAt_eq DoorWindow.roundToMarketFeet rates _ hr 0 []
    simpa [FrameComponent.calculateTotalPrice, DoorWindow.calculateTotalPrice,
      FrameComponent.getRequiredSections, FrameComponent.roundToMarketFeet] using this
  | qadialArch s =>
    have := priceLoopAt_eq QadialArchWindow.roundToMarketFeet rates _ hr 0 []
    simpa [FrameComponent.calculateTotalPrice, QadialArchWindow.calculateTotalPrice,
      FrameComponent.getRequiredSections, FrameComponent.roundToMarketFeet] using this
  | roundArch s =>
    have := priceLoopAt_eq RoundArchWindow.roundToMarketFeet rates _ hr 0 []
    simpa [FrameComponent.calculateTotalPrice, RoundArchWindow.calculateTotalPrice,
      FrameComponent.getRequiredSections, FrameComponent.roundToMarketFeet] using this
  | fixCorner s =>
    have := priceLoopAt_eq FixCornerWindow.roundToMarketFeet rates _ hr 0 []
    simpa [FrameComponent.calculateTotalPrice, FixCornerWindow.calculateTotalPrice,
      FrameComponent.getRequiredSections, FrameComponent.roundToMarketFeet] using this
  | slideCorner s =>
    have := priceLoopAt_eq SlideCornerWindow.roundToMarketFeet rates _ hr 0 []
    simpa [FrameComponent.calculateTotalPrice, SlideCornerWindow.calculateTotalPrice,
      FrameComponent.getRequiredSections, FrameComponent.roundToMarketFeet] using this

/-! ## C6: the total is the sum of the itemized amounts -/

/-- C6. For every shape instance and every rate table with a rate for each of the
instance's section names: the section map is in strictly increasing (lexicographic)
name order, calculateTotalPrice returns, and its total is the sum over the entries
(name, inches) in that order of roundToMarketFeet(inches) * rate(name); the lines it
writes are exactly these entries, so the total equals the sum of the itemized
amounts. -/
theorem C6_total_is_sum_of_lines (c : FrameComponent) (rates : SectionMap)
    (hr : ∀ e ∈ c.getRequiredSections, ∃ r, mapAt rates e.1 = some r) :
    (mapKeys c.getRequiredSections).Pairwise (· < ·)
    ∧ ∃ out : List Output,
        c.calculateTotalPrice rates
          = some ((c.getRequiredSections.map
                    (fun e => c.roundToMarketFeet e.2 * rateOf rates e.1)).sum, out)
        ∧ out = c.getRequiredSections.map
            (fun e => Output.line e.1 e.2 (e.2 / 12) (c.roundToMarketFeet e.2)
              (c.roundToMarketFeet e.2 * rateOf rates e.1))
        ∧ (out.map Output.amount).sum
            = (c.getRequiredSections.map
                (fun e => c.roundToMarketFeet e.2 * rateOf rates e.1)).sum := by
  refine ⟨keysSorted_getRequiredSections c, _, calculateTotalPrice_complete c rates hr, ?_, ?_⟩
  · exact outputs_of_complete _ rates _ hr
  · exact sum_amount_outputs _ rates _

/-! ## The scenario evaluated -/

theorem scenario_sections :
    scenarioWindow.getRequiredSections
      = [("D29", 132), ("DC26F", 39), ("DC30F", 141), ("M23", 96), ("M24", 72), ("M28", 96)] := by
  simp +decide [scenarioWindow, FlexiblePanelWindow.getRequiredSections,
    FlexiblePanelWindow.sec, assigns, mapAssign]
  norm_num

theorem scenarioRates_eq :
    scenarioRates
      = [("D29", 80), ("DC26F", 100), ("DC30F", 100), ("M23", 50), ("M24", 50), ("M28", 50)] := by
  simp +decide [scenarioRates, assigns, mapAssign]

theorem missingD29Rates_eq :
    missingD29Rates
      = [("DC26F", 100), ("DC30F", 100), ("M23", 50), ("M24", 50), ("M28", 50)] := by
  simp +decide [missingD29Rates, assigns, mapAssign]

theorem scenario_rates_complete :
    ∀ e ∈ (FrameComponent.flexiblePanel scenarioWindow).getRequiredSections,
      ∃ r, mapAt scenarioRates e.1 = some r := by
  intro e he
  simp only [FrameComponent.getRequiredSections, scenario_sections] at he
  rw [scenarioRates_eq]
  simp only [List.mem_cons, List.mem_singleton, List.not_mem_nil, or_false] at he
  rcases he with rfl | rfl | rfl | rfl | rfl | rfl <;> simp [mapAt]

/-- The rounded quantities of the six scenario lengths. -/
theorem scenario_rounding :
    FlexiblePanelWindow.roundToMarketFeet 132 = 11
    ∧ FlexiblePanelWindow.roundToMarketFeet 39 = 18 / 5
    ∧ FlexiblePanelWindow.roundToMarketFeet 141 = 12
    ∧ FlexiblePanelWindow.roundToMarketFeet 96 = 8
    ∧ FlexiblePanelWindow.roundToMarketFeet 72 = 6 := by
  refine ⟨?_, ?_, ?_, ?_, ?_⟩
  · have := flexRound_feet 11 (by norm_num) 0 (by norm_num) (by norm_num)
    norm_num at this ⊢; exact this
  · have := flexRound_feet 3 (by norm_num) (1 / 4) (by norm_num) (by norm_num)
    norm_num at this ⊢; exact this
  · have := flexRound_feet 11 (by norm_num) (3 / 4) (by norm_num) (by norm_num)
    norm_num at this ⊢; exact this
  · have := flexRound_feet 8 (by norm_num) 0 (by norm_num) (by norm_num)
    norm_num at this ⊢; exact this
  · have := flexRound_feet 6 (by norm_num) 0 (by norm_num) (by norm_num)
    norm_num at this ⊢; exact this

/-- The pricing scenario evaluated: the six lines and the total. -/
theorem scenario_price :
    scenarioWindow.calculateTotalPrice scenarioRates
      = some (3540,
          [Output.line "D29" 132 11 11 880,
           Output.line "DC26F" 39 (13 / 4) (18 / 5) 360,
           Output.line "DC30F" 141 (47 / 4) 12 1200,
           Output.line "M23" 96 8 8 400,
           Output.line "M24" 72 6 6 300,
           Output.line "M28" 96 8 8 400]) := by
  obtain ⟨r1, r2, r3, r4, r5⟩ := scenario_rounding
  simp [FlexiblePanelWindow.calculateTotalPrice, scenario_sections, scenarioRates_eq,
    priceLoopAt, mapAt, r1, r2, r3, r4, r5]
  norm_num

/-- Witness for C6: the scenario window against the scenario rate table. -/
theorem C6_total_is_sum_of_lines_witness :
    (∀ e ∈ (FrameComponent.flexiblePanel scenarioWindow).getRequiredSections,
        ∃ r, mapAt scenarioRates e.1 = some r)
    ∧ ∃ out : List Output,
        (FrameComponent.flexiblePanel scenarioWindow).calculateTotalPrice scenarioRates
          = some (((FrameComponent.flexiblePanel scenarioWindow).getRequiredSections.map
              (fun e => (FrameComponent.flexiblePanel scenarioWindow).roundToMarketFeet e.2
                * rateOf scenarioRates e.1)).sum, out) :=
  ⟨scenario_rates_complete,
    (C6_total_is_sum_of_lines (FrameComponent.flexiblePanel scenarioWindow) scenarioRates
      scenario_rates_complete).2.imp (fun _ h => h.1)⟩

/-! ## C7: the MissingRate scenario on FlexiblePanelWindow -/

/-- C7 (evaluation at the failing input). In the MissingRate scenario
FlexiblePanelWindow's calculateTotalPrice does not return a total: the lookup
`rates.at("D29")` of the first entry throws `std::out_of_range`, which nothing
catches. -/
theorem C7_missing_rate_throws :
    scenarioWindow.calculateTotalPrice missingD29Rates = none
    ∧ (FrameComponent.flexiblePanel scenarioWindow).calculateTotalPrice missingD29Rates
        = none := by
  have h : scenarioWindow.calculateTotalPrice missingD29Rates = none := by
    unfold FlexiblePanelWindow.calculateTotalPrice
    apply priceLoopAt_none
    refine ⟨("D29", 132), ?_, ?_⟩
    · rw [scenario_sections]; simp
    · rw [missingD29Rates_eq]; simp [mapAt]
  exact ⟨h, h⟩

/-! ## C8: omitting one rate (FixWindow, RandomFixWindow, OpenableWindow) -/

theorem rateOf_mapErase (rates : SectionMap) (n q : String) :
    rateOf (mapErase rates n) q = if q = n then 0 else rateOf rates q := by
  unfold rateOf
  rw [mapAt_mapErase]
  split <;> simp

theorem lineAmount_mapErase (round : ℚ → ℚ) (rates : SectionMap) (n : String)
    (s : String × ℚ) :
    lineAmount round (mapErase rates n) s = if s.1 = n then 0 else lineAmount round rates s := by
  unfold lineAmount
  rw [rateOf_mapErase]
  split <;> simp

theorem outputOf_mapErase (round : ℚ → ℚ) (rates : SectionMap) (n : String)
    (s : String × ℚ) :
    outputOf round (mapErase rates n) s
      = if (outputOf round rates s).name = n then Output.missing n
        else outputOf round rates s := by
  rw [name_outputOf]
  unfold outputOf
  rw [mapAt_mapErase]
  by_cases h : s.1 = n
  · simp [h]
  · simp [h]

/-- Erasing the rate of a name of a sorted section map lowers the sum of the line
amounts by exactly that line's amount. -/
theorem sum_lineAmount_mapErase (round : ℚ → ℚ) (rates : SectionMap) (n : String) (len : ℚ)
    (l : SectionMap) (hs : KeysSorted l) (hn : (n, len) ∈ l) :
    (l.map (lineAmount round (mapErase rates n))).sum
      = (l.map (lineAmount round rates)).sum - round len * rateOf rates n := by
  induction l with
  | nil => cases hn
  | cons e rest ih =>
    obtain ⟨k, v⟩ := e
    have hs' : (∀ x ∈ mapKeys rest, k < x) ∧ KeysSorted rest := by
      simpa [KeysSorted, mapKeys] using hs
    simp only [List.map_cons, List.sum_cons, lineAmount_mapErase]
    rcases List.mem_cons.1 hn with heq | hmem
    · have hk : n = k := congrArg Prod.fst heq
      have hv : len = v := congrArg Prod.snd heq
      subst hk; subst hv
      have hrest : rest.map (fun s => if s.1 = n then 0 else lineAmount round rates s)
          = rest.map (lineAmount round rates) := by
        apply List.map_congr_left
        intro s hsmem
        have : n < s.1 := hs'.1 s.1 (List.mem_map_of_mem Prod.fst hsmem)
        rw [if_neg (ne_of_gt this)]
      have hfun : (fun s => lineAmount round (mapErase rates n) s)
          = (fun s => if s.1 = n then 0 else lineAmount round rates s) := by
        funext s; exact lineAmount_mapErase round rates n s
      simp only [if_true]
      rw [show (List.map (lineAmount round (mapErase rates n)) rest)
          = rest.map (fun s => if s.1 = n then 0 else lineAmount round rates s) from by
        rw [← hfun], hrest]
      simp [lineAmount]
    · have hkn : k < n := hs'.1 n (List.mem_map_of_mem Prod.fst hmem)
      rw [if_neg (ne_of_lt hkn), ih hs'.2 hmem]
      ring

theorem outputs_mapErase (round : ℚ → ℚ) (rates : SectionMap) (n : String) (l : SectionMap) :
    l.map (outputOf round (mapErase rates n))
      = (l.map (outputOf round rates)).map
          (fun o => if o.name = n then Output.missing n else o) := by
  rw [List.map_map]
  apply List.map_congr_left
  intro s _
  simp only [Function.comp]
  exact outputOf_mapErase round rates n s

/-- C8. For FixWindow, RandomFixWindow and OpenableWindow, for every instance, every
complete rate table and every entry (n, len) of the section map: pricing against
the table with the entry of n erased returns normally, its total is the
complete-table total minus roundToMarketFeet(len) * rate(n), and the written lines
are those of the complete table with only the line of n replaced by the
missing-rate message. -/
theorem C8_omitted_rate (c : FrameComponent)
    (hc : (∃ s, c = .fixWindow s) ∨ (∃ s, c = .randomFix s) ∨ (∃ s, c = .openable s))
    (rates : SectionMap) (hr : ∀ e ∈ c.getRequiredSections, ∃ r, mapAt rates e.1 = some r)
    (n : String) (len : ℚ) (hn : (n, len) ∈ c.getRequiredSections) :
    ∃ (total : ℚ) (out : List Output),
      c.calculateTotalPrice rates = some (total, out)
      ∧ c.calculateTotalPrice (mapErase rates n)
          = some (total - c.roundToMarketFeet len * rateOf rates n,
              out.map (fun o => if o.name = n then Output.missing n else o)) := by
  have hs := keysSorted_getRequiredSections c
  refine ⟨_, _, calculateTotalPrice_complete c rates hr, ?_⟩
  rw [← sum_lineAmount_mapErase c.roundToMarketFeet rates n len _ hs hn,
    ← outputs_mapErase c.roundToMarketFeet rates n]
  rcases hc with ⟨s, rfl⟩ | ⟨s, rfl⟩ | ⟨s, rfl⟩
  · simp [FrameComponent.calculateTotalPrice, FixWindow.calculateTotalPrice, priceLoopTry_eq,
      FrameComponent.getRequiredSections, FrameComponent.roundToMarketFeet]
  · simp [FrameComponent.calculateTotalPrice, RandomFixWindow.calculateTotalPrice,
      priceLoopTry_eq, FrameComponent.getRequiredSections, FrameComponent.roundToMarketFeet]
  · simp [FrameComponent.calculateTotalPrice, OpenableWindow.calculateTotalPrice,
      priceLoopCount_eq, FrameComponent.getRequiredSections, FrameComponent.roundToMarketFeet]

/-- Witness for C8: a FixWindow of collar type 2, 48 by 36, priced with and without
the rate of D41. -/
theorem C8_omitted_rate_witness :
    ∃ (total : ℚ) (out : List Output),
      (FrameComponent.fixWindow { height := 48, width := 36, collerType := 2 }).calculateTotalPrice
          [("D41", 10), ("D54A", 20)] = some (total, out)
      ∧ (FrameComponent.fixWindow { height := 48, width := 36, collerType := 2 }).calculateTotalPrice
          (mapErase [("D41", 10), ("D54A", 20)] "D41")
          = some (total
              - (FrameComponent.fixWindow
                  { height := 48, width := 36, collerType := 2 }).roundToMarketFeet 168
                * rateOf [("D41", 10), ("D54A", 20)] "D41",
              out.map (fun o => if o.name = "D41" then Output.missing "D41" else o)) := by
  have hsec : (FrameComponent.fixWindow
      { height := 48, width := 36, collerType := 2 }).getRequiredSections
      = [("D41", 168), ("D54A", 168)] := by
    simp +decide [FrameComponent.getRequiredSections, FixWindow.getRequiredSections, assigns,
      mapAssign]
    norm_num
  exact C8_omitted_rate (FrameComponent.fixWindow { height := 48, width := 36, collerType := 2 })
    (Or.inl ⟨_, rfl⟩) [("D41", 10), ("D54A", 20)]
    (by
      intro e he
      rw [hsec] at he
      simp only [List.mem_cons, List.mem_singleton, List.not_mem_nil, or_false] at he
      rcases he with rfl | rfl <;> simp [mapAt])
    "D41" 168 (by rw [hsec]; simp)

/-! ## C9: the pricing scenario -/

/-- C9 (counterexample). In the pricing scenario the DC30F line of 141 in is not
billed 11.6 ft for Rs. 1160: the remainder above 11 ft is 9 in, which is more than
6, so the rounded quantity is 12 and no written line is the claimed one. -/
theorem C9_dc30f_line_is_not_1160 :
    FlexiblePanelWindow.roundToMarketFeet 141 ≠ 58 / 5
    ∧ ¬ ∃ (total : ℚ) (out : List Output),
        scenarioWindow.calculateTotalPrice scenarioRates = some (total, out)
        ∧ Output.line "DC30F" 141 (47 / 4) (58 / 5) 1160 ∈ out := by
  refine ⟨?_, ?_⟩
  · rw [scenario_rounding.2.2.1]; norm_num
  · rintro ⟨total, out, h, hmem⟩
    rw [scenario_price] at h
    have hout := (Prod.mk.inj (Option.some.inj h)).2
    rw [← hout] at hmem
    simp at hmem

/-- C9 (amended). In the pricing scenario the DC30F line of 141 in (11.75 ft) gets
rounded quantity 12 and amount Rs. 1200, and the returned total, 3540, is the sum of
the six rounded-quantity times rate products. -/
theorem C9_scenario_price :
    FlexiblePanelWindow.roundToMarketFeet 141 = 12
    ∧ scenarioWindow.calculateTotalPrice scenarioRates
      = some (11 * 80 + 18 / 5 * 100 + 12 * 100 + 8 * 50 + 6 * 50 + 8 * 50,
          [Output.line "D29" 132 11 11 880,
           Output.line "DC26F" 39 (13 / 4) (18 / 5) 360,
           Output.line "DC30F" 141 (47 / 4) 12 1200,
           Output.line "M23" 96 8 8 400,
           Output.line "M24" 72 6 6 300,
           Output.line "M28" 96 8 8 400])
    ∧ (11 * 80 + 18 / 5 * 100 + 12 * 100 + 8 * 50 + 6 * 50 + 8 * 50 : ℚ) = 3540 := by
  refine ⟨scenario_rounding.2.2.1, ?_, by norm_num⟩
  rw [scenario_price]
  norm_num

/-! ## C10: areas -/

/-- C10. For every instance getArea is (height/12) * (width/12) for FlexiblePanelWindow,
ThreePanel_3glass, FixWindow, OpenableWindow, DoorWindow, QadialArchWindow and
RoundArchWindow, is 0 for RandomFixWindow, and is (height/12) * ((leftWidth +
rightWidth)/12) for FixCornerWindow and SlideCornerWindow; hence it is non-negative
whenever all dimensions are positive. -/
theorem C10_area :
    (∀ s : FlexiblePanelWindow,
      (FrameComponent.flexiblePanel s).getArea = (s.height / 12) * (s.width / 12))
    ∧ (∀ s : ThreePanel_3glass,
      (FrameComponent.threePanel3glass s).getArea = (s.height / 12) * (s.width / 12))
    ∧ (∀ s : FixWindow,
      (FrameComponent.fixWindow s).getArea = (s.height / 12) * (s.width / 12))
    ∧ (∀ s : OpenableWindow,
      (FrameComponent.openable s).getArea = (s.height / 12) * (s.width / 12))
    ∧ (∀ s : DoorWindow,
      (FrameComponent.door s).getArea = (s.height / 12) * (s.width / 12))
    ∧ (∀ s : QadialArchWindow,
      (FrameComponent.qadialArch s).getArea = (s.height / 12) * (s.width / 12))
    ∧ (∀ s : RoundArchWindow,
      (FrameComponent.roundArch s).getArea = (s.height / 12) * (s.width / 12))
    ∧ (∀ s : RandomFixWindow, (FrameComponent.randomFix s).getArea = 0)
    ∧ (∀ s : FixCornerWindow,
      (FrameComponent.fixCorner s).getArea = (s.h / 12) * ((s.wl + s.wr) / 12))
    ∧ (∀ s : SlideCornerWindow,
      (FrameComponent.slideCorner s).getArea = (s.height / 12) * ((s.wl + s.wr) / 12))
    ∧ (∀ c : FrameComponent, DimensionsPositive c → 0 ≤ c.getArea) := by
  refine ⟨fun _ => rfl, fun _ => rfl, fun _ => rfl, fun _ => rfl, fun _ => rfl, fun _ => rfl,
    fun _ => rfl, fun _ => rfl, fun _ => rfl, fun _ => rfl, ?_⟩
  intro c hc
  cases c with
  | randomFix s => exact le_rfl
  | flexiblePanel s =>
    obtain ⟨h1, h2⟩ := hc
    show 0 ≤ (s.height / 12) * (s.width / 12)
    positivity
  | threePanel3glass s =>
    obtain ⟨h1, h2⟩ := hc
    show 0 ≤ (s.height / 12) * (s.width / 12)
    positivity
  | fixWindow s =>
    obtain ⟨h1, h2⟩ := hc
    show 0 ≤ (s.height / 12) * (s.width / 12)
    positivity
  | openable s =>
    obtain ⟨h1, h2⟩ := hc
    show 0 ≤ (s.height / 12) * (s.width / 12)
    positivity
  | door s =>
    obtain ⟨h1, h2⟩ := hc
    show 0 ≤ (s.height / 12) * (s.width / 12)
    positivity
  | qadialArch s =>
    obtain ⟨h1, h2⟩ := hc
    show 0 ≤ (s.height / 12) * (s.width / 12)
    positivity
  | roundArch s =>
    obtain ⟨h1, h2, h3⟩ := hc
    show 0 ≤ (s.height / 12) * (s.width / 12)
    positivity
  | fixCorner s =>
    obtain ⟨h1, h2, h3⟩ := hc
    show 0 ≤ (s.h / 12) * ((s.wl + s.wr) / 12)
    positivity
  | slideCorner s =>
    obtain ⟨h1, h2, h3⟩ := hc
    show 0 ≤ (s.height / 12) * ((s.wl + s.wr) / 12)
    positivity

/-- Witness for C10: a 48 by 36 FixCornerWindow with a 24 in right wing has positive
dimensions and a non-negative area. -/
theorem C10_area_witness :
    DimensionsPositive (FrameComponent.fixCorner { h := 48, wl := 36, wr := 24 })
    ∧ 0 ≤ (FrameComponent.fixCorner { h := 48, wl := 36, wr := 24 }).getArea := by
  have hd : DimensionsPositive (FrameComponent.fixCorner { h := 48, wl := 36, wr := 24 }) := by
    simp [DimensionsPositive]
  exact ⟨hd, C10_area.2.2.2.2.2.2.2.2.2.2 _ hd⟩

/-! ## C11: the factory -/

/-- C11. `createComponent(type)` yields a component if and only if 1 <= type <= 14;
for every other integer selector (0, negative, 15 and above) it yields no component. -/
theorem C11_factory_range (type : ℤ) :
    ((createComponent type).isSome = true ↔ 1 ≤ type ∧ type ≤ 14)
    ∧ (createComponent type = none ↔ type < 1 ∨ 14 < type)
    ∧ createComponent 0 = none ∧ createComponent (-1) = none ∧ createComponent 15 = none := by
  have key : (createComponent type).isSome = true ↔ 1 ≤ type ∧ type ≤ 14 := by
    constructor
    · intro h
      by_contra hc
      have hne : type ≠ 1 ∧ type ≠ 2 ∧ type ≠ 3 ∧ type ≠ 4 ∧ type ≠ 5 ∧ type ≠ 6 ∧ type ≠ 7
          ∧ type ≠ 8 ∧ type ≠ 9 ∧ type ≠ 10 ∧ type ≠ 11 ∧ type ≠ 12 ∧ type ≠ 13 ∧ type ≠ 14 := by
        omega
      obtain ⟨h1, h2, h3, h4, h5, h6, h7, h8, h9, h10, h11, h12, h13, h14⟩ := hne
      simp [createComponent, h1, h2, h3, h4, h5, h6, h7, h8, h9, h10, h11, h12, h13, h14] at h
    · rintro ⟨h1, h2⟩
      interval_cases type <;> simp [createComponent]
  refine ⟨key, ?_, by simp [createComponent], by simp [createComponent],
    by simp [createComponent]⟩
  rw [← Option.not_isSome_iff_eq_none, key]
  omega

/-! ## C12: selectors 13 and 14 -/

theorem createComponent_13 :
    createComponent 13
      = some (.slideCorner { includeD29 := true, sec30 := "DC30", sec26 := "DC26" }) := by
  simp [createComponent]

theorem createComponent_14 :
    createComponent 14
      = some (.slideCorner { includeD29 := false, sec30 := "M30", sec26 := "M26" }) := by
  simp [createComponent]

theorem mSeriesName_values :
    mSeriesName "DC30F" = "M30F" ∧ mSeriesName "DC30A" = "M30A"
    ∧ mSeriesName "DC26F" = "M26F" ∧ mSeriesName "DC26A" = "M26A"
    ∧ mSeriesName "D29" = "D29" ∧ mSeriesName "M23" = "M23"
    ∧ mSeriesName "M24" = "M24" ∧ mSeriesName "M28" = "M28" := by
  refine ⟨?_, ?_, ?_, ?_, ?_, ?_, ?_, ?_⟩ <;>
    simp +decide [mSeriesName, withLeading, List.isPrefixOf]

/-- C12 (counterexample). With subtype 1, collar style on, height 48, widths 36 and 24,
the window of selector 13 has six entries (D29 among them) and the window of
selector 14 has five: its map is not the renamed map of selector 13. -/
theorem C12_selector14_has_no_d29 :
    ∃ a b : SlideCornerWindow,
      createComponent 13 = some (.slideCorner a)
      ∧ createComponent 14 = some (.slideCorner b)
      ∧ (a.inputDimensions 1 true 48 36 24 0).getRequiredSections.length = 6
      ∧ (b.inputDimensions 1 true 48 36 24 0).getRequiredSections.length = 5
      ∧ mapAt (a.inputDimensions 1 true 48 36 24 0).getRequiredSections "D29" = some 120
      ∧ mapAt (b.inputDimensions 1 true 48 36 24 0).getRequiredSections "D29" = none
      ∧ (b.inputDimensions 1 true 48 36 24 0).getRequiredSections
          ≠ mapRename mSeriesName (a.inputDimensions 1 true 48 36 24 0).getRequiredSections := by
  refine ⟨_, _, createComponent_13, createComponent_14, ?_, ?_, ?_, ?_, ?_⟩
  · simp +decide [SlideCornerWindow.inputDimensions, SlideCornerWindow.getRequiredSections,
      assigns, mapAssign]
  · simp +decide [SlideCornerWindow.inputDimensions, SlideCornerWindow.getRequiredSections,
      assigns, mapAssign]
  · simp +decide [SlideCornerWindow.inputDimensions, SlideCornerWindow.getRequiredSections,
      assigns, mapAt_mapAssign, mapAt]
    norm_num
  · simp +decide [SlideCornerWindow.inputDimensions, SlideCornerWindow.getRequiredSections,
      assigns, mapAt_mapAssign, mapAt]
  · intro h
    have := congrArg List.length h
    simp +decide [SlideCornerWindow.inputDimensions, SlideCornerWindow.getRequiredSections,
      assigns, mapAssign, mapRename, mSeriesName, withLeading, List.isPrefixOf] at this

set_option maxHeartbeats 1000000 in
/-- C12 (amended). For the same subtype in 1..5, collar-style flag, height, left width,
right width and custom D29 width, the section map of the component created by
selector 14 is the section map of the component created by selector 13 without its
D29 entry and with the prefixes DC30/DC26 replaced by M30/M26: one entry fewer, the
same lengths for the entries kept. -/
theorem C12_selector14_renames_and_drops_d29 (sub : ℤ) (uc : Bool) (h wl wr d : ℚ)
    (hsub : 1 ≤ sub ∧ sub ≤ 5) :
    ∃ a b : SlideCornerWindow,
      createComponent 13 = some (.slideCorner a)
      ∧ createComponent 14 = some (.slideCorner b)
      ∧ (b.inputDimensions sub uc h wl wr d).getRequiredSections
          = mapRename mSeriesName
              (mapErase (a.inputDimensions sub uc h wl wr d).getRequiredSections "D29")
      ∧ (b.inputDimensions sub uc h wl wr d).getRequiredSections.length + 1
          = (a.inputDimensions sub uc h wl wr d).getRequiredSections.length := by
  obtain ⟨h1, h2⟩ := hsub
  refine ⟨_, _, createComponent_13, createComponent_14, ?_, ?_⟩
  · interval_cases sub <;> cases uc <;>
      simp +decide [SlideCornerWindow.inputDimensions, SlideCornerWindow.getRequiredSections,
        assigns, mapAssign, mapRename, mapErase, mSeriesName, withLeading, List.isPrefixOf]
  · interval_cases sub <;> cases uc <;>
      simp +decide [SlideCornerWindow.inputDimensions, SlideCornerWindow.getRequiredSections,
        assigns, mapAssign]

/-- Witness for C12 (amended): subtype 4 with collar style, 48 high, wings 36 and 24,
custom D29 width 10. -/
theorem C12_selector14_renames_and_drops_d29_witness :
    ∃ a b : SlideCornerWindow,
      createComponent 13 = some (.slideCorner a)
      ∧ createComponent 14 = some (.slideCorner b)
      ∧ (b.inputDimensions 4 true 48 36 24 10).getRequiredSections
          = mapRename mSeriesName
              (mapErase (a.inputDimensions 4 true 48 36 24 10).getRequiredSections "D29")
      ∧ (b.inputDimensions 4 true 48 36 24 10).getRequiredSections.length + 1
          = (a.inputDimensions 4 true 48 36 24 10).getRequiredSections.length :=
  C12_selector14_renames_and_drops_d29 4 true 48 36 24 10 ⟨by decide, by decide⟩

/-! ## C13: collar types outside the valid range -/

theorem ne_of_outside_14 (c : ℤ) (hc : c < 1 ∨ 14 < c) :
    c ≠ 1 ∧ c ≠ 2 ∧ c ≠ 3 ∧ c ≠ 4 ∧ c ≠ 5 ∧ c ≠ 6 ∧ c ≠ 7 ∧ c ≠ 8 ∧ c ≠ 9 ∧ c ≠ 10
      ∧ c ≠ 11 ∧ c ≠ 12 ∧ c ≠ 13 ∧ c ≠ 14 := by
  omega

theorem ne_of_outside_8 (c : ℤ) (hc : c < 1 ∨ 8 < c) :
    c ≠ 1 ∧ c ≠ 2 ∧ c ≠ 3 ∧ c ≠ 4 ∧ c ≠ 5 ∧ c ≠ 6 ∧ c ≠ 7 ∧ c ≠ 8 := by
  omega

/-- C13. A collar type outside the shape's valid range (outside 1..14 for
FlexiblePanelWindow, ThreePanel_3glass, FixWindow and OpenableWindow; outside 1..8
for DoorWindow and QadialArchWindow) makes getRequiredSections return exactly the
common and flag-selected rows and no collar-specific key: M23, M28, M24 (and D29
when enabled) for the panel shapes, D41 (and D52, respectively D40, with a tee) for
FixWindow and QadialArchWindow, D50 (and D29 with a net) for OpenableWindow, D50 (and
D46, D52 when enabled) for DoorWindow. -/
theorem C13_out_of_range_collar :
    (∀ s : FlexiblePanelWindow, (s.collerType < 1 ∨ 14 < s.collerType) →
      s.getRequiredSections
        = if s.includeD29 = true then
            [("D29", s.height * 2 + s.width), ("M23", s.height * 2), ("M24", s.width * 2),
              ("M28", s.height * 2)]
          else [("M23", s.height * 2), ("M24", s.width * 2), ("M28", s.height * 2)])
    ∧ (∀ s : ThreePanel_3glass, (s.collerType < 1 ∨ 14 < s.collerType) →
      s.getRequiredSections
        = (if s.includeD29 = true ∧ s.net = 1 then [("D29", (s.height + s.width / 3) * 2)]
           else if s.includeD29 = true ∧ s.net = 2 then [("D29", s.height * 4 + s.width)]
           else if s.includeD29 = true ∧ s.net = 3 then
             [("D29", s.height * 2 + s.netwidth * 2)]
           else if s.includeD29 = true ∧ s.net = 4 then
             [("D29", s.height * 4 + s.netwidth * 4)]
           else [])
          ++ [("M23", s.height * 2), ("M24", s.width * 2), ("M28", s.height * 4)])
    ∧ (∀ s : FixWindow, (s.collerType < 1 ∨ 14 < s.collerType) →
      s.getRequiredSections
        = if s.includeTee = true then
            [("D41", (s.height + s.width) * 2 + s.tee * 2), ("D52", s.tee)]
          else [("D41", (s.height + s.width) * 2)])
    ∧ (∀ s : OpenableWindow, (s.collerType < 1 ∨ 14 < s.collerType) →
      s.getRequiredSections
        = if s.hasNet = true then
            [("D29", (s.height + s.width) * 2), ("D50", (s.height + s.width) * 2)]
          else [("D50", (s.height + s.width) * 2)])
    ∧ (∀ s : DoorWindow, (s.collerType < 1 ∨ 8 < s.collerType) →
      s.getRequiredSections
        = (if s.includeD46 = true then
             [("D46", s.width),
               ("D50", if s.isDouble = true then s.height * 4 + s.width
                       else s.height * 2 + s.width)]
           else
             [("D50", if s.isDouble = true then s.height * 4 + s.width * 2
                      else (s.height + s.width) * 2)])
          ++ (if s.includeTee = true then [("D52", s.tee)] else []))
    ∧ (∀ s : QadialArchWindow, (s.collerType < 1 ∨ 8 < s.collerType) →
      s.getRequiredSections
        = if s.includeTee = true then
            [("D40", s.T), ("D41", (s.height + s.width) * 2 + s.T * 2)]
          else [("D41", (s.height + s.width) * 2)]) := by
  refine ⟨?_, ?_, ?_, ?_, ?_, ?_⟩
  · intro s hc
    obtain ⟨h1, h2, h3, h4, h5, h6, h7, h8, h9, h10, h11, h12, h13, h14⟩ :=
      ne_of_outside_14 _ hc
    cases hd : s.includeD29 <;>
      simp +decide [FlexiblePanelWindow.getRequiredSections, assigns, mapAssign, hd,
        h1, h2, h3, h4, h5, h6, h7, h8, h9, h10, h11, h12, h13, h14]
  · intro s hc
    obtain ⟨h1, h2, h3, h4, h5, h6, h7, h8, h9, h10, h11, h12, h13, h14⟩ :=
      ne_of_outside_14 _ hc
    cases hd : s.includeD29
    · simp +decide [ThreePanel_3glass.getRequiredSections, assigns, mapAssign, hd,
        h1, h2, h3, h4, h5, h6, h7, h8, h9, h10, h11, h12, h13, h14]
    · by_cases n1 : s.net = 1
      · simp +decide [ThreePanel_3glass.getRequiredSections, assigns, mapAssign, hd, n1,
          h1, h2, h3, h4, h5, h6, h7, h8, h9, h10, h11, h12, h13, h14]
      · by_cases n2 : s.net = 2
        · simp +decide [ThreePanel_3glass.getRequiredSections, assigns, mapAssign, hd, n2,
            h1, h2, h3, h4, h5, h6, h7, h8, h9, h10, h11, h12, h13, h14]
        · by_cases n3 : s.net = 3
          · simp +decide [ThreePanel_3glass.getRequiredSections, assigns, mapAssign, hd, n3,
              h1, h2, h3, h4, h5, h6, h7, h8, h9, h10, h11, h12, h13, h14]
          · by_cases n4 : s.net = 4
            · simp +decide [ThreePanel_3glass.getRequiredSections, assigns, mapAssign, hd,
                n4, h1, h2, h3, h4, h5, h6, h7, h8, h9, h10, h11, h12, h13, h14]
            · simp +decide [ThreePanel_3glass.getRequiredSections, assigns, mapAssign, hd,
                n1, n2, n3, n4, h1, h2, h3, h4, h5, h6, h7, h8, h9, h10, h11, h12, h13, h14]
  · intro s hc
    obtain ⟨h1, h2, h3, h4, h5, h6, h7, h8, h9, h10, h11, h12, h13, h14⟩ :=
      ne_of_outside_14 _ hc
    cases hd : s.includeTee <;>
      simp +decide [FixWindow.getRequiredSections, assigns, mapAssign, hd,
        h1, h2, h3, h4, h5, h6, h7, h8, h9, h10, h11, h12, h13, h14]
  · intro s hc
    obtain ⟨h1, h2, h3, h4, h5, h6, h7, h8, h9, h10, h11, h12, h13, h14⟩ :=
      ne_of_outside_14 _ hc
    cases hd : s.hasNet <;>
      simp +decide [OpenableWindow.getRequiredSections, assigns, mapAssign, hd,
        h1, h2, h3, h4, h5, h6, h7, h8, h9, h10, h11, h12, h13, h14]
  · intro s hc
    obtain ⟨h1, h2, h3, h4, h5, h6, h7, h8⟩ := ne_of_outside_8 _ hc
    cases hd : s.includeD46 <;> cases ht : s.includeTee <;>
      simp +decide [DoorWindow.getRequiredSections, assigns, mapAssign, hd, ht,
        h1, h2, h3, h4, h5, h6, h7, h8]
  · intro s hc
    obtain ⟨h1, h2, h3, h4, h5, h6, h7, h8⟩ := ne_of_outside_8 _ hc
    cases hd : s.includeTee <;>
      simp +decide [QadialArchWindow.getRequiredSections, assigns, mapAssign, hd,
        h1, h2, h3, h4, h5, h6, h7, h8]

/-- Witness for C13: a DoorWindow with collar type 9, bottom rail and tee. -/
theorem C13_out_of_range_collar_witness :
    DoorWindow.getRequiredSections
        { height := 80, width := 36, tee := 30, collerType := 9, includeD46 := true,
          includeTee := true, isDouble := false }
      = [("D46", 36), ("D50", 80 * 2 + 36), ("D52", 30)] := by
  have h := C13_out_of_range_collar.2.2.2.2.1
    { height := 80, width := 36, tee := 30, collerType := 9, includeD46 := true,
      includeTee := true, isDouble := false } (Or.inr (by decide))
  simpa using h

/-! ## Lemmas on `std::set<string>` and the batch loops -/

theorem mem_setInsert (l : List String) (k x : String) :
    x ∈ setInsert l k ↔ x = k ∨ x ∈ l := by
  induction l with
  | nil => simp [setInsert]
  | cons k' rest ih =>
    unfold setInsert
    by_cases h1 : k < k'
    · simp [h1]
    · by_cases h2 : k = k'
      · subst h2; simp [h1]
      · simp [h1, h2, ih]
        tauto

theorem sorted_setInsert (l : List String) (k : String) (hl : l.Pairwise (· < ·)) :
    (setInsert l k).Pairwise (· < ·) := by
  induction l with
  | nil => simp [setInsert]
  | cons k' rest ih =>
    have hl' := List.pairwise_cons.1 hl
    unfold setInsert
    by_cases h1 : k < k'
    · simp only [h1, if_true]
      refine List.pairwise_cons.2 ⟨?_, hl⟩
      intro x hx
      rcases List.mem_cons.1 hx with rfl | hx
      · exact h1
      · exact lt_trans h1 (hl'.1 x hx)
    · by_cases h2 : k = k'
      · subst h2
        simp only [h1, if_false, if_true]; exact hl
      · simp only [h1, h2, if_false]
        have h3 : k' < k := lt_of_le_of_ne (not_lt.1 h1) (Ne.symm h2)
        refine List.pairwise_cons.2 ⟨?_, ih hl'.2⟩
        intro x hx
        rcases (mem_setInsert rest k x).1 hx with rfl | hx
        · exact h3
        · exact hl'.1 x hx

/-- Inserting the keys of one section map. -/
theorem mem_insertKeys (secs : SectionMap) (needed : List String) (x : String) :
    x ∈ secs.foldl (fun acc s => setInsert acc s.1) needed ↔ x ∈ needed ∨ x ∈ mapKeys secs := by
  induction secs generalizing needed with
  | nil => simp [mapKeys]
  | cons s rest ih =>
    simp only [List.foldl_cons, ih, mem_setInsert, mapKeys, List.map_cons, List.mem_cons]
    simp only [mapKeys] at ih
    tauto

theorem sorted_insertKeys (secs : SectionMap) (needed : List String)
    (hn : needed.Pairwise (· < ·)) :
    (secs.foldl (fun acc s => setInsert acc s.1) needed).Pairwise (· < ·) := by
  induction secs generalizing needed with
  | nil => simpa using hn
  | cons s rest ih =>
    simp only [List.foldl_cons]
    exact ih _ (sorted_setInsert needed s.1 hn)

theorem mem_batchFold (batch : List FrameComponent) (needed : List String) (x : String) :
    x ∈ batch.foldl
        (fun needed win =>
          win.getRequiredSections.foldl (fun acc s => setInsert acc s.1) needed) needed
      ↔ x ∈ needed ∨ ∃ c ∈ batch, x ∈ mapKeys c.getRequiredSections := by
  induction batch generalizing needed with
  | nil => simp
  | cons c rest ih =>
    simp only [List.foldl_cons, ih, mem_insertKeys, List.mem_cons, exists_eq_or_imp]
    tauto

theorem sorted_batchFold (batch : List FrameComponent) (needed : List String)
    (hn : needed.Pairwise (· < ·)) :
    (batch.foldl
        (fun needed win =>
          win.getRequiredSections.foldl (fun acc s => setInsert acc s.1) needed)
        needed).Pairwise (· < ·) := by
  induction batch generalizing needed with
  | nil => simpa using hn
  | cons c rest ih =>
    simp only [List.foldl_cons]
    exact ih _ (sorted_insertKeys _ needed hn)

theorem mem_neededSections (batch : List FrameComponent) (x : String) :
    x ∈ neededSections batch ↔ ∃ c ∈ batch, x ∈ mapKeys c.getRequiredSections := by
  unfold neededSections
  rw [mem_batchFold]
  simp

theorem sorted_neededSections (batch : List FrameComponent) :
    (neededSections batch).Pairwise (· < ·) :=
  sorted_batchFold batch [] List.Pairwise.nil

/-- Two strictly increasing lists with the same members are equal. -/
theorem sorted_ext (l₁ l₂ : List String) (h₁ : l₁.Pairwise (· < ·)) (h₂ : l₂.Pairwise (· < ·))
    (h : ∀ x, x ∈ l₁ ↔ x ∈ l₂) : l₁ = l₂ := by
  have n₁ : l₁.Nodup := h₁.imp (fun hab => ne_of_lt hab)
  have n₂ : l₂.Nodup := h₂.imp (fun hab => ne_of_lt hab)
  have hp : l₁.Perm l₂ := (List.perm_ext_iff_of_nodup n₁ n₂).2 h
  exact List.eq_of_perm_of_sorted hp h₁ h₂

theorem neededSections_congr (b₁ b₂ : List FrameComponent) (h : ∀ c, c ∈ b₁ ↔ c ∈ b₂) :
    neededSections b₁ = neededSections b₂ := by
  apply sorted_ext _ _ (sorted_neededSections b₁) (sorted_neededSections b₂)
  intro x
  rw [mem_neededSections, mem_neededSections]
  constructor
  · rintro ⟨c, hc, hx⟩; exact ⟨c, (h c).1 hc, hx⟩
  · rintro ⟨c, hc, hx⟩; exact ⟨c, (h c).2 hc, hx⟩

/-! ## C14: the batch requirement set -/

/-- C14. The set `neededSections` built by `main` for a batch holds exactly the
section names of the batch's instances (the union of their key sets); it does not
depend on the order of the instances, and repeating an instance of the batch does
not change it. -/
theorem C14_needed_sections_union :
    (∀ (batch : List FrameComponent) (x : String),
      x ∈ neededSections batch ↔ ∃ c ∈ batch, x ∈ mapKeys c.getRequiredSections)
    ∧ (∀ batch : List FrameComponent, (neededSections batch).Pairwise (· < ·))
    ∧ (∀ b₁ b₂ : List FrameComponent, b₁.Perm b₂ → neededSections b₁ = neededSections b₂)
    ∧ (∀ (batch : List FrameComponent) (c : FrameComponent), c ∈ batch →
        neededSections (c :: batch) = neededSections batch
        ∧ neededSections (batch ++ [c]) = neededSections batch) := by
  refine ⟨mem_neededSections, sorted_neededSections, ?_, ?_⟩
  · intro b₁ b₂ hp
    exact neededSections_congr b₁ b₂ (fun c => hp.mem_iff)
  · intro batch c hc
    constructor
    · apply neededSections_congr
      intro d
      simp only [List.mem_cons]
      constructor
      · rintro (rfl | hd)
        · exact hc
        · exact hd
      · intro hd; exact Or.inr hd
    · apply neededSections_congr
      intro d
      simp only [List.mem_append, List.mem_singleton]
      constructor
      · rintro (hd | rfl)
        · exact hd
        · exact hc
      · intro hd; exact Or.inl hd

/-- Witness for C14: a two-window batch in both orders. -/
theorem C14_needed_sections_union_witness :
    neededSections [FrameComponent.flexiblePanel scenarioWindow,
        FrameComponent.fixWindow { height := 48, width := 36, collerType := 2 }]
      = neededSections [FrameComponent.fixWindow { height := 48, width := 36, collerType := 2 },
          FrameComponent.flexiblePanel scenarioWindow] :=
  C14_needed_sections_union.2.2.1 _ _ (List.Perm.swap _ _ _)

/-! ## C15: the rate table of a batch -/

/-- Assigning a key above every key of the map appends the entry. -/
theorem mapAssign_append_of_lt (m : SectionMap) (k : String) (v : ℚ)
    (h : ∀ x ∈ mapKeys m, x < k) : mapAssign m k v = m ++ [(k, v)] := by
  induction m with
  | nil => simp [mapAssign]
  | cons e rest ih =>
    obtain ⟨k', v'⟩ := e
    have hk : k' < k := h k' (by simp [mapKeys])
    have hrest : ∀ x ∈ mapKeys rest, x < k := by
      intro x hx
      apply h
      simp only [mapKeys, List.map_cons, List.mem_cons]
      exact Or.inr hx
    unfold mapAssign
    rw [if_neg (not_lt.2 hk.le), if_neg (ne_of_gt hk), ih hrest]
    rfl

/-- Reading the rates of an increasing run of names above the keys already present
appends one entry per name, in order. -/
theorem mapKeys_readRates (needed : List String) (input : ℕ → ℚ) (rates : SectionMap)
    (h : (mapKeys rates ++ needed).Pairwise (· < ·)) :
    mapKeys (readRates needed input rates) = mapKeys rates ++ needed := by
  induction needed generalizing input rates with
  | nil => simp [readRates]
  | cons k rest ih =>
    have hk : ∀ x ∈ mapKeys rates, x < k := by
      intro x hx
      exact (List.pairwise_append.1 h).2.2 x hx k (List.mem_cons_self _ _)
    unfold readRates
    rw [mapAssign_append_of_lt rates k (input 0) hk]
    have e : mapKeys (rates ++ [(k, input 0)]) = mapKeys rates ++ [k] := by
      simp [mapKeys]
    rw [ih, e, List.append_assoc]
    · rfl
    · rw [e, List.append_assoc]
      exact h

theorem mapKeys_batchRates (batch : List FrameComponent) (input : ℕ → ℚ) :
    mapKeys (batchRates batch input) = neededSections batch := by
  unfold batchRates
  rw [mapKeys_readRates]
  · simp [mapKeys]
  · simpa [mapKeys] using sorted_neededSections batch

theorem mapAt_of_mem_mapKeys (m : SectionMap) (k : String) (h : k ∈ mapKeys m) :
    ∃ r, mapAt m k = some r := by
  induction m with
  | nil => simp [mapKeys] at h
  | cons e rest ih =>
    obtain ⟨k', v'⟩ := e
    by_cases hk : k = k'
    · exact ⟨v', by simp [mapAt, hk]⟩
    · have : k ∈ mapKeys rest := by
        simp only [mapKeys, List.map_cons, List.mem_cons] at h
        rcases h with h | h
        · exact absurd h hk
        · exact h
      obtain ⟨r, hr⟩ := ih this
      exact ⟨r, by simp [mapAt, hk, hr]⟩

theorem batchRates_complete (batch : List FrameComponent) (input : ℕ → ℚ)
    (c : FrameComponent) (hc : c ∈ batch) :
    RatesComplete (batchRates batch input) c.getRequiredSections := by
  intro e he
  apply mapAt_of_mem_mapKeys
  rw [mapKeys_batchRates, mem_neededSections]
  exact ⟨c, hc, List.mem_map_of_mem Prod.fst he⟩

/-- C15. In the batch protocol of `main` the rate table handed to calculateTotalPrice
has exactly the names of the batch requirement set as keys, in set order, each name
once (one rate is read per name); so for every instance of the batch every section
name of its section map has a rate, calculateTotalPrice returns (the `rates.at`
lookup never throws) and no missing-rate message is written, for any shape. -/
theorem C15_batch_rates_complete (batch : List FrameComponent) (input : ℕ → ℚ) :
    mapKeys (batchRates batch input) = neededSections batch
    ∧ (neededSections batch).Nodup
    ∧ (batchRates batch input).length = (neededSections batch).length
    ∧ ∀ c ∈ batch,
        (∀ e ∈ c.getRequiredSections, ∃ r, mapAt (batchRates batch input) e.1 = some r)
        ∧ ∃ (total : ℚ) (out : List Output),
            c.calculateTotalPrice (batchRates batch input) = some (total, out)
            ∧ ∀ n : String, Output.missing n ∉ out := by
  refine ⟨mapKeys_batchRates batch input,
    (sorted_neededSections batch).imp (fun hab => ne_of_lt hab), ?_, ?_⟩
  · have := congrArg List.length (mapKeys_batchRates batch input)
    simpa [mapKeys] using this
  · intro c hc
    have hcomp := batchRates_complete batch input c hc
    refine ⟨hcomp, _, _, calculateTotalPrice_complete c _ hcomp, ?_⟩
    intro n hn
    rw [outputs_of_complete _ _ _ hcomp] at hn
    simp at hn

/-- Witness for C15: the one-window batch of the scenario, every prompt answered 50. -/
theorem C15_batch_rates_complete_witness :
    FrameComponent.flexiblePanel scenarioWindow ∈ [FrameComponent.flexiblePanel scenarioWindow]
    ∧ ∃ (total : ℚ) (out : List Output),
        (FrameComponent.flexiblePanel scenarioWindow).calculateTotalPrice
            (batchRates [FrameComponent.flexiblePanel scenarioWindow] (fun _ => 50))
          = some (total, out)
        ∧ ∀ n : String, Output.missing n ∉ out :=
  ⟨List.mem_singleton.2 rfl,
    ((C15_batch_rates_complete [FrameComponent.flexiblePanel scenarioWindow]
      (fun _ => 50)).2.2.2 _ (List.mem_singleton.2 rfl)).2⟩

/-! ## More lemmas on lookups -/

theorem mapAt_ite (c : Prop) [Decidable c] (a b : SectionMap) (q : String) :
    mapAt (if c then a else b) q = if c then mapAt a q else mapAt b q := by
  split <;> rfl

theorem mapAt_nil (q : String) : mapAt [] q = none := rfl

/-! ## C16: M-series names of FlexiblePanelWindow -/

/-- C16 (counterexample). With the M-series flag set, collar type 2 (48 by 36) names
its two coupled sections `M30` and `M26`: there is no `M30C` and no `M26C` entry. -/
theorem C16_coupled_alias_has_no_suffix :
    FlexiblePanelWindow.sec { useMSeriesSections := true } "DC30C" = "M30"
    ∧ FlexiblePanelWindow.sec { useMSeriesSections := true } "DC26C" = "M26"
    ∧ FlexiblePanelWindow.getRequiredSections
        { height := 48, width := 36, collerType := 2, includeD29 := false,
          useMSeriesSections := true }
      = [("M23", 96), ("M24", 72), ("M26", 36), ("M28", 96), ("M30", 132)]
    ∧ mapAt (FlexiblePanelWindow.getRequiredSections
        { height := 48, width := 36, collerType := 2, includeD29 := false,
          useMSeriesSections := true }) "M30C" = none
    ∧ mapAt (FlexiblePanelWindow.getRequiredSections
        { height := 48, width := 36, collerType := 2, includeD29 := false,
          useMSeriesSections := true }) "M26C" = none := by
  refine ⟨by simp [FlexiblePanelWindow.sec], by simp [FlexiblePanelWindow.sec], ?_, ?_, ?_⟩
  · simp +decide [FlexiblePanelWindow.getRequiredSections, FlexiblePanelWindow.sec, assigns,
      mapAssign]
    norm_num
  · simp [FlexiblePanelWindow.getRequiredSections, FlexiblePanelWindow.sec, assigns,
      mapAt_mapAssign, mapAt]
  · simp [FlexiblePanelWindow.getRequiredSections, FlexiblePanelWindow.sec, assigns,
      mapAt_mapAssign, mapAt]

set_option maxHeartbeats 4000000 in
/-- C16 (amended). When the M-series flag is set, FlexiblePanelWindow names each
collar-specific section, for every collar type 1..14, M30F in place of DC30F, M26F
in place of DC26F, M30 in place of DC30C and M26 in place of DC26C (the coupled
sections carry no suffix), with the same presence and length; no DC-prefixed name
and no M30C or M26C remains. -/
theorem C16_m_series_names (c : ℤ) (h w : ℚ) (d29 : Bool) (hc : 1 ≤ c ∧ c ≤ 14) :
    mapAt (FlexiblePanelWindow.getRequiredSections
        { height := h, width := w, collerType := c, includeD29 := d29,
          useMSeriesSections := true }) "M30F"
      = mapAt (FlexiblePanelWindow.getRequiredSections
        { height := h, width := w, collerType := c, includeD29 := d29,
          useMSeriesSections := false }) "DC30F"
    ∧ mapAt (FlexiblePanelWindow.getRequiredSections
        { height := h, width := w, collerType := c, includeD29 := d29,
          useMSeriesSections := true }) "M26F"
      = mapAt (FlexiblePanelWindow.getRequiredSections
        { height := h, width := w, collerType := c, includeD29 := d29,
          useMSeriesSections := false }) "DC26F"
    ∧ mapAt (FlexiblePanelWindow.getRequiredSections
        { height := h, width := w, collerType := c, includeD29 := d29,
          useMSeriesSections := true }) "M30"
      = mapAt (FlexiblePanelWindow.getRequiredSections
        { height := h, width := w, collerType := c, includeD29 := d29,
          useMSeriesSections := false }) "DC30C"
    ∧ mapAt (FlexiblePanelWindow.getRequiredSections
        { height := h, width := w, collerType := c, includeD29 := d29,
          useMSeriesSections := true }) "M26"
      = mapAt (FlexiblePanelWindow.getRequiredSections
        { height := h, width := w, collerType := c, includeD29 := d29,
          useMSeriesSections := false }) "DC26C"
    ∧ (∀ q ∈ ["DC30F", "DC30C", "DC26F", "DC26C", "M30C", "M26C"],
        mapAt (FlexiblePanelWindow.getRequiredSections
          { height := h, width := w, collerType := c, includeD29 := d29,
            useMSeriesSections := true }) q = none) := by
  obtain ⟨h1, h2⟩ := hc
  refine ⟨?_, ?_, ?_, ?_, ?_⟩
  · interval_cases c <;> cases d29 <;>
      simp [FlexiblePanelWindow.getRequiredSections, FlexiblePanelWindow.sec, assigns,
        mapAt_mapAssign, mapAt]
  · interval_cases c <;> cases d29 <;>
      simp [FlexiblePanelWindow.getRequiredSections, FlexiblePanelWindow.sec, assigns,
        mapAt_mapAssign, mapAt]
  · interval_cases c <;> cases d29 <;>
      simp [FlexiblePanelWindow.getRequiredSections, FlexiblePanelWindow.sec, assigns,
        mapAt_mapAssign, mapAt]
  · interval_cases c <;> cases d29 <;>
      simp [FlexiblePanelWindow.getRequiredSections, FlexiblePanelWindow.sec, assigns,
        mapAt_mapAssign, mapAt]
  · intro q hq
    simp only [List.mem_cons, List.mem_singleton, List.not_mem_nil, or_false] at hq
    rcases hq with rfl | rfl | rfl | rfl | rfl | rfl <;> interval_cases c <;> cases d29 <;>
      simp [FlexiblePanelWindow.getRequiredSections, FlexiblePanelWindow.sec, assigns,
        mapAt_mapAssign, mapAt]

/-- Witness for C16 (amended): collar type 2, 48 by 36, no D29. -/
theorem C16_m_series_names_witness :
    mapAt (FlexiblePanelWindow.getRequiredSections
        { height := 48, width := 36, collerType := 2, includeD29 := false,
          useMSeriesSections := true }) "M30"
      = mapAt (FlexiblePanelWindow.getRequiredSections
        { height := 48, width := 36, collerType := 2, includeD29 := false,
          useMSeriesSections := false }) "DC30C" :=
  (C16_m_series_names 2 48 36 false ⟨by decide, by decide⟩).2.2.1

/-! ## C17: the fixed auxiliary sections -/

/-- C17. The auxiliary sections are present for every integer collar type (and every
subtype and flag) and their lengths do not depend on it: FlexiblePanelWindow has
M23 = 2h, M28 = 2h, M24 = 2w; ThreePanel_3glass has M23 = 2h, M28 = 4h, M24 = 2w;
SlideCornerWindow has M23 = 4h for subtype 5 and 2h otherwise, M28 = 2h for subtypes
1 and 2 and 4h otherwise, and M24 = 2(wl + wr). -/
theorem C17_auxiliary_sections :
    (∀ s : FlexiblePanelWindow,
      mapAt s.getRequiredSections "M23" = some (s.height * 2)
      ∧ mapAt s.getRequiredSections "M28" = some (s.height * 2)
      ∧ mapAt s.getRequiredSections "M24" = some (s.width * 2))
    ∧ (∀ s : ThreePanel_3glass,
      mapAt s.getRequiredSections "M23" = some (s.height * 2)
      ∧ mapAt s.getRequiredSections "M28" = some (s.height * 4)
      ∧ mapAt s.getRequiredSections "M24" = some (s.width * 2))
    ∧ (∀ s : SlideCornerWindow,
      mapAt s.getRequiredSections "M23"
        = some (if s.subtype = 5 then s.height * 4 else s.height * 2)
      ∧ mapAt s.getRequiredSections "M28"
        = some (if s.subtype = 1 ∨ s.subtype = 2 then s.height * 2 else s.height * 4)
      ∧ mapAt s.getRequiredSections "M24" = some ((s.wl + s.wr) * 2)) := by
  refine ⟨?_, ?_, ?_⟩
  · intro s
    refine ⟨?_, ?_, ?_⟩ <;>
      simp [FlexiblePanelWindow.getRequiredSections, assigns, mapAt_mapAssign, mapAt_ite]
  · intro s
    refine ⟨?_, ?_, ?_⟩ <;>
      simp [ThreePanel_3glass.getRequiredSections, assigns, mapAt_mapAssign, mapAt_ite]
  · intro s
    refine ⟨?_, ?_, ?_⟩
    · simp only [SlideCornerWindow.getRequiredSections, assigns, List.foldl_cons,
        List.foldl_nil, mapAt_mapAssign]
      simp
    · simp only [SlideCornerWindow.getRequiredSections, assigns, List.foldl_cons,
        List.foldl_nil, mapAt_mapAssign]
      simp
    · simp only [SlideCornerWindow.getRequiredSections, assigns, List.foldl_cons,
        List.foldl_nil, mapAt_mapAssign]
      simp

/-! ## C18: the net section of ThreePanel_3glass -/

/-- A name built as prefix plus `F` or `C` is never `D29`. -/
theorem suffixed_ne_D29 (p : String) : p ++ "F" ≠ "D29" ∧ p ++ "C" ≠ "D29" := by
  constructor
  · intro h
    have h2 := congrArg (fun s : String => s.data.getLast?) h
    simp at h2
  · intro h
    have h2 := congrArg (fun s : String => s.data.getLast?) h
    simp at h2

/-- No collar row of ThreePanel_3glass is named `D29`, whatever the prefixes. -/
theorem threePanel_D29 (s : ThreePanel_3glass) :
    mapAt s.getRequiredSections "D29"
      = if s.includeD29 = true then
          if s.net = 1 then some ((s.height + s.width / 3) * 2)
          else if s.net = 2 then some (s.height * 4 + s.width)
          else if s.net = 3 then some (s.height * 2 + s.netwidth * 2)
          else if s.net = 4 then some (s.height * 4 + s.netwidth * 4)
          else none
        else none := by
  have hF : ¬ "D29" = s.prefix30 ++ "F" := fun h => (suffixed_ne_D29 s.prefix30).1 h.symm
  have hC : ¬ "D29" = s.prefix30 ++ "C" := fun h => (suffixed_ne_D29 s.prefix30).2 h.symm
  have hF' : ¬ "D29" = s.prefix26 ++ "F" := fun h => (suffixed_ne_D29 s.prefix26).1 h.symm
  have hC' : ¬ "D29" = s.prefix26 ++ "C" := fun h => (suffixed_ne_D29 s.prefix26).2 h.symm
  simp only [ThreePanel_3glass.getRequiredSections, assigns, List.foldl_cons, List.foldl_nil,
    mapAt_ite, mapAt_mapAssign, mapAt_nil, hF, hC, hF', hC', if_false, if_true, ite_self]
  simp

/-- C18. For ThreePanel_3glass with includeD29 set, the net section D29 is present
exactly when the net style code is in 1..4, with length 2(h + w/3) for style 1,
4h + w for style 2, 2h + 2n for style 3 and 4h + 4n for style 4 (n the custom net
width); with includeD29 unset, as selector 4 creates it, no D29 entry is produced
for any net style. -/
theorem C18_net_section (s : ThreePanel_3glass) :
    (s.includeD29 = true →
      (s.net = 1 → mapAt s.getRequiredSections "D29" = some (2 * (s.height + s.width / 3)))
      ∧ (s.net = 2 → mapAt s.getRequiredSections "D29" = some (4 * s.height + s.width))
      ∧ (s.net = 3 →
          mapAt s.getRequiredSections "D29" = some (2 * s.height + 2 * s.netwidth))
      ∧ (s.net = 4 →
          mapAt s.getRequiredSections "D29" = some (4 * s.height + 4 * s.netwidth))
      ∧ ((mapAt s.getRequiredSections "D29").isSome = true ↔ 1 ≤ s.net ∧ s.net ≤ 4))
    ∧ (s.includeD29 = false → mapAt s.getRequiredSections "D29" = none)
    ∧ (∃ b : ThreePanel_3glass,
        createComponent 4 = some (.threePanel3glass b) ∧ b.includeD29 = false) := by
  refine ⟨?_, ?_, ?_⟩
  · intro hd
    rw [threePanel_D29, if_pos hd]
    refine ⟨?_, ?_, ?_, ?_, ?_⟩
    · intro hn; rw [if_pos hn]; congr 1; ring
    · intro hn
      rw [if_neg (by omega), if_pos hn]; congr 1; ring
    · intro hn
      rw [if_neg (by omega), if_neg (by omega), if_pos hn]; congr 1; ring
    · intro hn
      rw [if_neg (by omega), if_neg (by omega), if_neg (by omega), if_pos hn]; congr 1; ring
    · constructor
      · intro h
        by_contra hc
        have h1 : s.net ≠ 1 := by omega
        have h2 : s.net ≠ 2 := by omega
        have h3 : s.net ≠ 3 := by omega
        have h4 : s.net ≠ 4 := by omega
        simp [h1, h2, h3, h4] at h
      · rintro ⟨h1, h2⟩
        have : s.net = 1 ∨ s.net = 2 ∨ s.net = 3 ∨ s.net = 4 := by omega
        rcases this with h | h | h | h <;> simp [h]
  · intro hd
    rw [threePanel_D29]
    simp [hd]
  · exact ⟨{ includeD29 := false, prefix30 := "M30", prefix26 := "M26" },
      by simp [createComponent], rfl⟩

/-- Witness for C18: net style 1 on a 48 by 36 window with D29. -/
theorem C18_net_section_witness :
    mapAt (ThreePanel_3glass.getRequiredSections
        { height := 48, width := 36, net := 1, includeD29 := true }) "D29"
      = some (2 * (48 + 36 / 3)) :=
  (C18_net_section { height := 48, width := 36, net := 1, includeD29 := true }).1 rfl |>.1 rfl

/-! ## C19: the bottom rail of DoorWindow -/

/-- C19. For DoorWindow, single or double, with includeD46 the map has D46 = w and
D50 = 2h + w (4h + w when double); without it D50 = 2h + 2w (4h + 2w when double)
and there is no D46; so D46 + D50 with the bottom rail equals D50 without it, and no
other entry changes. -/
theorem C19_bottom_rail (s : DoorWindow) :
    mapAt ({ s with includeD46 := true } : DoorWindow).getRequiredSections "D46"
      = some s.width
    ∧ mapAt ({ s with includeD46 := true } : DoorWindow).getRequiredSections "D50"
      = some (if s.isDouble = true then 4 * s.height + s.width else 2 * s.height + s.width)
    ∧ mapAt ({ s with includeD46 := false } : DoorWindow).getRequiredSections "D46" = none
    ∧ mapAt ({ s with includeD46 := false } : DoorWindow).getRequiredSections "D50"
      = some (if s.isDouble = true then 4 * s.height + 2 * s.width
              else 2 * s.height + 2 * s.width)
    ∧ (∃ d46 d50 d50' : ℚ,
        mapAt ({ s with includeD46 := true } : DoorWindow).getRequiredSections "D46" = some d46
        ∧ mapAt ({ s with includeD46 := true } : DoorWindow).getRequiredSections "D50" = some d50
        ∧ mapAt ({ s with includeD46 := false } : DoorWindow).getRequiredSections "D50"
            = some d50'
        ∧ d46 + d50 = d50')
    ∧ (∀ q : String, q ≠ "D46" → q ≠ "D50" →
        mapAt ({ s with includeD46 := true } : DoorWindow).getRequiredSections q
          = mapAt ({ s with includeD46 := false } : DoorWindow).getRequiredSections q) := by
  have a46 : mapAt ({ s with includeD46 := true } : DoorWindow).getRequiredSections "D46"
      = some s.width := by
    simp [DoorWindow.getRequiredSections, assigns, mapAt_mapAssign, mapAt_ite]
  have a50 : mapAt ({ s with includeD46 := true } : DoorWindow).getRequiredSections "D50"
      = some (if s.isDouble = true then 4 * s.height + s.width
              else 2 * s.height + s.width) := by
    cases hd : s.isDouble <;>
      simp [DoorWindow.getRequiredSections, assigns, mapAt_mapAssign, mapAt_ite, hd, mul_comm]
  have b46 : mapAt ({ s with includeD46 := false } : DoorWindow).getRequiredSections "D46"
      = none := by
    simp [DoorWindow.getRequiredSections, assigns, mapAt_mapAssign, mapAt_ite, mapAt_nil]
  have b50 : mapAt ({ s with includeD46 := false } : DoorWindow).getRequiredSections "D50"
      = some (if s.isDouble = true then 4 * s.height + 2 * s.width
              else 2 * s.height + 2 * s.width) := by
    cases hd : s.isDouble
    · simp [DoorWindow.getRequiredSections, assigns, mapAt_mapAssign, mapAt_ite, hd]
      ring
    · simp [DoorWindow.getRequiredSections, assigns, mapAt_mapAssign, mapAt_ite, hd, mul_comm]
  refine ⟨a46, a50, b46, b50, ⟨_, _, _, a46, a50, b50, ?_⟩, ?_⟩
  · split <;> ring
  · intro q h46 h50
    simp [DoorWindow.getRequiredSections, assigns, mapAt_mapAssign, mapAt_ite, h46, h50]

/-- Witness for C19: the D52 entry of a double door with a tee is the same with and
without the bottom rail. -/
theorem C19_bottom_rail_witness :
    mapAt (DoorWindow.getRequiredSections
        { height := 80, width := 36, tee := 30, collerType := 3, includeD46 := true,
          includeTee := true, isDouble := true }) "D52"
      = mapAt (DoorWindow.getRequiredSections
        { height := 80, width := 36, tee := 30, collerType := 3, includeD46 := false,
          includeTee := true, isDouble := true }) "D52" :=
  (C19_bottom_rail
    { height := 80, width := 36, tee := 30, collerType := 3, includeTee := true,
      isDouble := true }).2.2.2.2.2 "D52" (by decide) (by decide)

/-! ## C20: the tee -/

/-- C20. For FixWindow, RandomFixWindow, QadialArchWindow, RoundArchWindow and
FixCornerWindow, enabling the tee with length t adds the tee entry of length t (D52
for FixWindow and RandomFixWindow, D40 for the other three; absent without the tee),
increases the bead section D41 by exactly 2t, and leaves every other entry of the
section map unchanged. -/
theorem C20_tee :
    (∀ s : FixWindow,
      mapAt ({ s with includeTee := true } : FixWindow).getRequiredSections "D52" = some s.tee
      ∧ mapAt ({ s with includeTee := false } : FixWindow).getRequiredSections "D52" = none
      ∧ (∃ d : ℚ,
          mapAt ({ s with includeTee := false } : FixWindow).getRequiredSections "D41" = some d
          ∧ mapAt ({ s with includeTee := true } : FixWindow).getRequiredSections "D41"
              = some (d + 2 * s.tee))
      ∧ (∀ q : String, q ≠ "D52" → q ≠ "D41" →
          mapAt ({ s with includeTee := true } : FixWindow).getRequiredSections q
            = mapAt ({ s with includeTee := false } : FixWindow).getRequiredSections q))
    ∧ (∀ s : RandomFixWindow,
      mapAt ({ s with includeTee := true } : RandomFixWindow).getRequiredSections "D52"
        = some s.tee
      ∧ mapAt ({ s with includeTee := false } : RandomFixWindow).getRequiredSections "D52"
        = none
      ∧ (∃ d : ℚ,
          mapAt ({ s with includeTee := false } : RandomFixWindow).getRequiredSections "D41"
            = some d
          ∧ mapAt ({ s with includeTee := true } : RandomFixWindow).getRequiredSections "D41"
              = some (d + 2 * s.tee))
      ∧ (∀ q : String, q ≠ "D52" → q ≠ "D41" →
          mapAt ({ s with includeTee := true } : RandomFixWindow).getRequiredSections q
            = mapAt ({ s with includeTee := false } : RandomFixWindow).getRequiredSections q))
    ∧ (∀ s : QadialArchWindow,
      mapAt ({ s with includeTee := true } : QadialArchWindow).getRequiredSections "D40"
        = some s.T
      ∧ mapAt ({ s with includeTee := false } : QadialArchWindow).getRequiredSections "D40"
        = none
      ∧ (∃ d : ℚ,
          mapAt ({ s with includeTee := false } : QadialArchWindow).getRequiredSections "D41"
            = some d
          ∧ mapAt ({ s with includeTee := true } : QadialArchWindow).getRequiredSections "D41"
              = some (d + 2 * s.T))
      ∧ (∀ q : String, q ≠ "D40" → q ≠ "D41" →
          mapAt ({ s with includeTee := true } : QadialArchWindow).getRequiredSections q
            = mapAt ({ s with includeTee := false } : QadialArchWindow).getRequiredSections q))
    ∧ (∀ s : RoundArchWindow,
      mapAt ({ s with includeTee := true } : RoundArchWindow).getRequiredSections "D40"
        = some s.T
      ∧ mapAt ({ s with includeTee := false } : RoundArchWindow).getRequiredSections "D40"
        = none
      ∧ (∃ d : ℚ,
          mapAt ({ s with includeTee := false } : RoundArchWindow).getRequiredSections "D41"
            = some d
          ∧ mapAt ({ s with includeTee := true } : RoundArchWindow).getRequiredSections "D41"
              = some (d + 2 * s.T))
      ∧ (∀ q : String, q ≠ "D40" → q ≠ "D41" →
          mapAt ({ s with includeTee := true } : RoundArchWindow).getRequiredSections q
            = mapAt ({ s with includeTee := false } : RoundArchWindow).getRequiredSections q))
    ∧ (∀ s : FixCornerWindow,
      mapAt ({ s with includeTee := true } : FixCornerWindow).getRequiredSections "D40"
        = some s.T
      ∧ mapAt ({ s with includeTee := false } : FixCornerWindow).getRequiredSections "D40"
        = none
      ∧ (∃ d : ℚ,
          mapAt ({ s with includeTee := false } : FixCornerWindow).getRequiredSections "D41"
            = some d
          ∧ mapAt ({ s with includeTee := true } : FixCornerWindow).getRequiredSections "D41"
              = some (d + 2 * s.T))
      ∧ (∀ q : String, q ≠ "D40" → q ≠ "D41" →
          mapAt ({ s with includeTee := true } : FixCornerWindow).getRequiredSections q
            = mapAt ({ s with includeTee := false } : FixCornerWindow).getRequiredSections q)) := by
  refine ⟨?_, ?_, ?_, ?_, ?_⟩
  · intro s
    refine ⟨?_, ?_, ⟨(s.height + s.width) * 2, ?_, ?_⟩, ?_⟩
    · simp [FixWindow.getRequiredSections, assigns, mapAt_mapAssign, mapAt_ite]
    · simp [FixWindow.getRequiredSections, assigns, mapAt_mapAssign, mapAt_ite, mapAt_nil]
    · simp [FixWindow.getRequiredSections, assigns, mapAt_mapAssign, mapAt_ite]
    · simp [FixWindow.getRequiredSections, assigns, mapAt_mapAssign, mapAt_ite, mul_comm]
    · intro q h1 h2
      simp [FixWindow.getRequiredSections, assigns, mapAt_mapAssign, mapAt_ite, h1, h2]
  · intro s
    refine ⟨?_, ?_, ⟨s.length, ?_, ?_⟩, ?_⟩
    · simp [RandomFixWindow.getRequiredSections, assigns, mapAt_mapAssign, mapAt_ite]
    · simp [RandomFixWindow.getRequiredSections, assigns, mapAt_mapAssign, mapAt_ite, mapAt_nil]
    · simp [RandomFixWindow.getRequiredSections, assigns, mapAt_mapAssign, mapAt_ite]
    · simp [RandomFixWindow.getRequiredSections, assigns, mapAt_mapAssign, mapAt_ite, mul_comm]
    · intro q h1 h2
      simp [RandomFixWindow.getRequiredSections, assigns, mapAt_mapAssign, mapAt_ite, h1, h2]
  · intro s
    refine ⟨?_, ?_, ⟨(s.height + s.width) * 2, ?_, ?_⟩, ?_⟩
    · simp [QadialArchWindow.getRequiredSections, assigns, mapAt_mapAssign, mapAt_ite]
    · simp [QadialArchWindow.getRequiredSections, assigns, mapAt_mapAssign, mapAt_ite,
        mapAt_nil]
    · simp [QadialArchWindow.getRequiredSections, assigns, mapAt_mapAssign, mapAt_ite]
    · simp [QadialArchWindow.getRequiredSections, assigns, mapAt_mapAssign, mapAt_ite,
        mul_comm]
    · intro q h1 h2
      simp [QadialArchWindow.getRequiredSections, assigns, mapAt_mapAssign, mapAt_ite, h1, h2]
  · intro s
    refine ⟨?_, ?_, ⟨s.arch + s.width + 12, ?_, ?_⟩, ?_⟩
    · simp [RoundArchWindow.getRequiredSections, assigns, mapAt_mapAssign, mapAt_ite]
    · simp [RoundArchWindow.getRequiredSections, assigns, mapAt_mapAssign, mapAt_ite, mapAt_nil]
    · simp [RoundArchWindow.getRequiredSections, assigns, mapAt_mapAssign, mapAt_ite]
    · simp [RoundArchWindow.getRequiredSections, assigns, mapAt_mapAssign, mapAt_ite, mul_comm]
    · intro q h1 h2
      simp [RoundArchWindow.getRequiredSections, assigns, mapAt_mapAssign, mapAt_ite, h1, h2]
  · intro s
    refine ⟨?_, ?_, ⟨s.h * 2 + (s.wl + s.wr) * 2, ?_, ?_⟩, ?_⟩
    · simp [FixCornerWindow.getRequiredSections, assigns, mapAt_mapAssign, mapAt_ite]
    · simp [FixCornerWindow.getRequiredSections, assigns, mapAt_mapAssign, mapAt_ite, mapAt_nil]
    · simp [FixCornerWindow.getRequiredSections, assigns, mapAt_mapAssign, mapAt_ite]
    · simp [FixCornerWindow.getRequiredSections, assigns, mapAt_mapAssign, mapAt_ite, mul_comm]
    · intro q h1 h2
      simp [FixCornerWindow.getRequiredSections, assigns, mapAt_mapAssign, mapAt_ite, h1, h2]

/-- Witness for C20: the D54A entry of a FixWindow of collar type 2 is the same with
and without a 20 in tee. -/
theorem C20_tee_witness :
    mapAt (FixWindow.getRequiredSections
        { height := 48, width := 36, tee := 20, collerType := 2, includeTee := true }) "D54A"
      = mapAt (FixWindow.getRequiredSections
        { height := 48, width := 36, tee := 20, collerType := 2, includeTee := false }) "D54A" :=
  (C20_tee.1 { height := 48, width := 36, tee := 20, collerType := 2 }).2.2.2 "D54A"
    (by decide) (by decide)

/-! ## C21: the M-series flag is a renaming -/

theorem in_or_out_14 (c : ℤ) : (1 ≤ c ∧ c ≤ 14) ∨ (c < 1 ∨ 14 < c) := by omega

theorem in_or_out_8 (c : ℤ) : (1 ≤ c ∧ c ≤ 8) ∨ (c < 1 ∨ 8 < c) := by omega

set_option maxHeartbeats 4000000 in
/-- The M-series map is the DC map with its keys renamed, for every collar type. -/
theorem flexible_mSeries_eq_rename (c : ℤ) (h w : ℚ) (d29 : Bool) :
    FlexiblePanelWindow.getRequiredSections
        { height := h, width := w, collerType := c, includeD29 := d29,
          useMSeriesSections := true }
      = mapRename mSeriesAlias (FlexiblePanelWindow.getRequiredSections
          { height := h, width := w, collerType := c, includeD29 := d29,
            useMSeriesSections := false }) := by
  rcases in_or_out_14 c with ⟨h1, h2⟩ | hc
  · interval_cases c <;> cases d29 <;>
      simp +decide [FlexiblePanelWindow.getRequiredSections, FlexiblePanelWindow.sec, assigns,
        mapAssign, mapRename, mSeriesAlias]
  · obtain ⟨h1, h2, h3, h4, h5, h6, h7, h8, h9, h10, h11, h12, h13, h14⟩ :=
      ne_of_outside_14 _ hc
    cases d29 <;>
      simp +decide [FlexiblePanelWindow.getRequiredSections, assigns, mapAssign, mapRename,
        mSeriesAlias, h1, h2, h3, h4, h5, h6, h7, h8, h9, h10, h11, h12, h13, h14]

set_option maxHeartbeats 4000000 in
/-- Both styles have the same number of entries. -/
theorem flexible_mSeries_length (c : ℤ) (h w : ℚ) (d29 : Bool) :
    (FlexiblePanelWindow.getRequiredSections
        { height := h, width := w, collerType := c, includeD29 := d29,
          useMSeriesSections := true }).length
      = (FlexiblePanelWindow.getRequiredSections
          { height := h, width := w, collerType := c, includeD29 := d29,
            useMSeriesSections := false }).length := by
  rcases in_or_out_14 c with ⟨h1, h2⟩ | hc
  · interval_cases c <;> cases d29 <;>
      simp +decide [FlexiblePanelWindow.getRequiredSections, FlexiblePanelWindow.sec, assigns,
        mapAssign]
  · obtain ⟨h1, h2, h3, h4, h5, h6, h7, h8, h9, h10, h11, h12, h13, h14⟩ :=
      ne_of_outside_14 _ hc
    cases d29 <;>
      simp +decide [FlexiblePanelWindow.getRequiredSections, assigns, mapAssign,
        h1, h2, h3, h4, h5, h6, h7, h8, h9, h10, h11, h12, h13, h14]

/-- The keys a FlexiblePanelWindow without M-series naming can produce. -/
theorem flexible_dc_keys (c : ℤ) (h w : ℚ) (d29 : Bool) (k : String)
    (hk : k ∈ mapKeys (FlexiblePanelWindow.getRequiredSections
          { height := h, width := w, collerType := c, includeD29 := d29,
            useMSeriesSections := false })) :
    k ∈ ["DC30F", "DC30C", "DC26F", "DC26C", "M23", "M28", "M24", "D29"] := by
  obtain ⟨r, hr⟩ := mapAt_of_mem_mapKeys _ k hk
  by_contra hne
  simp only [List.mem_cons, List.mem_singleton, List.not_mem_nil, or_false, not_or] at hne
  obtain ⟨n1, n2, n3, n4, n5, n6, n7, n8⟩ := hne
  simp [FlexiblePanelWindow.getRequiredSections, FlexiblePanelWindow.sec, assigns,
    mapAt_mapAssign, mapAt_ite, mapAt_nil, n1, n2, n3, n4, n5, n6, n7, n8] at hr

/-- The renaming is injective on the eight names of the DC style. -/
theorem mSeriesAlias_injOn (k₁ k₂ : String)
    (h₁ : k₁ ∈ ["DC30F", "DC30C", "DC26F", "DC26C", "M23", "M28", "M24", "D29"])
    (h₂ : k₂ ∈ ["DC30F", "DC30C", "DC26F", "DC26C", "M23", "M28", "M24", "D29"])
    (h : mSeriesAlias k₁ = mSeriesAlias k₂) : k₁ = k₂ := by
  simp only [List.mem_cons, List.mem_singleton, List.not_mem_nil, or_false] at h₁ h₂
  rcases h₁ with rfl | rfl | rfl | rfl | rfl | rfl | rfl | rfl <;>
    rcases h₂ with rfl | rfl | rfl | rfl | rfl | rfl | rfl | rfl <;>
    simp [mSeriesAlias] at h ⊢

/-- C21. The M-series flag of FlexiblePanelWindow is a pure renaming: for every collar
type, h, w and includeD29, the map with useMSeries = true is the image of the map with
useMSeries = false under the key renaming DC30F to M30F, DC26F to M26F, DC30C to M30,
DC26C to M26 (all other keys fixed); the renaming merges no two keys of the map, and
both maps have the same number of entries and, name for renamed name, the same
lengths. -/
theorem C21_m_series_is_renaming (c : ℤ) (h w : ℚ) (d29 : Bool) :
    FlexiblePanelWindow.getRequiredSections
        { height := h, width := w, collerType := c, includeD29 := d29,
          useMSeriesSections := true }
      = mapRename mSeriesAlias (FlexiblePanelWindow.getRequiredSections
          { height := h, width := w, collerType := c, includeD29 := d29,
            useMSeriesSections := false })
    ∧ (∀ k₁ ∈ mapKeys (FlexiblePanelWindow.getRequiredSections
          { height := h, width := w, collerType := c, includeD29 := d29,
            useMSeriesSections := false }),
        ∀ k₂ ∈ mapKeys (FlexiblePanelWindow.getRequiredSections
          { height := h, width := w, collerType := c, includeD29 := d29,
            useMSeriesSections := false }),
        mSeriesAlias k₁ = mSeriesAlias k₂ → k₁ = k₂)
    ∧ (FlexiblePanelWindow.getRequiredSections
        { height := h, width := w, collerType := c, includeD29 := d29,
          useMSeriesSections := true }).length
      = (FlexiblePanelWindow.getRequiredSections
          { height := h, width := w, collerType := c, includeD29 := d29,
            useMSeriesSections := false }).length
    ∧ (∀ k ∈ mapKeys (FlexiblePanelWindow.getRequiredSections
          { height := h, width := w, collerType := c, includeD29 := d29,
            useMSeriesSections := false }),
        mapAt (FlexiblePanelWindow.getRequiredSections
          { height := h, width := w, collerType := c, includeD29 := d29,
            useMSeriesSections := true }) (mSeriesAlias k)
        = mapAt (FlexiblePanelWindow.getRequiredSections
          { height := h, width := w, collerType := c, includeD29 := d29,
            useMSeriesSections := false }) k) := by
  refine ⟨flexible_mSeries_eq_rename c h w d29, ?_, flexible_mSeries_length c h w d29, ?_⟩
  · intro k₁ hk₁ k₂ hk₂ he
    exact mSeriesAlias_injOn k₁ k₂ (flexible_dc_keys c h w d29 k₁ hk₁)
      (flexible_dc_keys c h w d29 k₂ hk₂) he
  · intro k hk
    have hmem := flexible_dc_keys c h w d29 k hk
    simp only [List.mem_cons, List.mem_singleton, List.not_mem_nil, or_false] at hmem
    rcases hmem with rfl | rfl | rfl | rfl | rfl | rfl | rfl | rfl <;>
      simp [FlexiblePanelWindow.getRequiredSections, FlexiblePanelWindow.sec, assigns,
        mapAt_mapAssign, mapAt_ite, mapAt_nil, mSeriesAlias]

/-- Witness for C21: in the scenario map DC26F and DC30F are renamed apart. -/
theorem C21_m_series_is_renaming_witness :
    mapAt (FlexiblePanelWindow.getRequiredSections
        { height := 48, width := 36, collerType := 1, includeD29 := true,
          useMSeriesSections := true }) (mSeriesAlias "DC30F")
      = mapAt (FlexiblePanelWindow.getRequiredSections
        { height := 48, width := 36, collerType := 1, includeD29 := true,
          useMSeriesSections := false }) "DC30F" :=
  (C21_m_series_is_renaming 1 48 36 true).2.2.2 "DC30F" (by
    simp +decide [FlexiblePanelWindow.getRequiredSections, FlexiblePanelWindow.sec, assigns,
      mapAssign, mapKeys])

/-! ## C22: single and double door -/

set_option maxHeartbeats 4000000 in
/-- The key list of a DoorWindow does not depend on the leaf count. -/
theorem door_keys_isDouble (h w t : ℚ) (c : ℤ) (d46 tee dbl : Bool) :
    mapKeys (DoorWindow.getRequiredSections
        { height := h, width := w, tee := t, collerType := c, includeD46 := d46,
          includeTee := tee, isDouble := dbl })
      = mapKeys (DoorWindow.getRequiredSections
        { height := h, width := w, tee := t, collerType := c, includeD46 := d46,
          includeTee := tee, isDouble := false }) := by
  cases dbl
  · rfl
  · rcases in_or_out_8 c with ⟨h1, h2⟩ | hc
    · interval_cases c <;> cases d46 <;> cases tee <;>
        simp +decide [DoorWindow.getRequiredSections, assigns, mapAssign, mapKeys]
    · obtain ⟨h1, h2, h3, h4, h5, h6, h7, h8⟩ := ne_of_outside_8 _ hc
      cases d46 <;> cases tee <;>
        simp +decide [DoorWindow.getRequiredSections, assigns, mapAssign, mapKeys,
          h1, h2, h3, h4, h5, h6, h7, h8]

/-- C22. Selectors 8 and 9 create the single and the double door; for the same collar
type, height, width, bottom-rail flag and tee, the section map of the double door has
the same key list as that of the single door, its D50 entry is larger by exactly 2h,
and every other length is equal. -/
theorem C22_double_door (s : DoorWindow) :
    createComponent 8 = some (.door { isDouble := false })
    ∧ createComponent 9 = some (.door { isDouble := true })
    ∧ mapKeys ({ s with isDouble := true } : DoorWindow).getRequiredSections
        = mapKeys ({ s with isDouble := false } : DoorWindow).getRequiredSections
    ∧ (∃ d : ℚ,
        mapAt ({ s with isDouble := false } : DoorWindow).getRequiredSections "D50" = some d
        ∧ mapAt ({ s with isDouble := true } : DoorWindow).getRequiredSections "D50"
            = some (d + 2 * s.height))
    ∧ (∀ q : String, q ≠ "D50" →
        mapAt ({ s with isDouble := true } : DoorWindow).getRequiredSections q
          = mapAt ({ s with isDouble := false } : DoorWindow).getRequiredSections q) := by
  refine ⟨by simp [createComponent], by simp [createComponent], ?_, ?_, ?_⟩
  · exact door_keys_isDouble s.height s.width s.tee s.collerType s.includeD46 s.includeTee true
  · cases hd : s.includeD46
    · refine ⟨(s.height + s.width) * 2, ?_, ?_⟩
      · simp [DoorWindow.getRequiredSections, assigns, mapAt_mapAssign, mapAt_ite, hd]
      · simp [DoorWindow.getRequiredSections, assigns, mapAt_mapAssign, mapAt_ite, hd]
        ring
    · refine ⟨s.height * 2 + s.width, ?_, ?_⟩
      · simp [DoorWindow.getRequiredSections, assigns, mapAt_mapAssign, mapAt_ite, hd]
      · simp [DoorWindow.getRequiredSections, assigns, mapAt_mapAssign, mapAt_ite, hd]
        ring
  · intro q hq
    cases hd : s.includeD46 <;>
      simp [DoorWindow.getRequiredSections, assigns, mapAt_mapAssign, mapAt_ite, hd, hq]

/-- Witness for C22: the D54F entry of a door of collar type 3 is the same for one and
two leaves. -/
theorem C22_double_door_witness :
    mapAt (DoorWindow.getRequiredSections
        { height := 80, width := 36, collerType := 3, isDouble := true }) "D54F"
      = mapAt (DoorWindow.getRequiredSections
        { height := 80, width := 36, collerType := 3, isDouble := false }) "D54F" :=
  (C22_double_door { height := 80, width := 36, collerType := 3 }).2.2.2.2 "D54F" (by decide)

/-! ## C23: the tee of DoorWindow -/

/-- C23. In DoorWindow, for every collar type and for single and double doors,
enabling the tee with length t adds the entry D52 = t (absent without the tee) and
changes no other entry of the section map: D50, D46, D54F and D54A keep their
lengths. -/
theorem C23_door_tee (s : DoorWindow) :
    mapAt ({ s with includeTee := true } : DoorWindow).getRequiredSections "D52" = some s.tee
    ∧ mapAt ({ s with includeTee := false } : DoorWindow).getRequiredSections "D52" = none
    ∧ (∀ q : String, q ≠ "D52" →
        mapAt ({ s with includeTee := true } : DoorWindow).getRequiredSections q
          = mapAt ({ s with includeTee := false } : DoorWindow).getRequiredSections q)
    ∧ (∀ q ∈ ["D50", "D46", "D54F", "D54A"],
        mapAt ({ s with includeTee := true } : DoorWindow).getRequiredSections q
          = mapAt ({ s with includeTee := false } : DoorWindow).getRequiredSections q) := by
  have key : ∀ q : String, q ≠ "D52" →
      mapAt ({ s with includeTee := true } : DoorWindow).getRequiredSections q
        = mapAt ({ s with includeTee := false } : DoorWindow).getRequiredSections q := by
    intro q hq
    simp [DoorWindow.getRequiredSections, assigns, mapAt_mapAssign, mapAt_ite, hq]
  refine ⟨?_, ?_, key, ?_⟩
  · simp [DoorWindow.getRequiredSections, assigns, mapAt_mapAssign, mapAt_ite]
  · simp [DoorWindow.getRequiredSections, assigns, mapAt_mapAssign, mapAt_ite, mapAt_nil]
  · intro q hq
    apply key
    simp only [List.mem_cons, List.mem_singleton, List.not_mem_nil, or_false] at hq
    rcases hq with rfl | rfl | rfl | rfl <;> decide

/-- Witness for C23: the D50 entry of a double door with bottom rail is the same with
and without a 30 in tee. -/
theorem C23_door_tee_witness :
    mapAt (DoorWindow.getRequiredSections
        { height := 80, width := 36, tee := 30, collerType := 3, includeD46 := true,
          includeTee := true, isDouble := true }) "D50"
      = mapAt (DoorWindow.getRequiredSections
        { height := 80, width := 36, tee := 30, collerType := 3, includeD46 := true,
          includeTee := false, isDouble := true }) "D50" :=
  (C23_door_tee
    { height := 80, width := 36, tee := 30, collerType := 3, includeD46 := true,
      isDouble := true }).2.2.1 "D50" (by decide)

/-! ## C24: identical rows of the FlexiblePanelWindow collar table -/

set_option maxHeartbeats 4000000 in
/-- The collar-specific lookups of a FlexiblePanelWindow are the row of its collar type. -/
theorem collarLookups_eq_row (c : ℤ) (h w : ℚ) (d29 m : Bool) (hc : 1 ≤ c ∧ c ≤ 14) :
    collarLookups
        { height := h, width := w, collerType := c, includeD29 := d29,
          useMSeriesSections := m }
      = collarRow c h w := by
  obtain ⟨h1, h2⟩ := hc
  interval_cases c <;> cases d29 <;> cases m <;>
    simp [collarLookups, collarRow, FlexiblePanelWindow.getRequiredSections,
      FlexiblePanelWindow.sec, assigns, mapAt_mapAssign, mapAt]

set_option maxHeartbeats 4000000 in
/-- At h = 48, w = 36 the rows of two distinct collar types other than 4 and 6 differ. -/
theorem collarRow_injective_at_48_36 (i j : ℤ) (hi : 1 ≤ i ∧ i ≤ 14) (hj : 1 ≤ j ∧ j ≤ 14)
    (hij : i ≠ j) (h46 : ¬ (i = 4 ∧ j = 6)) (h64 : ¬ (i = 6 ∧ j = 4)) :
    collarRow i 48 36 ≠ collarRow j 48 36 := by
  obtain ⟨i1, i2⟩ := hi
  obtain ⟨j1, j2⟩ := hj
  intro hrow
  interval_cases i <;> interval_cases j <;>
    first
      | exact absurd rfl hij
      | exact h46 ⟨rfl, rfl⟩
      | exact h64 ⟨rfl, rfl⟩
      | (simp [collarRow] at hrow <;> norm_num at hrow)

/-- C24. In the FlexiblePanelWindow collar table, types 4 and 6 give equal section
maps for all h, w (and flags), and they are the only such pair: for every other pair
of distinct collar types in 1..14 there are positive h, w (48 and 36) for which the
two section maps differ. -/
theorem C24_only_4_and_6_coincide :
    (∀ (h w : ℚ) (d29 m : Bool),
      FlexiblePanelWindow.getRequiredSections
          { height := h, width := w, collerType := 4, includeD29 := d29,
            useMSeriesSections := m }
        = FlexiblePanelWindow.getRequiredSections
          { height := h, width := w, collerType := 6, includeD29 := d29,
            useMSeriesSections := m })
    ∧ (∀ (i j : ℤ) (d29 m : Bool), 1 ≤ i ∧ i ≤ 14 → 1 ≤ j ∧ j ≤ 14 → i ≠ j →
        ¬ (i = 4 ∧ j = 6) → ¬ (i = 6 ∧ j = 4) →
        ∃ h w : ℚ, 0 < h ∧ 0 < w
          ∧ FlexiblePanelWindow.getRequiredSections
              { height := h, width := w, collerType := i, includeD29 := d29,
                useMSeriesSections := m }
            ≠ FlexiblePanelWindow.getRequiredSections
              { height := h, width := w, collerType := j, includeD29 := d29,
                useMSeriesSections := m }) := by
  refine ⟨?_, ?_⟩
  · intro h w d29 m
    simp [FlexiblePanelWindow.getRequiredSections, FlexiblePanelWindow.sec]
  · intro i j d29 m hi hj hij h46 h64
    refine ⟨48, 36, by norm_num, by norm_num, ?_⟩
    intro heq
    apply collarRow_injective_at_48_36 i j hi hj hij h46 h64
    rw [← collarLookups_eq_row i 48 36 d29 m hi, ← collarLookups_eq_row j 48 36 d29 m hj]
    simp only [collarLookups, heq]
    rfl

/-- Witness for C24: collar types 7 and 14 differ at 48 by 36 (DC26F is 39 against 36). -/
theorem C24_only_4_and_6_coincide_witness :
    ∃ h w : ℚ, 0 < h ∧ 0 < w
      ∧ FlexiblePanelWindow.getRequiredSections
          { height := h, width := w, collerType := 7, includeD29 := true,
            useMSeriesSections := false }
        ≠ FlexiblePanelWindow.getRequiredSections
          { height := h, width := w, collerType := 14, includeD29 := true,
            useMSeriesSections := false } :=
  C24_only_4_and_6_coincide.2 7 14 true false ⟨by decide, by decide⟩ ⟨by decide, by decide⟩
    (by decide) (by decide) (by decide)

/-! ## Lemmas: bounds and monotonicity of the rounding -/

theorem feet_eq_floor_add (x : ℚ) : x / 12 = (⌊x / 12⌋ : ℚ) + remainderInches x / 12 := by
  unfold remainderInches; ring

/-- Every shape's rounding of a positive length, by cases on the remainder. -/
theorem round_cases (c : FrameComponent) (x : ℚ) (hx : 0 < x) :
    (remainderInches x = 0 ∧ c.roundToMarketFeet x = (⌊x / 12⌋ : ℚ))
    ∨ (remainderInches x ≤ 6 ∧ c.roundToMarketFeet x = (⌊x / 12⌋ : ℚ) + 3 / 5)
    ∨ (6 < remainderInches x ∧ c.roundToMarketFeet x = (⌊x / 12⌋ : ℚ) + 1) := by
  have hr0 := remainderInches_nonneg x
  have hfeet := feet_eq_floor_add x
  cases c with
  | flexiblePanel s =>
    rw [round_flexible, flexRound_eq x hx.le]
    by_cases h0 : remainderInches x = 0
    · left
      refine ⟨h0, ?_⟩
      rw [if_pos h0]; linarith
    · by_cases h6 : remainderInches x ≤ 6
      · right; left
        exact ⟨h6, by rw [if_neg h0, if_pos h6]⟩
      · right; right
        exact ⟨not_le.1 h6, by rw [if_neg h0, if_neg h6]⟩
  | _ =>
    by_cases h6 : remainderInches x ≤ 6
    · right; left
      exact ⟨h6, by
        show ThreePanel_3glass.roundToMarketFeet x = _
        rw [floorRound_eq, if_pos h6]⟩
    · right; right
      exact ⟨not_le.1 h6, by
        show ThreePanel_3glass.roundToMarketFeet x = _
        rw [floorRound_eq, if_neg h6]⟩

/-- The rounded quantity is at least the true length and at most 0.6 ft above it. -/
theorem round_bounds (c : FrameComponent) (x : ℚ) (hx : 0 < x) :
    x / 12 ≤ c.roundToMarketFeet x ∧ c.roundToMarketFeet x ≤ x / 12 + 3 / 5 := by
  have hr0 := remainderInches_nonneg x
  have hr12 := remainderInches_lt x
  have hfeet := feet_eq_floor_add x
  rcases round_cases c x hx with ⟨h0, hv⟩ | ⟨h6, hv⟩ | ⟨h6, hv⟩ <;>
    rw [hv] <;> constructor <;> linarith

/-- Every shape's rounding is monotone on positive lengths. -/
theorem round_mono (c : FrameComponent) (x y : ℚ) (hx : 0 < x) (hxy : x ≤ y) :
    c.roundToMarketFeet x ≤ c.roundToMarketFeet y := by
  have hy : 0 < y := lt_of_lt_of_le hx hxy
  have hrx0 := remainderInches_nonneg x
  have hry0 := remainderInches_nonneg y
  have hrx12 := remainderInches_lt x
  have hry12 := remainderInches_lt y
  have hfx := feet_eq_floor_add x
  have hfy := feet_eq_floor_add y
  have hfloor : ⌊x / 12⌋ ≤ ⌊y / 12⌋ := Int.floor_mono (show x / 12 ≤ y / 12 by linarith)
  rcases lt_or_eq_of_le hfloor with hlt | heq
  · have h1 : (⌊x / 12⌋ : ℚ) + 1 ≤ (⌊y / 12⌋ : ℚ) := by exact_mod_cast hlt
    rcases round_cases c x hx with ⟨_, hvx⟩ | ⟨_, hvx⟩ | ⟨_, hvx⟩ <;>
      rcases round_cases c y hy with ⟨_, hvy⟩ | ⟨_, hvy⟩ | ⟨_, hvy⟩ <;>
      rw [hvx, hvy] <;> linarith
  · have he : (⌊x / 12⌋ : ℚ) = (⌊y / 12⌋ : ℚ) := by exact_mod_cast heq
    have hr : remainderInches x ≤ remainderInches y := by
      have : x / 12 ≤ y / 12 := by linarith
      rw [hfx, hfy, he] at this
      linarith
    cases c with
    | flexiblePanel s =>
      rw [round_flexible, flexRound_eq x hx.le, flexRound_eq y hy.le, ← he]
      by_cases hx0 : remainderInches x = 0
      · rw [if_pos hx0]
        have hxv : x / 12 = (⌊x / 12⌋ : ℚ) := by linarith
        by_cases hy0 : remainderInches y = 0
        · rw [if_pos hy0]; linarith
        · rw [if_neg hy0]
          split <;> linarith
      · have hy0 : remainderInches y ≠ 0 := by
          intro h
          apply hx0
          linarith
        rw [if_neg hx0, if_neg hy0]
        by_cases h6 : remainderInches y ≤ 6
        · rw [if_pos h6, if_pos (le_trans hr h6)]
        · rw [if_neg h6]
          split <;> linarith
    | _ =>
      show ThreePanel_3glass.roundToMarketFeet x ≤ ThreePanel_3glass.roundToMarketFeet y
      rw [floorRound_eq, floorRound_eq, ← he]
      by_cases h6 : remainderInches y ≤ 6
      · rw [if_pos h6, if_pos (le_trans hr h6)]
      · rw [if_neg h6]
        split <;> linarith

/-! ## C25: the billed quantity against the true length -/

/-- C25. In exact arithmetic, for every positive length x in inches and every shape's
roundToMarketFeet, the billed quantity never falls below the true length and exceeds
it by at most 0.6 ft: 0 <= roundToMarketFeet(x) - x/12 <= 0.6. -/
theorem C25_round_bounds (c : FrameComponent) (x : ℚ) (hx : 0 < x) :
    0 ≤ c.roundToMarketFeet x - x / 12 ∧ c.roundToMarketFeet x - x / 12 ≤ 3 / 5 := by
  have h := round_bounds c x hx
  constructor <;> linarith [h.1, h.2]

/-- Witness for C25: a FixWindow length of 24 in. -/
theorem C25_round_bounds_witness :
    0 ≤ (FrameComponent.fixWindow {}).roundToMarketFeet 24 - 24 / 12
    ∧ (FrameComponent.fixWindow {}).roundToMarketFeet 24 - 24 / 12 ≤ 3 / 5 :=
  C25_round_bounds (FrameComponent.fixWindow {}) 24 (by norm_num)

/-! ## C26: monotone rounding -/

/-- C26. Both rounding variants, the FlexiblePanelWindow one with the exact-foot case
and the floor-based one of the nine other shapes, are monotone: for all positive
lengths x <= y, roundToMarketFeet(x) <= roundToMarketFeet(y). -/
theorem C26_round_monotone (x y : ℚ) (hx : 0 < x) (hxy : x ≤ y) :
    FlexiblePanelWindow.roundToMarketFeet x ≤ FlexiblePanelWindow.roundToMarketFeet y
    ∧ ThreePanel_3glass.roundToMarketFeet x ≤ ThreePanel_3glass.roundToMarketFeet y
    ∧ DoorWindow.roundToMarketFeet x ≤ DoorWindow.roundToMarketFeet y
    ∧ (∀ c : FrameComponent, c.roundToMarketFeet x ≤ c.roundToMarketFeet y) :=
  ⟨round_mono (.flexiblePanel {}) x y hx hxy, round_mono (.threePanel3glass {}) x y hx hxy,
    round_mono (.door {}) x y hx hxy, fun c => round_mono c x y hx hxy⟩

/-- Witness for C26: 18 in against 19 in under FlexiblePanelWindow's variant. -/
theorem C26_round_monotone_witness :
    FlexiblePanelWindow.roundToMarketFeet 18 ≤ FlexiblePanelWindow.roundToMarketFeet 19 :=
  (C26_round_monotone 18 19 (by norm_num) (by norm_num)).1

/-! ## Lemmas: positive lengths -/

theorem mem_mapAssign (m : SectionMap) (k : String) (v : ℚ) (e : String × ℚ)
    (he : e ∈ mapAssign m k v) : e = (k, v) ∨ e ∈ m := by
  induction m with
  | nil => simpa [mapAssign] using he
  | cons e' rest ih =>
    obtain ⟨k', v'⟩ := e'
    unfold mapAssign at he
    by_cases h1 : k < k'
    · simp only [h1, if_true, List.mem_cons] at he
      rcases he with he | he | he
      · exact Or.inl he
      · exact Or.inr (by simp [he])
      · exact Or.inr (by simp [he])
    · by_cases h2 : k = k'
      · subst h2
        simp only [h1, if_false, if_true, List.mem_cons] at he
        rcases he with he | he
        · exact Or.inl he
        · exact Or.inr (by simp [he])
      · simp only [h1, h2, if_false, List.mem_cons] at he
        rcases he with he | he
        · exact Or.inr (by simp [he])
        · rcases ih he with h | h
          · exact Or.inl h
          · exact Or.inr (by simp [h])

theorem allPositive_nil : AllPositive [] := by
  intro e he; cases he

theorem allPositive_mapAssign (m : SectionMap) (k : String) (v : ℚ) (hm : AllPositive m)
    (hv : 0 < v) : AllPositive (mapAssign m k v) := by
  intro e he
  rcases mem_mapAssign m k v e he with rfl | h
  · exact hv
  · exact hm e h

theorem allPositive_ite (c : Prop) [Decidable c] (a b : SectionMap) (ha : c → AllPositive a)
    (hb : ¬ c → AllPositive b) : AllPositive (if c then a else b) := by
  split
  · exact ha ‹_›
  · exact hb ‹_›

/-! ## Lemmas: maps that grow with the dimensions -/

theorem mapLe_nil : MapLe [] [] := List.Forall₂.nil

theorem mapLe_mapAssign (m₁ m₂ : SectionMap) (k : String) (v₁ v₂ : ℚ) (hm : MapLe m₁ m₂)
    (h0 : 0 < v₁) (hv : v₁ ≤ v₂) : MapLe (mapAssign m₁ k v₁) (mapAssign m₂ k v₂) := by
  induction hm with
  | nil =>
    refine List.Forall₂.cons ?_ List.Forall₂.nil
    exact ⟨rfl, h0, hv⟩
  | @cons a b l₁ l₂ hab hl ih =>
    obtain ⟨ka, va⟩ := a
    obtain ⟨kb, vb⟩ := b
    obtain ⟨hk, hpos, hle⟩ := hab
    simp only at hk hpos hle
    subst hk
    unfold mapAssign
    by_cases h1 : k < ka
    · simp only [h1, if_true]
      refine List.Forall₂.cons ?_ (List.Forall₂.cons ?_ hl)
      · exact ⟨rfl, h0, hv⟩
      · exact ⟨rfl, hpos, hle⟩
    · by_cases h2 : k = ka
      · subst h2
        simp only [h1, if_false, if_true]
        refine List.Forall₂.cons ?_ hl
        exact ⟨rfl, h0, hv⟩
      · simp only [h1, h2, if_false]
        refine List.Forall₂.cons ?_ ih
        exact ⟨rfl, hpos, hle⟩

theorem mapLe_ite (c : Prop) [Decidable c] (a₁ a₂ b₁ b₂ : SectionMap) (ha : c → MapLe a₁ a₂)
    (hb : ¬ c → MapLe b₁ b₂) : MapLe (if c then a₁ else b₁) (if c then a₂ else b₂) := by
  split
  · exact ha ‹_›
  · exact hb ‹_›

theorem mapKeys_eq_of_mapLe (m₁ m₂ : SectionMap) (h : MapLe m₁ m₂) :
    mapKeys m₁ = mapKeys m₂ := by
  induction h with
  | nil => rfl
  | cons hab _ ih =>
    simp only [mapKeys, List.map_cons] at ih ⊢
    rw [hab.1, ih]

/-- With a monotone rounding and non-negative rates, a map that is no larger prices
no higher. -/
theorem sum_lineAmount_le (round : ℚ → ℚ) (rates : SectionMap)
    (hmono : ∀ x y : ℚ, 0 < x → x ≤ y → round x ≤ round y)
    (m₁ m₂ : SectionMap) (h : MapLe m₁ m₂) (hr : ∀ e ∈ m₁, 0 ≤ rateOf rates e.1) :
    (m₁.map (lineAmount round rates)).sum ≤ (m₂.map (lineAmount round rates)).sum := by
  induction h with
  | nil => simp
  | @cons a b l₁ l₂ hab _ ih =>
    simp only [List.map_cons, List.sum_cons]
    have hrest : ∀ e ∈ l₁, 0 ≤ rateOf rates e.1 := fun e he => hr e (List.mem_cons_of_mem _ he)
    have hra : 0 ≤ rateOf rates a.1 := hr a (List.mem_cons_self _ _)
    have hhead : lineAmount round rates a ≤ lineAmount round rates b := by
      unfold lineAmount
      rw [← hab.1]
      exact mul_le_mul_of_nonneg_right (hmono a.2 b.2 hab.2.1 hab.2.2) hra
    linarith [ih hrest]

/-! ## C28: every length is positive -/

theorem allPositive_flexible (s : FlexiblePanelWindow) (hh : 0 < s.height) (hw : 0 < s.width) :
    AllPositive s.getRequiredSections := by
  simp only [FlexiblePanelWindow.getRequiredSections, assigns, List.foldl_cons, List.foldl_nil]
  repeat' first
    | exact allPositive_nil
    | with_reducible apply allPositive_ite
    | with_reducible apply allPositive_mapAssign
    | intro _
  all_goals linarith

theorem allPositive_threePanel (s : ThreePanel_3glass) (hh : 0 < s.height) (hw : 0 < s.width)
    (hn : s.includeD29 = true → (s.net = 3 ∨ s.net = 4) → 0 < s.netwidth) :
    AllPositive s.getRequiredSections := by
  simp only [ThreePanel_3glass.getRequiredSections, assigns, List.foldl_cons, List.foldl_nil]
  repeat' first
    | exact allPositive_nil
    | with_reducible apply allPositive_ite
    | with_reducible apply allPositive_mapAssign
    | intro _
  all_goals first
    | linarith
    | linarith [hn (by assumption) (Or.inl (by assumption))]
    | linarith [hn (by assumption) (Or.inr (by assumption))]

theorem allPositive_fixWindow (s : FixWindow) (hh : 0 < s.height) (hw : 0 < s.width)
    (ht : s.includeTee = true → 0 < s.tee) : AllPositive s.getRequiredSections := by
  simp only [FixWindow.getRequiredSections, assigns, List.foldl_cons, List.foldl_nil]
  repeat' first
    | exact allPositive_nil
    | with_reducible apply allPositive_ite
    | with_reducible apply allPositive_mapAssign
    | intro _
  all_goals first
    | linarith
    | linarith [ht (by assumption)]

theorem allPositive_randomFix (s : RandomFixWindow) (hl : 0 < s.length)
    (ht : s.includeTee = true → 0 < s.tee) : AllPositive s.getRequiredSections := by
  simp only [RandomFixWindow.getRequiredSections, assigns, List.foldl_cons, List.foldl_nil]
  repeat' first
    | exact allPositive_nil
    | with_reducible apply allPositive_ite
    | with_reducible apply allPositive_mapAssign
    | intro _
  all_goals first
    | linarith
    | linarith [ht (by assumption)]

theorem allPositive_openable (s : OpenableWindow) (hh : 0 < s.height) (hw : 0 < s.width) :
    AllPositive s.getRequiredSections := by
  simp only [OpenableWindow.getRequiredSections, assigns, List.foldl_cons, List.foldl_nil]
  repeat' first
    | exact allPositive_nil
    | with_reducible apply allPositive_ite
    | with_reducible apply allPositive_mapAssign
    | intro _
  all_goals linarith

theorem allPositive_door (s : DoorWindow) (hh : 0 < s.height) (hw : 0 < s.width)
    (ht : s.includeTee = true → 0 < s.tee) : AllPositive s.getRequiredSections := by
  simp only [DoorWindow.getRequiredSections, assigns, List.foldl_cons, List.foldl_nil]
  repeat' first
    | exact allPositive_nil
    | with_reducible apply allPositive_ite
    | with_reducible apply allPositive_mapAssign
    | intro _
  all_goals first
    | linarith
    | (split_ifs <;> linarith)
    | linarith [ht (by assumption)]

theorem allPositive_qadial (s : QadialArchWindow) (hh : 0 < s.height) (hw : 0 < s.width)
    (ht : s.includeTee = true → 0 < s.T) : AllPositive s.getRequiredSections := by
  simp only [QadialArchWindow.getRequiredSections, assigns, List.foldl_cons, List.foldl_nil]
  repeat' first
    | exact allPositive_nil
    | with_reducible apply allPositive_ite
    | with_reducible apply allPositive_mapAssign
    | intro _
  all_goals first
    | linarith
    | linarith [ht (by assumption)]

theorem allPositive_roundArch (s : RoundArchWindow) (ha : 0 < s.arch) (hw : 0 < s.width)
    (ht : s.includeTee = true → 0 < s.T) : AllPositive s.getRequiredSections := by
  simp only [RoundArchWindow.getRequiredSections, assigns, List.foldl_cons, List.foldl_nil]
  repeat' first
    | exact allPositive_nil
    | with_reducible apply allPositive_ite
    | with_reducible apply allPositive_mapAssign
    | intro _
  all_goals first
    | linarith
    | linarith [ht (by assumption)]

theorem allPositive_fixCorner (s : FixCornerWindow) (hh : 0 < s.h) (hl : 0 < s.wl)
    (hr : 0 < s.wr) (ht : s.includeTee = true → 0 < s.T) :
    AllPositive s.getRequiredSections := by
  simp only [FixCornerWindow.getRequiredSections, assigns, List.foldl_cons, List.foldl_nil]
  repeat' first
    | exact allPositive_nil
    | with_reducible apply allPositive_ite
    | with_reducible apply allPositive_mapAssign
    | intro _
  all_goals first
    | linarith
    | linarith [ht (by assumption)]

theorem allPositive_slide (s : SlideCornerWindow) (hh : 0 < s.height) (hl : 0 < s.wl)
    (hr : 0 < s.wr) (hd : s.subtype = 4 ∧ s.includeD29 = true → 0 < s.d29Width) :
    AllPositive s.getRequiredSections := by
  simp only [SlideCornerWindow.getRequiredSections, assigns, List.foldl_cons, List.foldl_nil]
  repeat' first
    | exact allPositive_nil
    | with_reducible apply allPositive_ite
    | with_reducible apply allPositive_mapAssign
    | intro _
  all_goals first
    | linarith
    | (split_ifs <;> linarith)
    | linarith [hd ⟨by assumption, by assumption⟩]

/-- Whatever the unguarded loop returns, the lines it wrote are those of the entries. -/
theorem priceLoopAt_some (round : ℚ → ℚ) (rates : SectionMap) (l : List (String × ℚ))
    (t : ℚ) (o : List Output) (res : ℚ × List Output)
    (h : priceLoopAt round rates l (t, o) = some res) :
    res.2 = o ++ l.map (outputOf round rates) := by
  induction l generalizing t o with
  | nil =>
    simp only [priceLoopAt, Option.some.injEq] at h
    rw [← h]; simp
  | cons s rest ih =>
    unfold priceLoopAt at h
    cases hs : mapAt rates s.1 with
    | none => rw [hs] at h; cases h
    | some r =>
      rw [hs] at h
      have := ih _ _ h
      rw [this]
      simp [outputOf, hs]

/-- The lines written by a call of `calculateTotalPrice` that returns. -/
theorem out_of_calculateTotalPrice (c : FrameComponent) (rates : SectionMap) (total : ℚ)
    (out : List Output) (h : c.calculateTotalPrice rates = some (total, out)) :
    out = c.getRequiredSections.map (outputOf c.roundToMarketFeet rates) := by
  cases c with
  | fixWindow s =>
    simp only [FrameComponent.calculateTotalPrice, FixWindow.calculateTotalPrice,
      priceLoopTry_eq, Option.some.injEq, Prod.mk.injEq] at h
    rw [← h.2]; simp [FrameComponent.getRequiredSections, FrameComponent.roundToMarketFeet]
  | randomFix s =>
    simp only [FrameComponent.calculateTotalPrice, RandomFixWindow.calculateTotalPrice,
      priceLoopTry_eq, Option.some.injEq, Prod.mk.injEq] at h
    rw [← h.2]; simp [FrameComponent.getRequiredSections, FrameComponent.roundToMarketFeet]
  | openable s =>
    simp only [FrameComponent.calculateTotalPrice, OpenableWindow.calculateTotalPrice,
      priceLoopCount_eq, Option.some.injEq, Prod.mk.injEq] at h
    rw [← h.2]; simp [FrameComponent.getRequiredSections, FrameComponent.roundToMarketFeet]
  | flexiblePanel s =>
    have := priceLoopAt_some _ _ _ _ _ _ h
    simpa [FrameComponent.getRequiredSections, FrameComponent.roundToMarketFeet] using this
  | threePanel3glass s =>
    have := priceLoopAt_some _ _ _ _ _ _ h
    simpa [FrameComponent.getRequiredSections, FrameComponent.roundToMarketFeet] using this
  | door s =>
    have := priceLoopAt_some _ _ _ _ _ _ h
    simpa [FrameComponent.getRequiredSections, FrameComponent.roundToMarketFeet] using this
  | qadialArch s =>
    have := priceLoopAt_some _ _ _ _ _ _ h
    simpa [FrameComponent.getRequiredSections, FrameComponent.roundToMarketFeet] using this
  | roundArch s =>
    have := priceLoopAt_some _ _ _ _ _ _ h
    simpa [FrameComponent.getRequiredSections, FrameComponent.roundToMarketFeet] using this
  | fixCorner s =>
    have := priceLoopAt_some _ _ _ _ _ _ h
    simpa [FrameComponent.getRequiredSections, FrameComponent.roundToMarketFeet] using this
  | slideCorner s =>
    have := priceLoopAt_some _ _ _ _ _ _ h
    simpa [FrameComponent.getRequiredSections, FrameComponent.roundToMarketFeet] using this

/-- C28. For every shape and every input accepted by the guards of its
inputDimensions (all dimensions positive, collar type in range, tee positive when a
tee is included, net width positive for net styles 3 and 4, custom D29 width positive
for slide-corner subtype 4 with D29), every length in the section map is strictly
positive; so roundToMarketFeet is only ever applied to positive lengths. -/
theorem C28_lengths_positive (c : FrameComponent) (hc : InputAccepted c) :
    (∀ e ∈ c.getRequiredSections, 0 < e.2)
    ∧ (∀ (rates : SectionMap) (total : ℚ) (out : List Output),
        c.calculateTotalPrice rates = some (total, out) →
        ∀ o ∈ out, ∀ (n : String) (inches ft rounded price : ℚ),
          o = Output.line n inches ft rounded price →
          0 < inches ∧ rounded = c.roundToMarketFeet inches) := by
  have hpos : AllPositive c.getRequiredSections := by
    cases c with
    | flexiblePanel s => exact allPositive_flexible s hc.2.2.1 hc.2.2.2
    | threePanel3glass s => exact allPositive_threePanel s hc.2.2.2.1 hc.2.2.2.2 hc.1
    | fixWindow s => exact allPositive_fixWindow s hc.2.2.1 hc.2.2.2.1 hc.2.2.2.2
    | randomFix s => exact allPositive_randomFix s hc.1 hc.2
    | openable s => exact allPositive_openable s hc.2.2.1 hc.2.2.2
    | door s => exact allPositive_door s hc.2.2.2.1 hc.2.2.2.2 hc.1
    | qadialArch s => exact allPositive_qadial s hc.2.2.1 hc.2.2.2.1 hc.2.2.2.2
    | roundArch s => exact allPositive_roundArch s hc.1 hc.2.1 hc.2.2.2
    | fixCorner s => exact allPositive_fixCorner s hc.1 hc.2.1 hc.2.2.1 hc.2.2.2
    | slideCorner s => exact allPositive_slide s hc.1 hc.2.1 hc.2.2.1 hc.2.2.2
  refine ⟨hpos, ?_⟩
  intro rates total out hcalc o ho n inches ft rounded price hline
  rw [out_of_calculateTotalPrice c rates total out hcalc] at ho
  obtain ⟨e, he, heo⟩ := List.mem_map.1 ho
  rw [hline] at heo
  unfold outputOf at heo
  cases hm : mapAt rates e.1 with
  | none => rw [hm] at heo; cases heo
  | some r =>
    rw [hm] at heo
    simp only [Output.line.injEq] at heo
    obtain ⟨_, h2, _, h4, _⟩ := heo
    rw [← h2, ← h4]
    exact ⟨hpos e he, rfl⟩

/-- Witness for C28: the scenario window passes the guards, so its six lengths are
positive. -/
theorem C28_lengths_positive_witness :
    InputAccepted (FrameComponent.flexiblePanel scenarioWindow)
    ∧ ∀ e ∈ (FrameComponent.flexiblePanel scenarioWindow).getRequiredSections, 0 < e.2 := by
  have h : InputAccepted (FrameComponent.flexiblePanel scenarioWindow) := by
    simp [InputAccepted, scenarioWindow]
  exact ⟨h, (C28_lengths_positive (FrameComponent.flexiblePanel scenarioWindow) h).1⟩

/-! ## C27: a larger frame is never cheaper -/

theorem mapLe_flexible (a b : FlexiblePanelWindow)
    (h : NoLargerThan (.flexiblePanel a) (.flexiblePanel b)) :
    MapLe a.getRequiredSections b.getRequiredSections := by
  obtain ⟨e1, e2, e3, h1, h2, h3, h4⟩ := h
  simp only [FlexiblePanelWindow.getRequiredSections, FlexiblePanelWindow.sec, assigns,
    List.foldl_cons, List.foldl_nil, e1, e2, e3]
  repeat' first
    | exact mapLe_nil
    | with_reducible apply mapLe_ite
    | with_reducible apply mapLe_mapAssign
    | intro _
  all_goals linarith

theorem mapLe_threePanel (a b : ThreePanel_3glass)
    (h : NoLargerThan (.threePanel3glass a) (.threePanel3glass b)) :
    MapLe a.getRequiredSections b.getRequiredSections := by
  obtain ⟨e1, e2, e3, e4, e5, h1, h2, h3, h4, hn⟩ := h
  rw [e2, e3] at hn
  simp only [ThreePanel_3glass.getRequiredSections, assigns,
    List.foldl_cons, List.foldl_nil, e1, e2, e3, e4, e5]
  repeat' first
    | exact mapLe_nil
    | with_reducible apply mapLe_ite
    | with_reducible apply mapLe_mapAssign
    | intro _
  all_goals first
    | linarith
    | linarith [(hn (by assumption) (Or.inl (by assumption))).1,
        (hn (by assumption) (Or.inl (by assumption))).2]
    | linarith [(hn (by assumption) (Or.inr (by assumption))).1,
        (hn (by assumption) (Or.inr (by assumption))).2]

theorem mapLe_fixWindow (a b : FixWindow)
    (h : NoLargerThan (.fixWindow a) (.fixWindow b)) :
    MapLe a.getRequiredSections b.getRequiredSections := by
  obtain ⟨e1, e2, h1, h2, h3, h4, ht⟩ := h
  rw [e2] at ht
  simp only [FixWindow.getRequiredSections, assigns,
    List.foldl_cons, List.foldl_nil, e1, e2]
  repeat' first
    | exact mapLe_nil
    | with_reducible apply mapLe_ite
    | with_reducible apply mapLe_mapAssign
    | intro _
  all_goals first
    | linarith
    | linarith [(ht (by assumption)).1, (ht (by assumption)).2]

theorem mapLe_randomFix (a b : RandomFixWindow)
    (h : NoLargerThan (.randomFix a) (.randomFix b)) :
    MapLe a.getRequiredSections b.getRequiredSections := by
  obtain ⟨e1, h1, h2, ht⟩ := h
  rw [e1] at ht
  simp only [RandomFixWindow.getRequiredSections, assigns,
    List.foldl_cons, List.foldl_nil, e1]
  repeat' first
    | exact mapLe_nil
    | with_reducible apply mapLe_ite
    | with_reducible apply mapLe_mapAssign
    | intro _
  all_goals first
    | linarith
    | linarith [(ht (by assumption)).1, (ht (by assumption)).2]

theorem mapLe_openable (a b : OpenableWindow)
    (h : NoLargerThan (.openable a) (.openable b)) :
    MapLe a.getRequiredSections b.getRequiredSections := by
  obtain ⟨e1, e2, h1, h2, h3, h4⟩ := h
  simp only [OpenableWindow.getRequiredSections, assigns,
    List.foldl_cons, List.foldl_nil, e1, e2]
  repeat' first
    | exact mapLe_nil
    | with_reducible apply mapLe_ite
    | with_reducible apply mapLe_mapAssign
    | intro _
  all_goals linarith

theorem mapLe_door (a b : DoorWindow)
    (h : NoLargerThan (.door a) (.door b)) :
    MapLe a.getRequiredSections b.getRequiredSections := by
  obtain ⟨e1, e2, e3, e4, h1, h2, h3, h4, ht⟩ := h
  rw [e3] at ht
  simp only [DoorWindow.getRequiredSections, assigns,
    List.foldl_cons, List.foldl_nil, e1, e2, e3, e4]
  repeat' first
    | exact mapLe_nil
    | with_reducible apply mapLe_ite
    | with_reducible apply mapLe_mapAssign
    | intro _
  all_goals first
    | linarith
    | (split_ifs <;> linarith)
    | linarith [(ht (by assumption)).1, (ht (by assumption)).2]

theorem mapLe_qadial (a b : QadialArchWindow)
    (h : NoLargerThan (.qadialArch a) (.qadialArch b)) :
    MapLe a.getRequiredSections b.getRequiredSections := by
  obtain ⟨e1, e2, h1, h2, h3, h4, ht⟩ := h
  rw [e2] at ht
  simp only [QadialArchWindow.getRequiredSections, assigns,
    List.foldl_cons, List.foldl_nil, e1, e2]
  repeat' first
    | exact mapLe_nil
    | with_reducible apply mapLe_ite
    | with_reducible apply mapLe_mapAssign
    | intro _
  all_goals first
    | linarith
    | linarith [(ht (by assumption)).1, (ht (by assumption)).2]

theorem mapLe_roundArch (a b : RoundArchWindow)
    (h : NoLargerThan (.roundArch a) (.roundArch b)) :
    MapLe a.getRequiredSections b.getRequiredSections := by
  obtain ⟨e1, e2, h1, h2, h3, h4, h5, h6, ht⟩ := h
  rw [e2] at ht
  simp only [RoundArchWindow.getRequiredSections, assigns,
    List.foldl_cons, List.foldl_nil, e1, e2]
  repeat' first
    | exact mapLe_nil
    | with_reducible apply mapLe_ite
    | with_reducible apply mapLe_mapAssign
    | intro _
  all_goals first
    | linarith
    | linarith [(ht (by assumption)).1, (ht (by assumption)).2]

theorem mapLe_fixCorner (a b : FixCornerWindow)
    (h : NoLargerThan (.fixCorner a) (.fixCorner b)) :
    MapLe a.getRequiredSections b.getRequiredSections := by
  obtain ⟨e1, e2, h1, h2, h3, h4, h5, h6, ht⟩ := h
  rw [e2] at ht
  simp only [FixCornerWindow.getRequiredSections, assigns,
    List.foldl_cons, List.foldl_nil, e1, e2]
  repeat' first
    | exact mapLe_nil
    | with_reducible apply mapLe_ite
    | with_reducible apply mapLe_mapAssign
    | intro _
  all_goals first
    | linarith
    | linarith [(ht (by assumption)).1, (ht (by assumption)).2]

theorem mapLe_slide (a b : SlideCornerWindow)
    (h : NoLargerThan (.slideCorner a) (.slideCorner b)) :
    MapLe a.getRequiredSections b.getRequiredSections := by
  obtain ⟨e1, e2, e3, e4, e5, h1, h2, h3, h4, h5, h6, hd⟩ := h
  rw [e1, e2] at hd
  simp only [SlideCornerWindow.getRequiredSections, assigns,
    List.foldl_cons, List.foldl_nil, e1, e2, e3, e4, e5]
  repeat' first
    | exact mapLe_nil
    | with_reducible apply mapLe_ite
    | with_reducible apply mapLe_mapAssign
    | intro _
  all_goals first
    | linarith
    | (split_ifs <;> linarith)
    | linarith [(hd ⟨by assumption, by assumption⟩).1, (hd ⟨by assumption, by assumption⟩).2]

/-- A no-larger instance of the same configuration has a no-larger section map. -/
theorem mapLe_of_noLargerThan (a b : FrameComponent) (h : NoLargerThan a b) :
    MapLe a.getRequiredSections b.getRequiredSections := by
  cases a <;> cases b <;>
    first
      | exact mapLe_flexible _ _ h
      | exact mapLe_threePanel _ _ h
      | exact mapLe_fixWindow _ _ h
      | exact mapLe_randomFix _ _ h
      | exact mapLe_openable _ _ h
      | exact mapLe_door _ _ h
      | exact mapLe_qadial _ _ h
      | exact mapLe_roundArch _ _ h
      | exact mapLe_fixCorner _ _ h
      | exact mapLe_slide _ _ h
      | exact False.elim h

theorem round_eq_of_noLargerThan (a b : FrameComponent) (h : NoLargerThan a b) :
    a.roundToMarketFeet = b.roundToMarketFeet := by
  cases a <;> cases b <;>
    first
      | rfl
      | exact False.elim h

theorem mem_mapKeys_iff (m : SectionMap) (k : String) :
    k ∈ mapKeys m ↔ ∃ e ∈ m, e.1 = k := by
  simp [mapKeys]

/-- C27. A larger frame is never cheaper: for every shape, with flags, collar type,
subtype, net style and prefixes fixed, and a rate table that has a non-negative rate
for every required name, if every dimension of instance a is positive and no greater
than the corresponding dimension of instance b, then both prices are returned and
calculateTotalPrice(a) <= calculateTotalPrice(b). The dimensions read for every
instance (height, widths, length, arch) are compared always; the tee is compared when
a tee is included, the net width for net styles 3 and 4 with D29, the custom D29 width
for slide-corner subtype 4 with D29. A dimension the instance does not read (it stays
0 when the window has no tee, or no such net) is under no condition. -/
theorem C27_larger_frame_not_cheaper (a b : FrameComponent) (rates : SectionMap)
    (hab : NoLargerThan a b)
    (hr : ∀ e ∈ a.getRequiredSections, ∃ r, mapAt rates e.1 = some r ∧ 0 ≤ r) :
    ∃ (ta tb : ℚ) (oa ob : List Output),
      a.calculateTotalPrice rates = some (ta, oa)
      ∧ b.calculateTotalPrice rates = some (tb, ob)
      ∧ ta ≤ tb := by
  have hle := mapLe_of_noLargerThan a b hab
  have hkeys := mapKeys_eq_of_mapLe _ _ hle
  have hca : RatesComplete rates a.getRequiredSections := by
    intro e he
    obtain ⟨r, hr1, _⟩ := hr e he
    exact ⟨r, hr1⟩
  have hcb : RatesComplete rates b.getRequiredSections := by
    intro e he
    have hk : e.1 ∈ mapKeys a.getRequiredSections := by
      rw [hkeys]; exact (mem_mapKeys_iff _ _).2 ⟨e, he, rfl⟩
    obtain ⟨e', he', hk'⟩ := (mem_mapKeys_iff _ _).1 hk
    obtain ⟨r, hr1, _⟩ := hr e' he'
    exact ⟨r, by rw [← hk']; exact hr1⟩
  refine ⟨_, _, _, _, calculateTotalPrice_complete a rates hca,
    calculateTotalPrice_complete b rates hcb, ?_⟩
  rw [← round_eq_of_noLargerThan a b hab]
  apply sum_lineAmount_le a.roundToMarketFeet rates (fun x y hx hxy => round_mono a x y hx hxy)
    _ _ hle
  intro e he
  obtain ⟨r, hr1, hr2⟩ := hr e he
  simp [rateOf, hr1, hr2]

/-- Witness for C27: a FixWindow of collar type 1 without a tee (the tee field at its
initial 0) against the same window 12 in wider, and the same pair with a tee of 20 in
against one of 24 in. -/
theorem C27_larger_frame_not_cheaper_witness :
    (∃ (ta tb : ℚ) (oa ob : List Output),
      (FrameComponent.fixWindow
          { height := 48, width := 36, collerType := 1 }).calculateTotalPrice
          [("D41", 50), ("D52", 60), ("D54F", 100)] = some (ta, oa)
      ∧ (FrameComponent.fixWindow
          { height := 48, width := 48, collerType := 1 }).calculateTotalPrice
          [("D41", 50), ("D52", 60), ("D54F", 100)] = some (tb, ob)
      ∧ ta ≤ tb)
    ∧ (∃ (ta tb : ℚ) (oa ob : List Output),
      (FrameComponent.fixWindow
          { height := 48, width := 36, tee := 20, collerType := 1,
            includeTee := true }).calculateTotalPrice
          [("D41", 50), ("D52", 60), ("D54F", 100)] = some (ta, oa)
      ∧ (FrameComponent.fixWindow
          { height := 48, width := 48, tee := 24, collerType := 1,
            includeTee := true }).calculateTotalPrice
          [("D41", 50), ("D52", 60), ("D54F", 100)] = some (tb, ob)
      ∧ ta ≤ tb) :=
  ⟨C27_larger_frame_not_cheaper
      (FrameComponent.fixWindow { height := 48, width := 36, collerType := 1 })
      (FrameComponent.fixWindow { height := 48, width := 48, collerType := 1 })
      [("D41", 50), ("D52", 60), ("D54F", 100)]
      (by simp [NoLargerThan]; norm_num)
      (by
        intro e he
        simp +decide [FrameComponent.getRequiredSections, FixWindow.getRequiredSections,
          assigns, mapAssign] at he
        rcases he with rfl | rfl <;> simp [mapAt]),
    C27_larger_frame_not_cheaper
      (FrameComponent.fixWindow
        { height := 48, width := 36, tee := 20, collerType := 1, includeTee := true })
      (FrameComponent.fixWindow
        { height := 48, width := 48, tee := 24, collerType := 1, includeTee := true })
      [("D41", 50), ("D52", 60), ("D54F", 100)]
      (by simp [NoLargerThan]; norm_num)
      (by
        intro e he
        simp +decide [FrameComponent.getRequiredSections, FixWindow.getRequiredSections,
          assigns, mapAssign] at he
        rcases he with rfl | rfl | rfl <;> simp [mapAt])⟩

/-! ## C29: the two panel shapes share the collar table -/

/-- C29. ThreePanel_3glass created with prefixes DC30/DC26 and FlexiblePanelWindow
without M-series naming use the same collar table: for every collar type (1..14, and
any other integer) and all h, w their DC30F, DC30C, DC26F and DC26C entries are
identical in presence and length; the lookup of every name other than M28 and D29 is
the same in both maps, M28 being 2h in FlexiblePanelWindow and 4h in
ThreePanel_3glass. -/
theorem C29_same_collar_table (c net : ℤ) (h w n : ℚ) (d29 d29' : Bool) :
    (∀ q ∈ ["DC30F", "DC30C", "DC26F", "DC26C"],
      mapAt (FlexiblePanelWindow.getRequiredSections
          { height := h, width := w, collerType := c, includeD29 := d29,
            useMSeriesSections := false }) q
        = mapAt (ThreePanel_3glass.getRequiredSections
          { height := h, width := w, netwidth := n, collerType := c, net := net,
            includeD29 := d29', prefix30 := "DC30", prefix26 := "DC26" }) q)
    ∧ (∀ q : String, q ≠ "M28" → q ≠ "D29" →
      mapAt (FlexiblePanelWindow.getRequiredSections
          { height := h, width := w, collerType := c, includeD29 := d29,
            useMSeriesSections := false }) q
        = mapAt (ThreePanel_3glass.getRequiredSections
          { height := h, width := w, netwidth := n, collerType := c, net := net,
            includeD29 := d29', prefix30 := "DC30", prefix26 := "DC26" }) q)
    ∧ mapAt (FlexiblePanelWindow.getRequiredSections
          { height := h, width := w, collerType := c, includeD29 := d29,
            useMSeriesSections := false }) "M28" = some (2 * h)
    ∧ mapAt (ThreePanel_3glass.getRequiredSections
          { height := h, width := w, netwidth := n, collerType := c, net := net,
            includeD29 := d29', prefix30 := "DC30", prefix26 := "DC26" }) "M28"
        = some (4 * h)
    ∧ mapAt (FlexiblePanelWindow.getRequiredSections
          { height := h, width := w, collerType := c, includeD29 := true,
            useMSeriesSections := false }) "D29" = some (2 * h + w) := by
  have key : ∀ q : String, q ≠ "M28" → q ≠ "D29" →
      mapAt (FlexiblePanelWindow.getRequiredSections
          { height := h, width := w, collerType := c, includeD29 := d29,
            useMSeriesSections := false }) q
        = mapAt (ThreePanel_3glass.getRequiredSections
          { height := h, width := w, netwidth := n, collerType := c, net := net,
            includeD29 := d29', prefix30 := "DC30", prefix26 := "DC26" }) q := by
    intro q h1 h2
    simp [FlexiblePanelWindow.getRequiredSections, FlexiblePanelWindow.sec,
      ThreePanel_3glass.getRequiredSections, assigns, mapAt_mapAssign, mapAt_ite, mapAt_nil,
      h1, h2]
  refine ⟨?_, key, ?_, ?_, ?_⟩
  · intro q hq
    apply key <;>
      · simp only [List.mem_cons, List.mem_singleton, List.not_mem_nil, or_false] at hq
        rcases hq with rfl | rfl | rfl | rfl <;> decide
  · simp [FlexiblePanelWindow.getRequiredSections, assigns, mapAt_mapAssign, mapAt_ite,
      mul_comm]
  · simp [ThreePanel_3glass.getRequiredSections, assigns, mapAt_mapAssign, mapAt_ite,
      mul_comm]
  · simp [FlexiblePanelWindow.getRequiredSections, assigns, mapAt_mapAssign, mapAt_ite,
      mul_comm]

/-- Witness for C29: the DC26F entries of collar type 14 agree (both are w). -/
theorem C29_same_collar_table_witness :
    mapAt (FlexiblePanelWindow.getRequiredSections
        { height := 48, width := 36, collerType := 14, includeD29 := true,
          useMSeriesSections := false }) "DC26F"
      = mapAt (ThreePanel_3glass.getRequiredSections
        { height := 48, width := 36, netwidth := 0, collerType := 14, net := 2,
          includeD29 := true, prefix30 := "DC30", prefix26 := "DC26" }) "DC26F" :=
  (C29_same_collar_table 14 2 48 36 0 true true).2.1 "DC26F" (by decide) (by decide)

/-! ## C30: the allowance of the three-sided frames -/

set_option maxHeartbeats 4000000 in
/-- C30. For every collar type 1..14 of FlexiblePanelWindow the sum of its DC30F and
DC30C lengths (absent entries counted as 0) is 2h + w + c, and for every collar type
1..8 of DoorWindow the sum of its D54F and D54A lengths is 2h + w + c, where the
allowance c is one of 0, 3, 6, 9 and depends only on the collar type. -/
theorem C30_three_sided_allowance :
    (∀ c : ℤ, 1 ≤ c ∧ c ≤ 14 →
      flexAllowance c ∈ [(0 : ℚ), 3, 6, 9]
      ∧ ∀ (h w : ℚ) (d29 : Bool),
          lengthOf (FlexiblePanelWindow.getRequiredSections
              { height := h, width := w, collerType := c, includeD29 := d29,
                useMSeriesSections := false }) "DC30F"
            + lengthOf (FlexiblePanelWindow.getRequiredSections
              { height := h, width := w, collerType := c, includeD29 := d29,
                useMSeriesSections := false }) "DC30C"
          = 2 * h + w + flexAllowance c)
    ∧ (∀ c : ℤ, 1 ≤ c ∧ c ≤ 8 →
      doorAllowance c ∈ [(0 : ℚ), 3, 6, 9]
      ∧ ∀ (h w t : ℚ) (d46 tee dbl : Bool),
          lengthOf (DoorWindow.getRequiredSections
              { height := h, width := w, tee := t, collerType := c, includeD46 := d46,
                includeTee := tee, isDouble := dbl }) "D54F"
            + lengthOf (DoorWindow.getRequiredSections
              { height := h, width := w, tee := t, collerType := c, includeD46 := d46,
                includeTee := tee, isDouble := dbl }) "D54A"
          = 2 * h + w + doorAllowance c) := by
  refine ⟨?_, ?_⟩
  · rintro c ⟨h1, h2⟩
    refine ⟨?_, ?_⟩
    · interval_cases c <;> simp [flexAllowance]
    · intro h w d29
      interval_cases c <;>
        simp [lengthOf, FlexiblePanelWindow.getRequiredSections, FlexiblePanelWindow.sec,
          assigns, mapAt_mapAssign, mapAt_ite, mapAt_nil, flexAllowance] <;>
        ring
  · rintro c ⟨h1, h2⟩
    refine ⟨?_, ?_⟩
    · interval_cases c <;> simp [doorAllowance]
    · intro h w t d46 tee dbl
      interval_cases c <;>
        simp [lengthOf, DoorWindow.getRequiredSections, assigns, mapAt_mapAssign, mapAt_ite,
          mapAt_nil, doorAllowance] <;>
        ring

/-- Witness for C30: collar type 7 of FlexiblePanelWindow has allowance 3. -/
theorem C30_three_sided_allowance_witness :
    flexAllowance 7 ∈ [(0 : ℚ), 3, 6, 9]
    ∧ ∀ (h w : ℚ) (d29 : Bool),
        lengthOf (FlexiblePanelWindow.getRequiredSections
            { height := h, width := w, collerType := 7, includeD29 := d29,
              useMSeriesSections := false }) "DC30F"
          + lengthOf (FlexiblePanelWindow.getRequiredSections
            { height := h, width := w, collerType := 7, includeD29 := d29,
              useMSeriesSections := false }) "DC30C"
        = 2 * h + w + flexAllowance 7 :=
  C30_three_sided_allowance.1 7 ⟨by decide, by decide⟩

/-! ## C31: the D54 sections of FixWindow and OpenableWindow -/

set_option maxHeartbeats 4000000 in
/-- For every collar type of 1..14 other than 12, the D54F and D54A lengths of
FixWindow and of OpenableWindow add up to the perimeter 2(h + w) plus an allowance in
0, 3, 6, 9, 12 fixed by the collar type. -/
theorem fix_allowance_rows (c : ℤ) (hc : 1 ≤ c ∧ c ≤ 14) (h12 : c ≠ 12) :
    fixAllowance c ∈ [(0 : ℚ), 3, 6, 9, 12]
    ∧ (∀ (h w t : ℚ) (tee : Bool),
        lengthOf (FixWindow.getRequiredSections
            { height := h, width := w, tee := t, collerType := c, includeTee := tee }) "D54F"
          + lengthOf (FixWindow.getRequiredSections
            { height := h, width := w, tee := t, collerType := c, includeTee := tee }) "D54A"
        = 2 * (h + w) + fixAllowance c)
    ∧ (∀ (h w : ℚ) (net : Bool),
        lengthOf (OpenableWindow.getRequiredSections
            { height := h, width := w, collerType := c, hasNet := net }) "D54F"
          + lengthOf (OpenableWindow.getRequiredSections
            { height := h, width := w, collerType := c, hasNet := net }) "D54A"
        = 2 * (h + w) + fixAllowance c) := by
  obtain ⟨h1, h2⟩ := hc
  refine ⟨?_, ?_, ?_⟩
  · interval_cases c <;> first | exact absurd rfl h12 | simp [fixAllowance]
  · intro h w t tee
    interval_cases c <;>
      first
        | exact absurd rfl h12
        | (simp [lengthOf, FixWindow.getRequiredSections, assigns, mapAt_mapAssign, mapAt_ite,
            mapAt_nil, fixAllowance]; ring)
  · intro h w net
    interval_cases c <;>
      first
        | exact absurd rfl h12
        | (simp [lengthOf, OpenableWindow.getRequiredSections, assigns, mapAt_mapAssign,
            mapAt_ite, mapAt_nil, fixAllowance]; ring)

/-- C31 (evaluation at the failing input). For collar type 12 the D54F and D54A lengths
of FixWindow and of OpenableWindow add up to 4h + 2w, the perimeter plus 2h: at h = 48,
w = 36 the sum is 264, which is 96 above the perimeter 168, and no constant allowance
fits all h. -/
theorem C31_row12_sum_is_not_perimeter_plus_constant :
    (∀ (h w t : ℚ) (tee : Bool),
      lengthOf (FixWindow.getRequiredSections
          { height := h, width := w, tee := t, collerType := 12, includeTee := tee }) "D54F"
        + lengthOf (FixWindow.getRequiredSections
          { height := h, width := w, tee := t, collerType := 12, includeTee := tee }) "D54A"
      = 2 * (h + w) + 2 * h)
    ∧ (∀ (h w : ℚ) (net : Bool),
      lengthOf (OpenableWindow.getRequiredSections
          { height := h, width := w, collerType := 12, hasNet := net }) "D54F"
        + lengthOf (OpenableWindow.getRequiredSections
          { height := h, width := w, collerType := 12, hasNet := net }) "D54A"
      = 2 * (h + w) + 2 * h)
    ∧ lengthOf (FixWindow.getRequiredSections
          { height := 48, width := 36, collerType := 12 }) "D54F" = 144
    ∧ lengthOf (FixWindow.getRequiredSections
          { height := 48, width := 36, collerType := 12 }) "D54A" = 120
    ∧ ¬ ∃ c : ℚ, ∀ h w : ℚ,
        lengthOf (FixWindow.getRequiredSections
            { height := h, width := w, collerType := 12 }) "D54F"
          + lengthOf (FixWindow.getRequiredSections
            { height := h, width := w, collerType := 12 }) "D54A"
        = 2 * (h + w) + c := by
  have hfix : ∀ (h w t : ℚ) (tee : Bool),
      lengthOf (FixWindow.getRequiredSections
          { height := h, width := w, tee := t, collerType := 12, includeTee := tee }) "D54F"
        + lengthOf (FixWindow.getRequiredSections
          { height := h, width := w, tee := t, collerType := 12, includeTee := tee }) "D54A"
      = 2 * (h + w) + 2 * h := by
    intro h w t tee
    simp [lengthOf, FixWindow.getRequiredSections, assigns, mapAt_mapAssign, mapAt_ite,
      mapAt_nil]
    ring
  refine ⟨hfix, ?_, ?_, ?_, ?_⟩
  · intro h w net
    simp [lengthOf, OpenableWindow.getRequiredSections, assigns, mapAt_mapAssign, mapAt_ite,
      mapAt_nil]
    ring
  · simp [lengthOf, FixWindow.getRequiredSections, assigns, mapAt_mapAssign, mapAt_ite,
      mapAt_nil]
    norm_num
  · simp [lengthOf, FixWindow.getRequiredSections, assigns, mapAt_mapAssign, mapAt_ite,
      mapAt_nil]
    norm_num
  · rintro ⟨c, hc⟩
    have e1 := hc 1 1
    have e2 := hc 2 1
    rw [hfix 1 1 0 false] at e1
    rw [hfix 2 1 0 false] at e2
    linarith

/-! ## C32: the D50F and D50A sections of QadialArchWindow -/

set_option maxHeartbeats 4000000 in
/-- For the collar types 1, 2, 3, 4, 7 and 8 the D50F and D50A lengths of
QadialArchWindow add up to the perimeter 2(h + w) plus an allowance in 0, 3, 6, 9
fixed by the collar type. -/
theorem qadial_allowance_rows (c : ℤ) (hc : 1 ≤ c ∧ c ≤ 8) (h5 : c ≠ 5) (h6 : c ≠ 6) :
    qadialAllowance c ∈ [(0 : ℚ), 3, 6, 9]
    ∧ (∀ (h w t : ℚ) (tee : Bool),
        lengthOf (QadialArchWindow.getRequiredSections
            { height := h, width := w, T := t, collerType := c, includeTee := tee }) "D50F"
          + lengthOf (QadialArchWindow.getRequiredSections
            { height := h, width := w, T := t, collerType := c, includeTee := tee }) "D50A"
        = 2 * (h + w) + qadialAllowance c) := by
  obtain ⟨h1, h2⟩ := hc
  refine ⟨?_, ?_⟩
  · interval_cases c <;>
      first | exact absurd rfl h5 | exact absurd rfl h6 | simp [qadialAllowance]
  · intro h w t tee
    interval_cases c <;>
      first
        | exact absurd rfl h5
        | exact absurd rfl h6
        | (simp [lengthOf, QadialArchWindow.getRequiredSections, assigns, mapAt_mapAssign,
            mapAt_ite, mapAt_nil, qadialAllowance]; ring)

/-- C32 (evaluation at the failing inputs). For collar type 5 the D50F and D50A lengths
of QadialArchWindow add up to h + 2w + 6, one height short of the perimeter plus 6,
and for collar type 6 to 3h + 2w + 3, one height above the perimeter plus 3: at h = 48,
w = 36 the sums are 126 and 219 against the perimeter 168, and for neither row does a
constant allowance fit all h. -/
theorem C32_rows_5_and_6_are_not_perimeter_plus_constant :
    (∀ (h w t : ℚ) (tee : Bool),
      lengthOf (QadialArchWindow.getRequiredSections
          { height := h, width := w, T := t, collerType := 5, includeTee := tee }) "D50F"
        + lengthOf (QadialArchWindow.getRequiredSections
          { height := h, width := w, T := t, collerType := 5, includeTee := tee }) "D50A"
      = 2 * (h + w) + 6 - h)
    ∧ (∀ (h w t : ℚ) (tee : Bool),
      lengthOf (QadialArchWindow.getRequiredSections
          { height := h, width := w, T := t, collerType := 6, includeTee := tee }) "D50F"
        + lengthOf (QadialArchWindow.getRequiredSections
          { height := h, width := w, T := t, collerType := 6, includeTee := tee }) "D50A"
      = 2 * (h + w) + 3 + h)
    ∧ lengthOf (QadialArchWindow.getRequiredSections
          { height := 48, width := 36, collerType := 5 }) "D50F"
        + lengthOf (QadialArchWindow.getRequiredSections
          { height := 48, width := 36, collerType := 5 }) "D50A" = 126
    ∧ lengthOf (QadialArchWindow.getRequiredSections
          { height := 48, width := 36, collerType := 6 }) "D50F"
        + lengthOf (QadialArchWindow.getRequiredSections
          { height := 48, width := 36, collerType := 6 }) "D50A" = 219
    ∧ (¬ ∃ c : ℚ, ∀ h w : ℚ,
        lengthOf (QadialArchWindow.getRequiredSections
            { height := h, width := w, collerType := 5 }) "D50F"
          + lengthOf (QadialArchWindow.getRequiredSections
            { height := h, width := w, collerType := 5 }) "D50A"
        = 2 * (h + w) + c)
    ∧ (¬ ∃ c : ℚ, ∀ h w : ℚ,
        lengthOf (QadialArchWindow.getRequiredSections
            { height := h, width := w, collerType := 6 }) "D50F"
          + lengthOf (QadialArchWindow.getRequiredSections
            { height := h, width := w, collerType := 6 }) "D50A"
        = 2 * (h + w) + c) := by
  have h5 : ∀ (h w t : ℚ) (tee : Bool),
      lengthOf (QadialArchWindow.getRequiredSections
          { height := h, width := w, T := t, collerType := 5, includeTee := tee }) "D50F"
        + lengthOf (QadialArchWindow.getRequiredSections
          { height := h, width := w, T := t, collerType := 5, includeTee := tee }) "D50A"
      = 2 * (h + w) + 6 - h := by
    intro h w t tee
    simp [lengthOf, QadialArchWindow.getRequiredSections, assigns, mapAt_mapAssign, mapAt_ite,
      mapAt_nil]
    ring
  have h6 : ∀ (h w t : ℚ) (tee : Bool),
      lengthOf (QadialArchWindow.getRequiredSections
          { height := h, width := w, T := t, collerType := 6, includeTee := tee }) "D50F"
        + lengthOf (QadialArchWindow.getRequiredSections
          { height := h, width := w, T := t, collerType := 6, includeTee := tee }) "D50A"
      = 2 * (h + w) + 3 + h := by
    intro h w t tee
    simp [lengthOf, QadialArchWindow.getRequiredSections, assigns, mapAt_mapAssign, mapAt_ite,
      mapAt_nil]
    ring
  refine ⟨h5, h6, ?_, ?_, ?_, ?_⟩
  · rw [h5 48 36 0 false]; norm_num
  · rw [h6 48 36 0 false]; norm_num
  · rintro ⟨c, hc⟩
    have e1 := hc 1 1
    have e2 := hc 2 1
    rw [h5 1 1 0 false] at e1
    rw [h5 2 1 0 false] at e2
    linarith
  · rintro ⟨c, hc⟩
    have e1 := hc 1 1
    have e2 := hc 2 1
    rw [h6 1 1 0 false] at e1
    rw [h6 2 1 0 false] at e2
    linarith

/-! ## Lemmas on suffixed names -/

/-- Names with different last characters are different. -/
theorem suffix_A_ne_F (p q : String) : p ++ "A" ≠ q ++ "F" := by
  intro h
  have h2 := congrArg (fun s : String => s.data.getLast?) h
  simp at h2

/-- A name built as prefix plus `A` or `F` is none of `D29`, `M23`, `M24`, `M28`. -/
theorem suffixed_ne_common (p : String) :
    (p ++ "A" ≠ "D29" ∧ p ++ "A" ≠ "M23" ∧ p ++ "A" ≠ "M24" ∧ p ++ "A" ≠ "M28")
    ∧ (p ++ "F" ≠ "D29" ∧ p ++ "F" ≠ "M23" ∧ p ++ "F" ≠ "M24" ∧ p ++ "F" ≠ "M28") := by
  refine ⟨⟨?_, ?_, ?_, ?_⟩, ⟨?_, ?_, ?_, ?_⟩⟩ <;>
    · intro h
      have h2 := congrArg (fun s : String => s.data.getLast?) h
      simp at h2

/-- The same suffix on different prefixes gives different names. -/
theorem suffixed_ne_of_ne (p q suffix : String) (h : p ≠ q) : p ++ suffix ≠ q ++ suffix := by
  intro he
  apply h
  have h2 := congrArg String.data he
  simp only [String.data_append] at h2
  have h3 := List.append_cancel_right h2
  exact String.ext h3

/-! ## C33: slide-corner subtypes 1 and 2 -/

theorem in_or_out_5 (c : ℤ) : (1 ≤ c ∧ c ≤ 5) ∨ (c < 1 ∨ 5 < c) := by omega

/-- The four common names are no suffixed name. -/
theorem common_ne_suffixed (p : String) :
    ("D29" ≠ p ++ "A" ∧ "M23" ≠ p ++ "A" ∧ "M24" ≠ p ++ "A" ∧ "M28" ≠ p ++ "A")
    ∧ ("D29" ≠ p ++ "F" ∧ "M23" ≠ p ++ "F" ∧ "M24" ≠ p ++ "F" ∧ "M28" ≠ p ++ "F") := by
  obtain ⟨⟨a1, a2, a3, a4⟩, ⟨f1, f2, f3, f4⟩⟩ := suffixed_ne_common p
  exact ⟨⟨a1.symm, a2.symm, a3.symm, a4.symm⟩, ⟨f1.symm, f2.symm, f3.symm, f4.symm⟩⟩

set_option maxHeartbeats 4000000 in
/-- The lookups of a slide-corner window of subtype 1..5 with distinct prefixes, with
the collar style off and on. -/
theorem slide_collar_lookups (height wl wr d : ℚ) (sub : ℤ) (d29 : Bool) (s30 s26 : String)
    (hne : s30 ≠ s26) (hsub : 1 ≤ sub ∧ sub ≤ 5) :
    (∃ v30 : ℚ,
      mapAt (SlideCornerWindow.getRequiredSections
          { height := height, wl := wl, wr := wr, d29Width := d, subtype := sub,
            includeD29 := d29, useColler := false, sec30 := s30, sec26 := s26 }) (s30 ++ "A")
        = some v30
      ∧ mapAt (SlideCornerWindow.getRequiredSections
          { height := height, wl := wl, wr := wr, d29Width := d, subtype := sub,
            includeD29 := d29, useColler := true, sec30 := s30, sec26 := s26 }) (s30 ++ "F")
        = some (v30 + 12))
    ∧ (∃ v26 : ℚ,
      mapAt (SlideCornerWindow.getRequiredSections
          { height := height, wl := wl, wr := wr, d29Width := d, subtype := sub,
            includeD29 := d29, useColler := false, sec30 := s30, sec26 := s26 }) (s26 ++ "A")
        = some v26
      ∧ mapAt (SlideCornerWindow.getRequiredSections
          { height := height, wl := wl, wr := wr, d29Width := d, subtype := sub,
            includeD29 := d29, useColler := true, sec30 := s30, sec26 := s26 }) (s26 ++ "F")
        = some (v26 + 6))
    ∧ (∀ q ∈ [s30 ++ "A", s26 ++ "A"],
      mapAt (SlideCornerWindow.getRequiredSections
          { height := height, wl := wl, wr := wr, d29Width := d, subtype := sub,
            includeD29 := d29, useColler := true, sec30 := s30, sec26 := s26 }) q = none)
    ∧ (∀ q ∈ [s30 ++ "F", s26 ++ "F"],
      mapAt (SlideCornerWindow.getRequiredSections
          { height := height, wl := wl, wr := wr, d29Width := d, subtype := sub,
            includeD29 := d29, useColler := false, sec30 := s30, sec26 := s26 }) q = none) := by
  obtain ⟨h1, h2⟩ := hsub
  obtain ⟨⟨a1, a2, a3, a4⟩, ⟨f1, f2, f3, f4⟩⟩ := suffixed_ne_common s30
  obtain ⟨⟨b1, b2, b3, b4⟩, ⟨g1, g2, g3, g4⟩⟩ := suffixed_ne_common s26
  have nA : s30 ++ "A" ≠ s26 ++ "A" := suffixed_ne_of_ne s30 s26 "A" hne
  have nA' : s26 ++ "A" ≠ s30 ++ "A" := nA.symm
  have nF : s30 ++ "F" ≠ s26 ++ "F" := suffixed_ne_of_ne s30 s26 "F" hne
  have nF' : s26 ++ "F" ≠ s30 ++ "F" := nF.symm
  have x1 : s30 ++ "A" ≠ s30 ++ "F" := suffix_A_ne_F s30 s30
  have x2 : s30 ++ "A" ≠ s26 ++ "F" := suffix_A_ne_F s30 s26
  have x3 : s26 ++ "A" ≠ s30 ++ "F" := suffix_A_ne_F s26 s30
  have x4 : s26 ++ "A" ≠ s26 ++ "F" := suffix_A_ne_F s26 s26
  have y1 := x1.symm
  have y2 := x2.symm
  have y3 := x3.symm
  have y4 := x4.symm
  refine ⟨?_, ?_, ?_, ?_⟩
  · interval_cases sub
    · refine ⟨(height + wl + wr) * 2, ?_, ?_⟩ <;>
        simp [SlideCornerWindow.getRequiredSections, assigns, mapAt_mapAssign, mapAt_ite,
          mapAt_nil, a1, a2, a3, a4, f1, f2, f3, f4, nA, nF]
    · refine ⟨(height + wl + wr) * 2, ?_, ?_⟩ <;>
        simp [SlideCornerWindow.getRequiredSections, assigns, mapAt_mapAssign, mapAt_ite,
          mapAt_nil, a1, a2, a3, a4, f1, f2, f3, f4, nA, nF]
    · refine ⟨height * 2 + wl + wr, ?_, ?_⟩ <;>
        simp [SlideCornerWindow.getRequiredSections, assigns, mapAt_mapAssign, mapAt_ite,
          mapAt_nil, a1, a2, a3, a4, f1, f2, f3, f4, nA, nF]
    · refine ⟨height * 2 + wl + wr, ?_, ?_⟩ <;>
        simp [SlideCornerWindow.getRequiredSections, assigns, mapAt_mapAssign, mapAt_ite,
          mapAt_nil, a1, a2, a3, a4, f1, f2, f3, f4, nA, nF]
    · refine ⟨height * 2 + wl + wr, ?_, ?_⟩ <;>
        simp [SlideCornerWindow.getRequiredSections, assigns, mapAt_mapAssign, mapAt_ite,
          mapAt_nil, a1, a2, a3, a4, f1, f2, f3, f4, nA, nF]
  · refine ⟨wl + wr, ?_, ?_⟩ <;> interval_cases sub <;>
      simp [SlideCornerWindow.getRequiredSections, assigns, mapAt_mapAssign, mapAt_ite,
        mapAt_nil, b1, b2, b3, b4, g1, g2, g3, g4]
  · intro q hq
    simp only [List.mem_cons, List.mem_singleton, List.not_mem_nil, or_false] at hq
    rcases hq with rfl | rfl <;> interval_cases sub <;>
      simp [SlideCornerWindow.getRequiredSections, assigns, mapAt_mapAssign, mapAt_ite,
        mapAt_nil, a1, a2, a3, a4, b1, b2, b3, b4, x1, x2, x3, x4]
  · intro q hq
    simp only [List.mem_cons, List.mem_singleton, List.not_mem_nil, or_false] at hq
    rcases hq with rfl | rfl <;> interval_cases sub <;>
      simp [SlideCornerWindow.getRequiredSections, assigns, mapAt_mapAssign, mapAt_ite,
        mapAt_nil, f1, f2, f3, f4, g1, g2, g3, g4, y1, y2, y3, y4]

/-- The prefixes of the slide-corner windows made by the factory differ. -/
theorem createComponent_slide_prefixes (sel : ℤ) (c : SlideCornerWindow)
    (h : createComponent sel = some (.slideCorner c)) : c.sec30 ≠ c.sec26 := by
  rcases in_or_out_14 sel with ⟨h1, h2⟩ | hc
  · interval_cases sel <;> simp [createComponent] at h <;> subst h <;> decide
  · obtain ⟨h1, h2, h3, h4, h5, h6, h7, h8, h9, h10, h11, h12, h13, h14⟩ :=
      ne_of_outside_14 _ hc
    simp [createComponent, h1, h2, h3, h4, h5, h6, h7, h8, h9, h10, h11, h12, h13, h14] at h

/-- The section map of a slide-corner window of a subtype outside 1..5. -/
theorem slide_outside_sections (s : SlideCornerWindow) (h : s.subtype < 1 ∨ 5 < s.subtype) :
    s.getRequiredSections
      = [("M23", s.height * 2), ("M24", (s.wl + s.wr) * 2), ("M28", s.height * 4)] := by
  have h1 : s.subtype ≠ 1 := by omega
  have h2 : s.subtype ≠ 2 := by omega
  have h3 : s.subtype ≠ 3 := by omega
  have h4 : s.subtype ≠ 4 := by omega
  have h5 : s.subtype ≠ 5 := by omega
  simp +decide [SlideCornerWindow.getRequiredSections, assigns, mapAssign, h1, h2, h3, h4, h5]

set_option maxHeartbeats 4000000 in
/-- The four common entries of a slide-corner window do not depend on the collar style
(for any prefixes and any subtype). -/
theorem slide_common_entries (height wl wr d : ℚ) (sub : ℤ) (d29 uc : Bool)
    (s30 s26 q : String) (hq : q ∈ ["D29", "M23", "M28", "M24"]) :
    mapAt (SlideCornerWindow.getRequiredSections
        { height := height, wl := wl, wr := wr, d29Width := d, subtype := sub,
          includeD29 := d29, useColler := uc, sec30 := s30, sec26 := s26 }) q
      = mapAt (SlideCornerWindow.getRequiredSections
        { height := height, wl := wl, wr := wr, d29Width := d, subtype := sub,
          includeD29 := d29, useColler := false, sec30 := s30, sec26 := s26 }) q := by
  obtain ⟨⟨a1, a2, a3, a4⟩, ⟨f1, f2, f3, f4⟩⟩ := common_ne_suffixed s30
  obtain ⟨⟨b1, b2, b3, b4⟩, ⟨g1, g2, g3, g4⟩⟩ := common_ne_suffixed s26
  cases uc
  · rfl
  · simp only [List.mem_cons, List.mem_singleton, List.not_mem_nil, or_false] at hq
    rcases hq with rfl | rfl | rfl | rfl <;>
      simp [SlideCornerWindow.getRequiredSections, assigns, mapAt_mapAssign, mapAt_ite,
        mapAt_nil, a1, a2, a3, a4, b1, b2, b3, b4, f1, f2, f3, f4, g1, g2, g3, g4,
        apply_ite (fun m => mapAt m _)]

/-- C34. For a SlideCornerWindow whose two prefixes differ (as those of both windows
made by the factory do: DC30 and DC26 for selector 13, M30 and M26 for selector 14)
and whose subtype is in 1..5, switching the collar-style flag from off to on renames
the two frame entries from suffix A to suffix F: with the flag off the map has
sec30+"A" and sec26+"A" and neither F name, with the flag on it has sec30+"F" and
sec26+"F" and neither A name; the first length grows by exactly 12 and the second by
exactly 6; D29, M23, M28 and M24 are unchanged. For a subtype outside 1..5 the flag
has no effect and the map consists of M23, M24 and M28 only. -/
theorem C34_collar_style_flag (s : SlideCornerWindow) :
    (∀ sel : ℤ, ∀ c : SlideCornerWindow,
        createComponent sel = some (.slideCorner c) → c.sec30 ≠ c.sec26)
    ∧ (s.sec30 ≠ s.sec26 → 1 ≤ s.subtype ∧ s.subtype ≤ 5 →
        (∃ v30 : ℚ,
          mapAt ({ s with useColler := false } : SlideCornerWindow).getRequiredSections
              (s.sec30 ++ "A") = some v30
          ∧ mapAt ({ s with useColler := true } : SlideCornerWindow).getRequiredSections
              (s.sec30 ++ "F") = some (v30 + 12))
        ∧ (∃ v26 : ℚ,
          mapAt ({ s with useColler := false } : SlideCornerWindow).getRequiredSections
              (s.sec26 ++ "A") = some v26
          ∧ mapAt ({ s with useColler := true } : SlideCornerWindow).getRequiredSections
              (s.sec26 ++ "F") = some (v26 + 6))
        ∧ (∀ q ∈ [s.sec30 ++ "A", s.sec26 ++ "A"],
          mapAt ({ s with useColler := true } : SlideCornerWindow).getRequiredSections q
            = none)
        ∧ (∀ q ∈ [s.sec30 ++ "F", s.sec26 ++ "F"],
          mapAt ({ s with useColler := false } : SlideCornerWindow).getRequiredSections q
            = none)
        ∧ (∀ q ∈ ["D29", "M23", "M28", "M24"],
          mapAt ({ s with useColler := true } : SlideCornerWindow).getRequiredSections q
            = mapAt ({ s with useColler := false } : SlideCornerWindow).getRequiredSections
                q))
    ∧ (s.subtype < 1 ∨ 5 < s.subtype →
        ({ s with useColler := true } : SlideCornerWindow).getRequiredSections
          = ({ s with useColler := false } : SlideCornerWindow).getRequiredSections
        ∧ mapKeys s.getRequiredSections = ["M23", "M24", "M28"]) := by
  refine ⟨createComponent_slide_prefixes, ?_, ?_⟩
  · intro hne hsub
    obtain ⟨h30, h26, hA, hF⟩ :=
      slide_collar_lookups s.height s.wl s.wr s.d29Width s.subtype s.includeD29
        s.sec30 s.sec26 hne hsub
    exact ⟨h30, h26, hA, hF, fun q hq =>
      slide_common_entries s.height s.wl s.wr s.d29Width s.subtype s.includeD29 true
        s.sec30 s.sec26 q hq⟩
  · intro hsub
    refine ⟨?_, ?_⟩
    · rw [slide_outside_sections { s with useColler := true } hsub,
        slide_outside_sections { s with useColler := false } hsub]
    · rw [slide_outside_sections s hsub]
      rfl

/-- Witness for C34: the left-side-fix window of selector 13 at height 48 and widths
36 and 24, and the same window with the subtype 0. -/
theorem C34_collar_style_flag_witness :
    ((∃ v30 : ℚ,
        mapAt (SlideCornerWindow.getRequiredSections
            { height := 48, wl := 36, wr := 24, subtype := 1, useColler := false,
              sec30 := "DC30", sec26 := "DC26" }) "DC30A" = some v30
        ∧ mapAt (SlideCornerWindow.getRequiredSections
            { height := 48, wl := 36, wr := 24, subtype := 1, useColler := true,
              sec30 := "DC30", sec26 := "DC26" }) "DC30F" = some (v30 + 12))
      ∧ (∃ v26 : ℚ,
        mapAt (SlideCornerWindow.getRequiredSections
            { height := 48, wl := 36, wr := 24, subtype := 1, useColler := false,
              sec30 := "DC30", sec26 := "DC26" }) "DC26A" = some v26
        ∧ mapAt (SlideCornerWindow.getRequiredSections
            { height := 48, wl := 36, wr := 24, subtype := 1, useColler := true,
              sec30 := "DC30", sec26 := "DC26" }) "DC26F" = some (v26 + 6)))
    ∧ mapKeys (SlideCornerWindow.getRequiredSections
        { height := 48, wl := 36, wr := 24, subtype := 0,
          sec30 := "DC30", sec26 := "DC26" }) = ["M23", "M24", "M28"] :=
  ⟨⟨((C34_collar_style_flag
        { height := 48, wl := 36, wr := 24, subtype := 1,
          sec30 := "DC30", sec26 := "DC26" }).2.1 (by decide) (by decide)).1,
    ((C34_collar_style_flag
        { height := 48, wl := 36, wr := 24, subtype := 1,
          sec30 := "DC30", sec26 := "DC26" }).2.1 (by decide) (by decide)).2.1⟩,
   ((C34_collar_style_flag
      { height := 48, wl := 36, wr := 24, subtype := 0,
        sec30 := "DC30", sec26 := "DC26" }).2.2 (by decide)).2⟩

end WindowFabricator
